import Mathlib

/-
Verification development for the maintenance-management front end
(`src/services/api.js`, `src/services/alerts.js`, `src/services/constants.js`, the six
resource screens, the dashboard, the assistant widget and the shell under
`src/components`).

Asynchronous handlers are embedded as pure functions: every value a handler
awaits (the outcome of `fetch`, of an `apiService` call, of the confirmation
dialog) is an argument, and the handler returns the React state it leaves
behind together with the ordered list of calls it made to its collaborators.
-/

namespace Maintenance

/- ------------------------------------------------------------------ -/
/- JavaScript primitives                                               -/
/- ------------------------------------------------------------------ -/

/-- Search of `needle` as a contiguous block of `haystack`, position by position. -/
def includesFrom (needle : List Char) : List Char → Bool
  | [] => needle.isEmpty
  | c :: cs => needle.isPrefixOf (c :: cs) || includesFrom needle cs

/-- The method `String.prototype.includes`: `s.includes(needle)`. -/
def includes (s needle : String) : Bool :=
  includesFrom needle.data s.data

/-- The code points ECMAScript treats as WhiteSpace or LineTerminator: what `trim`
strips and what the regular-expression class `\s` matches. -/
def isJsWhiteSpace (c : Char) : Bool :=
  [0x09, 0x0A, 0x0B, 0x0C, 0x0D, 0x20, 0xA0, 0x1680, 0x2028, 0x2029, 0x202F, 0x205F,
    0x3000, 0xFEFF].contains c.toNat
  || (0x2000 ≤ c.toNat && c.toNat ≤ 0x200A)

/-- The method `String.prototype.trim`. -/
def trim (s : String) : String :=
  ⟨((s.data.dropWhile isJsWhiteSpace).reverse.dropWhile isJsWhiteSpace).reverse⟩

/-- Truthiness of a string: only the empty string is falsy. -/
def truthyStr (s : String) : Bool :=
  !s.data.isEmpty

/-- A string made of white space only (the empty string included). -/
def isBlank (s : String) : Bool :=
  s.data.all isJsWhiteSpace

/-- An `Error` object, identified by its `message`. -/
structure JsError where
  message : String
deriving DecidableEq, Repr

/-- A JavaScript number: `NaN`, the two infinities, or a finite value. -/
inductive JsNumber where
  | nan
  | fin (q : ℚ)
  | posInf
  | negInf
deriving DecidableEq

/-- The comparison `x <= 0` on numbers (false on `NaN`). -/
def JsNumber.leZero : JsNumber → Bool
  | .nan => false
  | .fin q => decide (q ≤ 0)
  | .posInf => false
  | .negInf => true

/-- Truthiness of a number: `0` and `NaN` are falsy. -/
def JsNumber.truthy : JsNumber → Bool
  | .nan => false
  | .fin q => decide (q ≠ 0)
  | .posInf => true
  | .negInf => true

/-- A JSON-serialisable value. -/
inductive Json where
  | null
  | bool (b : Bool)
  | num (n : JsNumber)
  | str (s : String)
  | arr (items : List Json)
  | obj (props : List (String × Json))

/-- A property of a record received from the backend: absent, `null`, or a value. -/
inductive Field (α : Type) where
  | undefined
  | null
  | val (a : α)
deriving DecidableEq, Repr

/-- The expression `x || ''` for a string property `x`. -/
def Field.orEmpty : Field String → String
  | .val s => s
  | _ => ""

/-- Rendering of a string property inside a template literal. -/
def Field.template : Field String → String
  | .undefined => "undefined"
  | .null => "null"
  | .val s => s

/-- The built-ins of the host that the sources call and that are taken as given:
`JSON.stringify`, `parseInt` and `parseFloat` on strings, the time value of
`new Date(string)` (`none` for an invalid date), the addition `x + y` of two numbers and
the method `x.toFixed(2)`. -/
structure Platform where
  stringify : Json → String
  parseInt : String → JsNumber
  parseFloat : String → JsNumber
  dateValue : String → Option Int
  add : JsNumber → JsNumber → JsNumber
  toFixed2 : JsNumber → String

/- ------------------------------------------------------------------ -/
/- Object literals with spread                                         -/
/- ------------------------------------------------------------------ -/

/-- Header maps: own enumerable properties in insertion order. -/
abbrev Headers := List (String × String)

/-- Define or overwrite property `k`: an existing key keeps its position. -/
def setProp {α : Type} (o : List (String × α)) (k : String) (v : α) : List (String × α) :=
  if o.any (fun p => p.1 == k) then o.map (fun p => if p.1 == k then (k, v) else p)
  else o ++ [(k, v)]

/-- Object spread `{...target, ...source}`: the properties of `source` are copied
onto `target` in order, later writes winning. -/
def spread {α : Type} (target source : List (String × α)) : List (String × α) :=
  source.foldl (fun acc p => setProp acc p.1 p.2) target

/-- Property read `o[k]`, `none` standing for `undefined`. -/
def getProp {α : Type} (o : List (String × α)) (k : String) : Option α :=
  (o.find? (fun p => p.1 == k)).map (fun p => p.2)

/- ------------------------------------------------------------------ -/
/- services/api.js                                                     -/
/- ------------------------------------------------------------------ -/

/-- The constant `API_BASE_URL`. -/
def API_BASE_URL : String := "http://localhost:8080/api"

/-- The `options` argument of `request`: the properties callers may set. -/
structure RequestOptions where
  method : Option String := none
  body : Option String := none
  headers : Option Headers := none
deriving DecidableEq, Repr

/-- A value of the `config` object handed to `fetch`. -/
inductive ConfigValue where
  | str (s : String)
  | headers (h : Headers)
deriving DecidableEq, Repr

/-- The own properties of an `options` object. -/
def RequestOptions.props (o : RequestOptions) : List (String × ConfigValue) :=
  (match o.method with | some m => [("method", ConfigValue.str m)] | none => [])
  ++ (match o.body with | some b => [("body", ConfigValue.str b)] | none => [])
  ++ (match o.headers with | some h => [("headers", ConfigValue.headers h)] | none => [])

/-- The spread `...options.headers` (nothing when `options.headers` is undefined). -/
def RequestOptions.headerProps (o : RequestOptions) : Headers :=
  match o.headers with
  | some h => h
  | none => []

/-- The `config` object built by `request`:
`{ headers: { 'Content-Type': 'application/json', ...options.headers }, ...options }`. -/
def buildConfig (options : RequestOptions) : List (String × ConfigValue) :=
  spread
    [("headers", ConfigValue.headers (spread [("Content-Type", "application/json")] options.headerProps))]
    options.props

/-- The response handle resolved by `fetch`; `json` is what `response.json()` settles to
and `contentType` is `response.headers.get('content-type')`. -/
structure Response (β : Type) where
  ok : Bool
  status : Nat
  contentType : Option String
  json : Except JsError β

/-- What `request` resolves to: the decoded body or the response handle itself. -/
inductive Returned (β : Type) where
  | parsed (body : β)
  | raw (response : Response β)

/-- Calls made by `request` to the outside. -/
inductive NetEvent where
  | fetch (url : String) (config : List (String × ConfigValue))
  | json
  | consoleError (text : String)
deriving DecidableEq, Repr

/-- The outcome of an asynchronous function: what it did and how its promise settled. -/
structure Settled (ε α : Type) where
  events : List ε
  result : Except JsError α

/-- The `try` block of `request`, after `fetch` has settled to `fetched`. -/
def requestTry {β : Type} (fetched : Except JsError (Response β)) :
    Settled NetEvent (Returned β) :=
  match fetched with
  | .error e => ⟨[], .error e⟩
  | .ok response =>
    if !response.ok then
      ⟨[], .error ⟨"HTTP error! status: " ++ Nat.repr response.status⟩⟩
    else
      match response.contentType with
      | some contentType =>
        if truthyStr contentType && includes contentType "application/json" then
          ⟨[.json], match response.json with
                    | .ok body => .ok (.parsed body)
                    | .error e => .error e⟩
        else ⟨[], .ok (.raw response)⟩
      | none => ⟨[], .ok (.raw response)⟩

/-- The method `ApiService.request(endpoint, options)`. -/
def request {β : Type} (endpoint : String) (options : RequestOptions)
    (fetched : Except JsError (Response β)) : Settled NetEvent (Returned β) :=
  let url := API_BASE_URL ++ endpoint
  let config := buildConfig options
  let attempt := requestTry fetched
  match attempt.result with
  | .ok value => ⟨NetEvent.fetch url config :: attempt.events, .ok value⟩
  | .error error =>
    ⟨NetEvent.fetch url config :: attempt.events
        ++ [NetEvent.consoleError ("API request failed: " ++ error.message)],
      .error error⟩

/-- A call of `this.request(endpoint, options)` as issued by an `ApiService` method;
`options` is the empty object when the method passes none. -/
structure ApiCall where
  endpoint : String
  options : RequestOptions := {}
deriving DecidableEq, Repr

/-- Running a call: `request` applied to its arguments once `fetch` has settled. -/
def ApiCall.run {β : Type} (call : ApiCall) (fetched : Except JsError (Response β)) :
    Settled NetEvent (Returned β) :=
  request call.endpoint call.options fetched

/-- The method `ApiService.getClients()`. -/
def getClients : ApiCall :=
  { endpoint := "/clients" }

/-- The method `ApiService.getClient(id)`. -/
def getClient (id : Nat) : ApiCall :=
  { endpoint := "/clients/" ++ Nat.repr id }

/-- The method `ApiService.createClient(clientData)`. -/
def createClient (js : Platform) (clientData : Json) : ApiCall :=
  { endpoint := "/clients", options := { method := some "POST", body := some (js.stringify clientData) } }

/-- The method `ApiService.updateClient(id, clientData)`. -/
def updateClient (js : Platform) (id : Nat) (clientData : Json) : ApiCall :=
  { endpoint := "/clients/" ++ Nat.repr id,
    options := { method := some "PUT", body := some (js.stringify clientData) } }

/-- The method `ApiService.deleteClient(id)`. -/
def deleteClient (id : Nat) : ApiCall :=
  { endpoint := "/clients/" ++ Nat.repr id, options := { method := some "DELETE" } }

/-- The method `ApiService.getContracts()`. -/
def getContracts : ApiCall :=
  { endpoint := "/contracts" }

/-- The method `ApiService.getContract(id)`. -/
def getContract (id : Nat) : ApiCall :=
  { endpoint := "/contracts/" ++ Nat.repr id }

/-- The method `ApiService.createContract(contractData)`. -/
def createContract (js : Platform) (contractData : Json) : ApiCall :=
  { endpoint := "/contracts", options := { method := some "POST", body := some (js.stringify contractData) } }

/-- The method `ApiService.updateContract(id, contractData)`. -/
def updateContract (js : Platform) (id : Nat) (contractData : Json) : ApiCall :=
  { endpoint := "/contracts/" ++ Nat.repr id,
    options := { method := some "PUT", body := some (js.stringify contractData) } }

/-- The method `ApiService.deleteContract(id)`. -/
def deleteContract (id : Nat) : ApiCall :=
  { endpoint := "/contracts/" ++ Nat.repr id, options := { method := some "DELETE" } }

/-- The method `ApiService.getFactures()`. -/
def getFactures : ApiCall :=
  { endpoint := "/factures" }

/-- The method `ApiService.getFacture(id)`. -/
def getFacture (id : Nat) : ApiCall :=
  { endpoint := "/factures/" ++ Nat.repr id }

/-- The method `ApiService.createFacture(factureData)`. -/
def createFacture (js : Platform) (factureData : Json) : ApiCall :=
  { endpoint := "/factures", options := { method := some "POST", body := some (js.stringify factureData) } }

/-- The method `ApiService.updateFacture(id, factureData)`. -/
def updateFacture (js : Platform) (id : Nat) (factureData : Json) : ApiCall :=
  { endpoint := "/factures/" ++ Nat.repr id,
    options := { method := some "PUT", body := some (js.stringify factureData) } }

/-- The method `ApiService.deleteFacture(id)`. -/
def deleteFacture (id : Nat) : ApiCall :=
  { endpoint := "/factures/" ++ Nat.repr id, options := { method := some "DELETE" } }

/-- The method `ApiService.getChiffreAffaires()`. -/
def getChiffreAffaires : ApiCall :=
  { endpoint := "/factures/chiffre-affaires" }

/-- The method `ApiService.getInterventions()`. -/
def getInterventions : ApiCall :=
  { endpoint := "/interventions" }

/-- The method `ApiService.getIntervention(id)`. -/
def getIntervention (id : Nat) : ApiCall :=
  { endpoint := "/interventions/" ++ Nat.repr id }

/-- The method `ApiService.createIntervention(interventionData)`. -/
def createIntervention (js : Platform) (interventionData : Json) : ApiCall :=
  { endpoint := "/interventions", options := { method := some "POST", body := some (js.stringify interventionData) } }

/-- The method `ApiService.updateIntervention(id, interventionData)`. -/
def updateIntervention (js : Platform) (id : Nat) (interventionData : Json) : ApiCall :=
  { endpoint := "/interventions/" ++ Nat.repr id,
    options := { method := some "PUT", body := some (js.stringify interventionData) } }

/-- The method `ApiService.deleteIntervention(id)`. -/
def deleteIntervention (id : Nat) : ApiCall :=
  { endpoint := "/interventions/" ++ Nat.repr id, options := { method := some "DELETE" } }

/-- The method `ApiService.getUpcomingInterventions()`. -/
def getUpcomingInterventions : ApiCall :=
  { endpoint := "/interventions/upcoming" }

/-- The method `ApiService.getEquipment()`. -/
def getEquipment : ApiCall :=
  { endpoint := "/equipment" }

/-- The method `ApiService.getEquipmentItem(id)`. -/
def getEquipmentItem (id : Nat) : ApiCall :=
  { endpoint := "/equipment/" ++ Nat.repr id }

/-- The method `ApiService.createEquipment(equipmentData)`. -/
def createEquipment (js : Platform) (equipmentData : Json) : ApiCall :=
  { endpoint := "/equipment", options := { method := some "POST", body := some (js.stringify equipmentData) } }

/-- The method `ApiService.updateEquipment(id, equipmentData)`. -/
def updateEquipment (js : Platform) (id : Nat) (equipmentData : Json) : ApiCall :=
  { endpoint := "/equipment/" ++ Nat.repr id,
    options := { method := some "PUT", body := some (js.stringify equipmentData) } }

/-- The method `ApiService.deleteEquipment(id)`. -/
def deleteEquipment (id : Nat) : ApiCall :=
  { endpoint := "/equipment/" ++ Nat.repr id, options := { method := some "DELETE" } }

/-- The method `ApiService.getTechnicians()`. -/
def getTechnicians : ApiCall :=
  { endpoint := "/techniciens" }

/-- The method `ApiService.getTechnician(id)`. -/
def getTechnician (id : Nat) : ApiCall :=
  { endpoint := "/techniciens/" ++ Nat.repr id }

/-- The method `ApiService.createTechnician(technicianData)`. -/
def createTechnician (js : Platform) (technicianData : Json) : ApiCall :=
  { endpoint := "/techniciens", options := { method := some "POST", body := some (js.stringify technicianData) } }

/-- The method `ApiService.updateTechnician(id, technicianData)`. -/
def updateTechnician (js : Platform) (id : Nat) (technicianData : Json) : ApiCall :=
  { endpoint := "/techniciens/" ++ Nat.repr id,
    options := { method := some "PUT", body := some (js.stringify technicianData) } }

/-- The method `ApiService.deleteTechnician(id)`. -/
def deleteTechnician (id : Nat) : ApiCall :=
  { endpoint := "/techniciens/" ++ Nat.repr id, options := { method := some "DELETE" } }

/- ------------------------------------------------------------------ -/
/- Regular expressions used by the screens                             -/
/- ------------------------------------------------------------------ -/

/-- One atom of a pattern: the class `\S` or a literal character. -/
inductive RegexAtom where
  | nonSpace
  | char (c : Char)
deriving DecidableEq, Repr

/-- A pattern item: a single atom, or an atom under `+`. -/
inductive RegexItem where
  | one (a : RegexAtom)
  | plus (a : RegexAtom)
deriving DecidableEq, Repr

/-- Whether an atom accepts a character. -/
def RegexAtom.accepts : RegexAtom → Char → Bool
  | .nonSpace, c => !isJsWhiteSpace c
  | .char d, c => c == d

/-- Whether some prefix of the input matches the sequence of items (backtracking over
every length a `+` may take). -/
def matchesAt : List RegexItem → List Char → Bool
  | [], _ => true
  | _ :: _, [] => false
  | .one a :: rest, c :: cs => a.accepts c && matchesAt rest cs
  | .plus a :: rest, c :: cs =>
    a.accepts c && (matchesAt rest cs || matchesAt (.plus a :: rest) cs)

/-- Unanchored search: a match starting at some position of the input. -/
def searchFrom (pattern : List RegexItem) : List Char → Bool
  | [] => matchesAt pattern []
  | c :: cs => matchesAt pattern (c :: cs) || searchFrom pattern cs

/-- The method `RegExp.prototype.test` for an unanchored pattern. -/
def regexTest (pattern : List RegexItem) (s : String) : Bool :=
  searchFrom pattern s.data

/-- The pattern `/\S+@\S+\.\S+/` of the Clients and Technicians screens. -/
def emailPattern : List RegexItem :=
  [.plus .nonSpace, .one (.char '@'), .plus .nonSpace, .one (.char '.'), .plus .nonSpace]

/- ------------------------------------------------------------------ -/
/- services/alerts.js and the shape shared by the screens              -/
/- ------------------------------------------------------------------ -/

/-- Calls a screen handler makes to its collaborators, in order: the event, the
`apiService` methods, the console and the functions of `alerts.js`. -/
inductive Effect where
  | preventDefault
  | api (call : ApiCall)
  | consoleError (label : String) (err : JsError)
  | showSuccess (title text : String)
  | showError (title text : String)
  | showConfirmation (title text confirmText cancelText : String)
  | showLoading (title text : String)
  | closeLoading
deriving DecidableEq, Repr

/-- The function `showNetworkError()` of `alerts.js`, a fixed `showError`. -/
def showNetworkError : Effect :=
  .showError "Erreur de connexion"
    "Impossible de contacter le serveur. Vérifiez votre connexion internet et réessayez."

/-- What a handler leaves behind: the screen state and the calls it made. -/
structure Run (σ : Type) where
  state : σ
  effects : List Effect

/-- The value the confirmation dialog resolves to. -/
structure ConfirmResult where
  isConfirmed : Bool
deriving DecidableEq, Repr

/-- The role of the notification a failure branch shows. -/
inductive FailureKind where
  | alreadyExists
  | scheduleConflict
  | invalidData
  | network
  | attachedResources
  | generic
deriving DecidableEq, Repr

/-- A form value that holds an identifier: the string of a select option, or the
number copied from a record by `handleEdit`. -/
inductive IdInput where
  | str (s : String)
  | num (n : Nat)
deriving DecidableEq, Repr

/-- Truthiness of an identifier input (`''` and `0` are falsy). -/
def IdInput.truthy : IdInput → Bool
  | .str s => truthyStr s
  | .num n => decide (n ≠ 0)

/-- The call `parseInt(x)` on an identifier input; a number is first rendered as text,
in plain decimal for identifiers (they stay below `10 ^ 21`), which `parseInt` reads
back as the same number. -/
def IdInput.parseInt (js : Platform) : IdInput → JsNumber
  | .str s => js.parseInt s
  | .num n => .fin n

/-- A form value that holds an amount: the text of a number input, or the number
copied from a record by `handleEdit`. -/
inductive AmountInput where
  | str (s : String)
  | num (n : JsNumber)
deriving DecidableEq

/-- Truthiness of an amount input. -/
def AmountInput.truthy : AmountInput → Bool
  | .str s => truthyStr s
  | .num n => n.truthy

/-- The call `parseFloat(x)` on an amount input; a number is first rendered as text,
which `parseFloat` reads back as the same number. -/
def AmountInput.parseFloat (js : Platform) : AmountInput → JsNumber
  | .str s => js.parseFloat s
  | .num n => n

/-- The JSON value of an amount input left as it is in a payload. -/
def AmountInput.toJson : AmountInput → Json
  | .str s => .str s
  | .num n => .num n

/-- Strict equality `id === n` between a record identifier and a number. -/
def idEquals (id : Nat) (n : JsNumber) : Bool :=
  decide (JsNumber.fin id = n)

/- ------------------------------------------------------------------ -/
/- components/ClientsPage.js                                           -/
/- ------------------------------------------------------------------ -/

/-- A client record as returned by the backend. -/
structure Client where
  clientId : Nat
  firstName : Field String := .undefined
  lastName : Field String := .undefined
  email : Field String := .undefined
  phoneNumber : Field String := .undefined
  address : Field String := .undefined
  clientType : Field String := .undefined
  companyName : Field String := .undefined
  createdAt : Field String := .undefined
deriving DecidableEq, Repr

/-- The `formData` state of the Clients screen. -/
structure ClientForm where
  firstName : String := ""
  lastName : String := ""
  email : String := ""
  phoneNumber : String := ""
  address : String := ""
deriving DecidableEq, Repr

/-- The form data as the object given to `JSON.stringify`. -/
def ClientForm.toJson (f : ClientForm) : Json :=
  .obj [("firstName", .str f.firstName), ("lastName", .str f.lastName),
    ("email", .str f.email), ("phoneNumber", .str f.phoneNumber), ("address", .str f.address)]

/-- The React state of `ClientsPage`. -/
structure ClientsState where
  clients : List Client := []
  loading : Bool := true
  error : Option String := none
  isModalOpen : Bool := false
  editingClient : Option Client := none
  formData : ClientForm := {}
deriving DecidableEq, Repr

namespace ClientsPage

/-- The function `loadClients`; `data` is what `apiService.getClients()` settles to. -/
def loadClients (st : ClientsState) (data : Except JsError (List Client)) : Run ClientsState :=
  match data with
  | .ok data => ⟨{ st with clients := data, error := none, loading := false }, [.api getClients]⟩
  | .error err =>
    ⟨{ st with error := some "Erreur lors du chargement des clients", loading := false },
      [.api getClients, .consoleError "Error loading clients:" err,
        if includes err.message "fetch" then showNetworkError
        else .showError "Erreur de chargement" "Impossible de charger la liste des clients."]⟩

/-- The `catch` block of `handleDelete`: the branch taken and the notification shown. -/
def deleteFailure (message : String) : FailureKind × Effect :=
  if includes message "constraint" || includes message "foreign key" then
    (.attachedResources, .showError "Impossible de supprimer ce client"
      "Une erreur s'est produite. Ce client a des ressources attachées (contrats, équipements, interventions). Veuillez supprimer ces ressources avant de supprimer le client.")
  else if includes message "fetch" then (.network, showNetworkError)
  else
    (.generic, .showError "Erreur de suppression"
      "Une erreur est survenue lors de la suppression du client. Veuillez réessayer.")

/-- The name shown by `handleDelete` for the record with the given id. -/
def deleteName (st : ClientsState) (clientId : Nat) : String :=
  match st.clients.find? (fun c => c.clientId == clientId) with
  | some client => client.firstName.template ++ " " ++ client.lastName.template
  | none => "Client #" ++ Nat.repr clientId

/-- The function `handleDelete(clientId)`; `result` is what the confirmation dialog
resolves to, `deleted` what `apiService.deleteClient` settles to and `reloaded` what the
list read of `loadClients` settles to. -/
def handleDelete {α : Type} (st : ClientsState) (clientId : Nat) (result : ConfirmResult)
    (deleted : Except JsError α) (reloaded : Except JsError (List Client)) : Run ClientsState :=
  let clientName := deleteName st clientId
  let asked := Effect.showConfirmation "Supprimer le client"
    ("Êtes-vous sûr de vouloir supprimer " ++ clientName ++ " ?") "Oui, supprimer" "Annuler"
  if result.isConfirmed then
    let started := [asked, .showLoading "Suppression en cours..." "Suppression du client",
      .api (deleteClient clientId)]
    match deleted with
    | .ok _ =>
      let loaded := loadClients st reloaded
      ⟨loaded.state, started ++ [.closeLoading] ++ loaded.effects
        ++ [.showSuccess "Client supprimé !" (clientName ++ " a été supprimé avec succès.")]⟩
    | .error err =>
      ⟨st, started ++ [.closeLoading, .consoleError "Error deleting client:" err,
        (deleteFailure err.message).2]⟩
  else ⟨st, [asked]⟩

/-- The checks at the head of `handleSubmit`: the notification of the first check that
fails, `none` when the form goes through. -/
def validate (formData : ClientForm) : Option Effect :=
  if !truthyStr (trim formData.firstName) || !truthyStr (trim formData.lastName) then
    some (.showError "Erreur de validation" "Le prénom et le nom sont requis.")
  else if !truthyStr (trim formData.email) then
    some (.showError "Erreur de validation" "L'email est requis.")
  else if !regexTest emailPattern formData.email then
    some (.showError "Erreur de validation" "L'email n'est pas valide.")
  else none

/-- The `catch` block of `handleSubmit`: the branch taken and the notification shown. -/
def submitFailure (editing : Bool) (message : String) : FailureKind × Effect :=
  if includes message "duplicate" || includes message "unique" then
    (.alreadyExists, .showError "Client déjà existant"
      "Un client avec cette adresse email existe déjà.")
  else if includes message "validation" then
    (.invalidData, .showError "Erreur de validation"
      "Les données saisies ne sont pas valides. Veuillez vérifier vos informations.")
  else if includes message "fetch" then (.network, showNetworkError)
  else
    (.generic, .showError (if editing then "Erreur de modification" else "Erreur de création")
      "Une erreur est survenue lors de la sauvegarde. Veuillez réessayer.")

/-- The create-or-update call of `handleSubmit`. -/
def saveCall (js : Platform) (st : ClientsState) : ApiCall :=
  match st.editingClient with
  | some editingClient => updateClient js editingClient.clientId st.formData.toJson
  | none => createClient js st.formData.toJson

/-- The function `handleSubmit(e)`; `saved` is what the create-or-update call settles to
and `reloaded` what the list read of `loadClients` settles to. -/
def handleSubmit {α : Type} (js : Platform) (st : ClientsState) (saved : Except JsError α)
    (reloaded : Except JsError (List Client)) : Run ClientsState :=
  match validate st.formData with
  | some notice => ⟨st, [.preventDefault, notice]⟩
  | none =>
    let editing := st.editingClient.isSome
    let started := [Effect.preventDefault,
      .showLoading (if editing then "Modification en cours..." else "Création en cours...")
        "Sauvegarde des informations client",
      .api (saveCall js st)]
    match saved with
    | .ok _ =>
      let loaded := loadClients { st with isModalOpen := false } reloaded
      ⟨loaded.state, started ++ [.closeLoading] ++ loaded.effects
        ++ [.showSuccess (if editing then "Client modifié !" else "Client créé !")
          (if editing then
            "Les informations de " ++ st.formData.firstName ++ " " ++ st.formData.lastName
              ++ " ont été mises à jour."
           else st.formData.firstName ++ " " ++ st.formData.lastName
              ++ " a été ajouté avec succès.")]⟩
    | .error err =>
      ⟨st, started ++ [.closeLoading, .consoleError "Error saving client:" err,
        (submitFailure editing err.message).2]⟩

end ClientsPage

/- ------------------------------------------------------------------ -/
/- components/TechniciansPage.js                                       -/
/- ------------------------------------------------------------------ -/

/-- The constant `TECHNICIAN_SPECIALIZATIONS.GENERAL` of `constants.js`. -/
def TECHNICIAN_SPECIALIZATIONS_GENERAL : String := "GENERAL"

/-- A technician record as returned by the backend. -/
structure Technician where
  id : Nat
  firstName : Field String := .undefined
  lastName : Field String := .undefined
  email : Field String := .undefined
  phoneNumber : Field String := .undefined
  employeeId : Field String := .undefined
  specialization : Field String := .undefined
  isActive : Field Bool := .undefined
  createdAt : Field String := .undefined
deriving DecidableEq, Repr

/-- The `formData` state of the Technicians screen. -/
structure TechnicianForm where
  firstName : String := ""
  lastName : String := ""
  email : String := ""
  phoneNumber : String := ""
  employeeId : String := ""
  specialization : String := TECHNICIAN_SPECIALIZATIONS_GENERAL
deriving DecidableEq, Repr

/-- The form data as the object given to `JSON.stringify`. -/
def TechnicianForm.toJson (f : TechnicianForm) : Json :=
  .obj [("firstName", .str f.firstName), ("lastName", .str f.lastName),
    ("email", .str f.email), ("phoneNumber", .str f.phoneNumber),
    ("employeeId", .str f.employeeId), ("specialization", .str f.specialization)]

/-- The React state of `TechniciansPage`. -/
structure TechniciansState where
  technicians : List Technician := []
  loading : Bool := true
  error : Option String := none
  isModalOpen : Bool := false
  editingTechnician : Option Technician := none
  formData : TechnicianForm := {}
deriving DecidableEq, Repr

namespace TechniciansPage

/-- The function `loadTechnicians`; `data` is what `apiService.getTechnicians()` settles
to. -/
def loadTechnicians (st : TechniciansState) (data : Except JsError (List Technician)) :
    Run TechniciansState :=
  match data with
  | .ok data =>
    ⟨{ st with technicians := data, error := none, loading := false }, [.api getTechnicians]⟩
  | .error err =>
    ⟨{ st with error := some "Erreur lors du chargement des techniciens", loading := false },
      [.api getTechnicians, .consoleError "Error loading technicians:" err,
        if includes err.message "fetch" then showNetworkError
        else .showError "Erreur de chargement" "Impossible de charger la liste des techniciens."]⟩

/-- The `catch` block of `handleDelete`: the branch taken and the notification shown. -/
def deleteFailure (message : String) : FailureKind × Effect :=
  if includes message "constraint" || includes message "foreign key" then
    (.attachedResources, .showError "Impossible de supprimer ce technicien"
      "Une erreur s'est produite. Ce technicien a des ressources attachées (contrats, interventions). Veuillez supprimer ces ressources avant de supprimer le technicien.")
  else if includes message "fetch" then (.network, showNetworkError)
  else
    (.generic, .showError "Erreur de suppression"
      "Une erreur est survenue lors de la suppression du technicien. Veuillez réessayer.")

/-- The name shown by `handleDelete` for the record with the given id. -/
def deleteName (st : TechniciansState) (id : Nat) : String :=
  match st.technicians.find? (fun t => t.id == id) with
  | some technician => technician.firstName.template ++ " " ++ technician.lastName.template
  | none => "Technicien #" ++ Nat.repr id

/-- The function `handleDelete(id)`; `result` is what the confirmation dialog resolves
to, `deleted` what `apiService.deleteTechnician` settles to and `reloaded` what the list
read of `loadTechnicians` settles to. -/
def handleDelete {α : Type} (st : TechniciansState) (id : Nat) (result : ConfirmResult)
    (deleted : Except JsError α) (reloaded : Except JsError (List Technician)) :
    Run TechniciansState :=
  let technicianName := deleteName st id
  let asked := Effect.showConfirmation "Supprimer le technicien"
    ("Êtes-vous sûr de vouloir supprimer " ++ technicianName ++ " ?") "Oui, supprimer" "Annuler"
  if result.isConfirmed then
    let started := [asked, .showLoading "Suppression en cours..." "Suppression du technicien",
      .api (deleteTechnician id)]
    match deleted with
    | .ok _ =>
      let loaded := loadTechnicians st reloaded
      ⟨loaded.state, started ++ [.closeLoading] ++ loaded.effects
        ++ [.showSuccess "Technicien supprimé !"
          (technicianName ++ " a été supprimé avec succès.")]⟩
    | .error err =>
      ⟨st, started ++ [.closeLoading, .consoleError "Error deleting technician:" err,
        (deleteFailure err.message).2]⟩
  else ⟨st, [asked]⟩

/-- The checks at the head of `handleSubmit`: the notification of the first check that
fails, `none` when the form goes through. -/
def validate (formData : TechnicianForm) : Option Effect :=
  if !truthyStr (trim formData.firstName) || !truthyStr (trim formData.lastName)
      || !truthyStr (trim formData.email) || !truthyStr (trim formData.employeeId) then
    some (.showError "Erreur de validation" "Tous les champs obligatoires doivent être remplis.")
  else if !regexTest emailPattern formData.email then
    some (.showError "Erreur de validation" "L'email n'est pas valide.")
  else none

/-- The `catch` block of `handleSubmit`: the branch taken and the notification shown. -/
def submitFailure (editing : Bool) (message : String) : FailureKind × Effect :=
  if includes message "duplicate" || includes message "unique" then
    (.alreadyExists, .showError "Technicien déjà existant"
      "Un technicien avec cette adresse email ou cet ID employé existe déjà.")
  else if includes message "validation" then
    (.invalidData, .showError "Erreur de validation"
      "Les données saisies ne sont pas valides. Veuillez vérifier vos informations.")
  else if includes message "fetch" then (.network, showNetworkError)
  else
    (.generic, .showError (if editing then "Erreur de modification" else "Erreur de création")
      "Une erreur est survenue lors de la sauvegarde. Veuillez réessayer.")

/-- The create-or-update call of `handleSubmit`. -/
def saveCall (js : Platform) (st : TechniciansState) : ApiCall :=
  match st.editingTechnician with
  | some editingTechnician => updateTechnician js editingTechnician.id st.formData.toJson
  | none => createTechnician js st.formData.toJson

/-- The function `handleSubmit(e)`; `saved` is what the create-or-update call settles to
and `reloaded` what the list read of `loadTechnicians` settles to. -/
def handleSubmit {α : Type} (js : Platform) (st : TechniciansState) (saved : Except JsError α)
    (reloaded : Except JsError (List Technician)) : Run TechniciansState :=
  match validate st.formData with
  | some notice => ⟨st, [.preventDefault, notice]⟩
  | none =>
    let editing := st.editingTechnician.isSome
    let started := [Effect.preventDefault,
      .showLoading (if editing then "Modification en cours..." else "Création en cours...")
        "Sauvegarde des informations technicien",
      .api (saveCall js st)]
    match saved with
    | .ok _ =>
      let loaded := loadTechnicians { st with isModalOpen := false } reloaded
      ⟨loaded.state, started ++ [.closeLoading] ++ loaded.effects
        ++ [.showSuccess (if editing then "Technicien modifié !" else "Technicien créé !")
          (if editing then
            "Les informations de " ++ st.formData.firstName ++ " " ++ st.formData.lastName
              ++ " ont été mises à jour."
           else st.formData.firstName ++ " " ++ st.formData.lastName
              ++ " a été ajouté avec succès.")]⟩
    | .error err =>
      ⟨st, started ++ [.closeLoading, .consoleError "Error saving technician:" err,
        (submitFailure editing err.message).2]⟩

end TechniciansPage

/- ------------------------------------------------------------------ -/
/- components/ContractsPage.js                                         -/
/- ------------------------------------------------------------------ -/

/-- A contract record as returned by the backend, with its nested client. -/
structure Contract where
  id : Nat
  client : Field Client := .undefined
  createdAt : Field String := .undefined
  updatedAt : Field String := .undefined
deriving DecidableEq, Repr

/-- The `formData` state of the Contracts screen. -/
structure ContractForm where
  clientId : IdInput := .str ""
deriving DecidableEq, Repr

/-- The object `contractData` built by `handleSubmit`. -/
def ContractForm.contractData (js : Platform) (f : ContractForm) : Json :=
  .obj [("clientId", .num (f.clientId.parseInt js))]

/-- The React state of `ContractsPage`. -/
structure ContractsState where
  contracts : List Contract := []
  clients : List Client := []
  loading : Bool := true
  error : Option String := none
  isModalOpen : Bool := false
  editingContract : Option Contract := none
  formData : ContractForm := {}
deriving DecidableEq, Repr

namespace ContractsPage

/-- The function `loadData`; `data` is what `Promise.all` of the two list reads settles
to. -/
def loadData (st : ContractsState) (data : Except JsError (List Contract × List Client)) :
    Run ContractsState :=
  match data with
  | .ok (contractsData, clientsData) =>
    ⟨{ st with contracts := contractsData, clients := clientsData,
               error := none, loading := false },
      [.api getContracts, .api getClients]⟩
  | .error err =>
    ⟨{ st with error := some "Erreur lors du chargement des contrats", loading := false },
      [.api getContracts, .api getClients, .consoleError "Error loading contracts:" err,
        if includes err.message "fetch" then showNetworkError
        else .showError "Erreur de chargement" "Impossible de charger la liste des contrats."]⟩

/-- The function `getClientName(contract)`. -/
def getClientName (contract : Contract) : String :=
  match contract.client with
  | .val client => client.firstName.template ++ " " ++ client.lastName.template
  | _ => "Client inconnu"

/-- The `catch` block of `handleDelete`: the branch taken and the notification shown. -/
def deleteFailure (message : String) : FailureKind × Effect :=
  if includes message "constraint" || includes message "foreign key" then
    (.attachedResources, .showError "Impossible de supprimer ce contrat"
      "Une erreur s'est produite. Ce contrat a des ressources attachées (interventions, factures). Veuillez supprimer ces ressources avant de supprimer le contrat.")
  else if includes message "fetch" then (.network, showNetworkError)
  else
    (.generic, .showError "Erreur de suppression"
      "Une erreur est survenue lors de la suppression du contrat. Veuillez réessayer.")

/-- The function `handleDelete(id)`; `result` is what the confirmation dialog resolves
to, `deleted` what `apiService.deleteContract` settles to and `reloaded` what the reads of
`loadData` settle to. -/
def handleDelete {α : Type} (st : ContractsState) (id : Nat) (result : ConfirmResult)
    (deleted : Except JsError α) (reloaded : Except JsError (List Contract × List Client)) :
    Run ContractsState :=
  let contractName := "Contrat #" ++ Nat.repr id
  let clientName :=
    match st.contracts.find? (fun c => c.id == id) with
    | some contract => getClientName contract
    | none => "Client inconnu"
  let asked := Effect.showConfirmation "Supprimer le contrat"
    ("Êtes-vous sûr de vouloir supprimer " ++ contractName ++ " - " ++ clientName ++ " ?")
    "Oui, supprimer" "Annuler"
  if result.isConfirmed then
    let started := [asked, .showLoading "Suppression en cours..." "Suppression du contrat",
      .api (deleteContract id)]
    match deleted with
    | .ok _ =>
      let loaded := loadData st reloaded
      ⟨loaded.state, started ++ [.closeLoading] ++ loaded.effects
        ++ [.showSuccess "Contrat supprimé !" (contractName ++ " a été supprimé avec succès.")]⟩
    | .error err =>
      ⟨st, started ++ [.closeLoading, .consoleError "Error deleting contract:" err,
        (deleteFailure err.message).2]⟩
  else ⟨st, [asked]⟩

/-- The check at the head of `handleSubmit`: the notification shown when it fails,
`none` when the form goes through. -/
def validate (formData : ContractForm) : Option Effect :=
  if !formData.clientId.truthy then
    some (.showError "Erreur de validation" "Veuillez sélectionner un client.")
  else none

/-- The `catch` block of `handleSubmit`: the branch taken and the notification shown. -/
def submitFailure (editing : Bool) (message : String) : FailureKind × Effect :=
  if includes message "duplicate" || includes message "unique" then
    (.alreadyExists, .showError "Contrat déjà existant" "Un contrat existe déjà pour ce client.")
  else if includes message "validation" then
    (.invalidData, .showError "Erreur de validation"
      "Les données saisies ne sont pas valides. Veuillez vérifier vos informations.")
  else if includes message "fetch" then (.network, showNetworkError)
  else
    (.generic, .showError (if editing then "Erreur de modification" else "Erreur de création")
      "Une erreur est survenue lors de la sauvegarde. Veuillez réessayer.")

/-- The create-or-update call of `handleSubmit`. -/
def saveCall (js : Platform) (st : ContractsState) : ApiCall :=
  match st.editingContract with
  | some editingContract => updateContract js editingContract.id (st.formData.contractData js)
  | none => createContract js (st.formData.contractData js)

/-- The name `clientDisplayName` computed by `handleSubmit` for the success message. -/
def clientDisplayName (js : Platform) (st : ContractsState) : String :=
  match st.clients.find? (fun c => idEquals c.clientId (st.formData.clientId.parseInt js)) with
  | some clientName => clientName.firstName.template ++ " " ++ clientName.lastName.template
  | none => "le client sélectionné"

/-- The function `handleSubmit(e)`; `saved` is what the create-or-update call settles to
and `reloaded` what the reads of `loadData` settle to. -/
def handleSubmit {α : Type} (js : Platform) (st : ContractsState) (saved : Except JsError α)
    (reloaded : Except JsError (List Contract × List Client)) : Run ContractsState :=
  match validate st.formData with
  | some notice => ⟨st, [.preventDefault, notice]⟩
  | none =>
    let editing := st.editingContract.isSome
    let started := [Effect.preventDefault,
      .showLoading (if editing then "Modification en cours..." else "Création en cours...")
        "Sauvegarde du contrat",
      .api (saveCall js st)]
    match saved with
    | .ok _ =>
      let loaded := loadData { st with isModalOpen := false } reloaded
      ⟨loaded.state, started ++ [.closeLoading] ++ loaded.effects
        ++ [.showSuccess (if editing then "Contrat modifié !" else "Contrat créé !")
          (if editing then
            "Le contrat a été mis à jour pour " ++ clientDisplayName js st ++ "."
           else "Un nouveau contrat a été créé pour " ++ clientDisplayName js st ++ ".")]⟩
    | .error err =>
      ⟨st, started ++ [.closeLoading, .consoleError "Error saving contract:" err,
        (submitFailure editing err.message).2]⟩

end ContractsPage

/- ------------------------------------------------------------------ -/
/- components/FacturesPage.js                                          -/
/- ------------------------------------------------------------------ -/

/-- The constant `INVOICE_STATUS.DRAFT` of `constants.js`. -/
def INVOICE_STATUS_DRAFT : String := "DRAFT"

/-- An invoice record as returned by the backend. -/
structure Facture where
  id : Nat
  invoiceNumber : Field String := .undefined
  description : Field String := .undefined
  laborCost : Field JsNumber := .undefined
  materialCost : Field JsNumber := .undefined
  totalAmount : Field JsNumber := .undefined
  price : Field JsNumber := .undefined
  status : Field String := .undefined
  dueDate : Field String := .undefined
  paidDate : Field String := .undefined
  paymentMethod : Field String := .undefined
  notes : Field String := .undefined
  interventionId : Field Nat := .undefined
deriving DecidableEq

/-- The `formData` state of the Invoices screen. -/
structure FactureForm where
  invoiceNumber : String := ""
  description : String := ""
  laborCost : AmountInput := .str ""
  materialCost : AmountInput := .str ""
  totalAmount : AmountInput := .str ""
  status : String := INVOICE_STATUS_DRAFT
  dueDate : String := ""
  paidDate : String := ""
  paymentMethod : String := ""
  notes : String := ""
  interventionId : IdInput := .str ""
deriving DecidableEq

/-- The expression `x ? parseFloat(x) : null` of `factureData`. -/
def amountOrNull (js : Platform) (x : AmountInput) : Json :=
  if x.truthy then .num (x.parseFloat js) else .null

/-- The expression `x ? parseInt(x) : null` of the payloads. -/
def idOrNull (js : Platform) (x : IdInput) : Json :=
  if x.truthy then .num (x.parseInt js) else .null

/-- The object `factureData` built by `handleSubmit`: the form data with the amounts
and the intervention id parsed, and `price` added. -/
def FactureForm.factureData (js : Platform) (f : FactureForm) : Json :=
  .obj [("invoiceNumber", .str f.invoiceNumber), ("description", .str f.description),
    ("laborCost", amountOrNull js f.laborCost),
    ("materialCost", amountOrNull js f.materialCost),
    ("totalAmount", amountOrNull js f.totalAmount),
    ("status", .str f.status), ("dueDate", .str f.dueDate), ("paidDate", .str f.paidDate),
    ("paymentMethod", .str f.paymentMethod), ("notes", .str f.notes),
    ("interventionId", idOrNull js f.interventionId),
    ("price", amountOrNull js f.totalAmount)]

/- ------------------------------------------------------------------ -/
/- components/InterventionsPage.js: records                            -/
/- ------------------------------------------------------------------ -/

/-- An intervention record as returned by the backend, with its nested contract and
invoice. -/
structure Intervention where
  id : Nat
  title : Field String := .undefined
  description : Field String := .undefined
  scheduledTime : Field String := .undefined
  contract : Field Contract := .undefined
  facture : Field Facture := .undefined
deriving DecidableEq

/-- The `formData` state of the Interventions screen. -/
structure InterventionForm where
  title : String := ""
  description : String := ""
  scheduledTime : String := ""
  contractId : String := ""
deriving DecidableEq, Repr

/-- The object `interventionData` built by `handleSubmit`. -/
def InterventionForm.interventionData (js : Platform) (f : InterventionForm) : Json :=
  .obj [("title", .str f.title), ("description", .str f.description),
    ("scheduledTime", .str f.scheduledTime),
    ("contractId", if truthyStr f.contractId then .num (js.parseInt f.contractId) else .null)]

/-- The React state of `FacturesPage`. -/
structure FacturesState where
  factures : List Facture := []
  interventions : List Intervention := []
  loading : Bool := true
  error : Option String := none
  isModalOpen : Bool := false
  editingFacture : Option Facture := none
  formData : FactureForm := {}
deriving DecidableEq

namespace FacturesPage

/-- The function `loadData`; `data` is what `Promise.all` of the two list reads settles
to. -/
def loadData (st : FacturesState) (data : Except JsError (List Facture × List Intervention)) :
    Run FacturesState :=
  match data with
  | .ok (facturesData, interventionsData) =>
    ⟨{ st with factures := facturesData, interventions := interventionsData,
               error := none, loading := false },
      [.api getFactures, .api getInterventions]⟩
  | .error err =>
    ⟨{ st with error := some "Erreur lors du chargement des factures", loading := false },
      [.api getFactures, .api getInterventions, .consoleError "Error loading data:" err,
        .showError "Erreur de chargement" "Impossible de charger la liste des factures."]⟩

/-- The `catch` block of `handleDelete`: the branch taken and the notification shown. -/
def deleteFailure (message : String) : FailureKind × Effect :=
  if includes message "constraint" || includes message "foreign key" then
    (.attachedResources, .showError "Impossible de supprimer cette facture"
      "Une erreur s'est produite. Cette facture a des ressources attachées. Veuillez supprimer ces ressources avant de supprimer la facture.")
  else if includes message "fetch" then (.network, showNetworkError)
  else
    (.generic, .showError "Erreur de suppression"
      "Une erreur est survenue lors de la suppression de la facture. Veuillez réessayer.")

/-- The name shown by `handleDelete` for the record with the given id. -/
def deleteName (st : FacturesState) (id : Nat) : String :=
  match st.factures.find? (fun f => f.id == id) with
  | some facture => "Facture " ++ facture.invoiceNumber.template
  | none => "Facture #" ++ Nat.repr id

/-- The function `handleDelete(id)`; `result` is what the confirmation dialog resolves
to, `deleted` what `apiService.deleteFacture` settles to and `reloaded` what the reads of
`loadData` settle to. -/
def handleDelete {α : Type} (st : FacturesState) (id : Nat) (result : ConfirmResult)
    (deleted : Except JsError α)
    (reloaded : Except JsError (List Facture × List Intervention)) : Run FacturesState :=
  let factureName := deleteName st id
  let asked := Effect.showConfirmation "Supprimer la facture"
    ("Êtes-vous sûr de vouloir supprimer " ++ factureName ++ " ?") "Oui, supprimer" "Annuler"
  if result.isConfirmed then
    let started := [asked, .showLoading "Suppression en cours..." "Suppression de la facture",
      .api (deleteFacture id)]
    match deleted with
    | .ok _ =>
      let loaded := loadData st reloaded
      ⟨loaded.state, started ++ [.closeLoading] ++ loaded.effects
        ++ [.showSuccess "Facture supprimée !" (factureName ++ " a été supprimée avec succès.")]⟩
    | .error err =>
      ⟨st, started ++ [.closeLoading, .consoleError "Error deleting facture:" err,
        (deleteFailure err.message).2]⟩
  else ⟨st, [asked]⟩

/-- The checks at the head of `handleSubmit`: the notification of the first check that
fails, `none` when the form goes through. -/
def validate (js : Platform) (formData : FactureForm) : Option Effect :=
  if !truthyStr (trim formData.invoiceNumber) then
    some (.showError "Erreur de validation" "Le numéro de facture est requis.")
  else if !truthyStr (trim formData.description) then
    some (.showError "Erreur de validation" "La description est requise.")
  else if !formData.totalAmount.truthy || (formData.totalAmount.parseFloat js).leZero then
    some (.showError "Erreur de validation" "Le montant total doit être supérieur à 0.")
  else none

/-- The `catch` block of `handleSubmit`: the branch taken and the notification shown. -/
def submitFailure (editing : Bool) (message : String) : FailureKind × Effect :=
  if includes message "duplicate" || includes message "unique" then
    (.alreadyExists, .showError "Erreur de validation"
      "Ce numéro de facture existe déjà. Veuillez utiliser un numéro différent.")
  else if includes message "fetch" then (.network, showNetworkError)
  else
    (.generic, .showError (if editing then "Erreur de modification" else "Erreur de création")
      "Une erreur est survenue lors de la sauvegarde. Veuillez réessayer.")

/-- The create-or-update call of `handleSubmit`. -/
def saveCall (js : Platform) (st : FacturesState) : ApiCall :=
  match st.editingFacture with
  | some editingFacture => updateFacture js editingFacture.id (st.formData.factureData js)
  | none => createFacture js (st.formData.factureData js)

/-- The function `handleSubmit(e)`; `saved` is what the create-or-update call settles to
and `reloaded` what the reads of `loadData` settle to. -/
def handleSubmit {α : Type} (js : Platform) (st : FacturesState) (saved : Except JsError α)
    (reloaded : Except JsError (List Facture × List Intervention)) : Run FacturesState :=
  match validate js st.formData with
  | some notice => ⟨st, [.preventDefault, notice]⟩
  | none =>
    let editing := st.editingFacture.isSome
    let started := [Effect.preventDefault,
      .showLoading (if editing then "Modification en cours..." else "Création en cours...")
        (if editing then "Modification de la facture" else "Création de la nouvelle facture"),
      .api (saveCall js st)]
    match saved with
    | .ok _ =>
      let loaded := loadData { st with isModalOpen := false } reloaded
      ⟨loaded.state, started ++ [.closeLoading] ++ loaded.effects
        ++ [.showSuccess (if editing then "Facture modifiée !" else "Facture créée !")
          (if editing then "La facture a été modifiée avec succès."
           else "La nouvelle facture a été créée avec succès.")]⟩
    | .error err =>
      ⟨st, started ++ [.closeLoading, .consoleError "Error saving facture:" err,
        (submitFailure editing err.message).2]⟩

end FacturesPage

/-- The React state of `InterventionsPage`. -/
structure InterventionsState where
  interventions : List Intervention := []
  contracts : List Contract := []
  loading : Bool := true
  error : Option String := none
  isModalOpen : Bool := false
  editingIntervention : Option Intervention := none
  formData : InterventionForm := {}
deriving DecidableEq

namespace InterventionsPage

/-- The function `loadData`; `data` is what `Promise.all` of the two list reads settles
to. -/
def loadData (st : InterventionsState)
    (data : Except JsError (List Intervention × List Contract)) : Run InterventionsState :=
  match data with
  | .ok (interventionsData, contractsData) =>
    ⟨{ st with interventions := interventionsData, contracts := contractsData,
               error := none, loading := false },
      [.api getInterventions, .api getContracts]⟩
  | .error err =>
    ⟨{ st with error := some "Erreur lors du chargement des interventions", loading := false },
      [.api getInterventions, .api getContracts,
        .consoleError "Error loading interventions:" err,
        if includes err.message "fetch" then showNetworkError
        else .showError "Erreur de chargement"
          "Impossible de charger la liste des interventions."]⟩

/-- The function `getClientNameForContract(contractId)`, called with the number
`parseInt` returned. -/
def getClientNameForContract (st : InterventionsState) (contractId : JsNumber) : String :=
  match st.contracts.find? (fun c => idEquals c.id contractId) with
  | none => "Contrat introuvable"
  | some contract =>
    match contract.client with
    | .val client =>
      if client.clientType = .val "COMPANY" && truthyStr client.companyName.orEmpty then
        client.companyName.orEmpty
      else client.firstName.template ++ " " ++ client.lastName.template
    | _ => "Client inconnu"

/-- The `catch` block of `handleDelete`: the branch taken and the notification shown. -/
def deleteFailure (message : String) : FailureKind × Effect :=
  if includes message "constraint" || includes message "foreign key" then
    (.attachedResources, .showError "Impossible d'annuler cette intervention"
      "Une erreur s'est produite. Cette intervention a des ressources attachées. Veuillez supprimer ces ressources avant d'annuler l'intervention.")
  else if includes message "fetch" then (.network, showNetworkError)
  else
    (.generic, .showError "Erreur d'annulation"
      "Une erreur est survenue lors de l'annulation de l'intervention. Veuillez réessayer.")

/-- The name shown by `handleDelete` for the record with the given id. -/
def deleteName (st : InterventionsState) (id : Nat) : String :=
  match st.interventions.find? (fun i => i.id == id) with
  | some intervention => intervention.title.template
  | none => "Intervention #" ++ Nat.repr id

/-- The function `handleDelete(id)`; `result` is what the confirmation dialog resolves
to, `deleted` what `apiService.deleteIntervention` settles to and `reloaded` what the reads
of `loadData` settle to. The local `contractInfo`, computed and never read, is left out. -/
def handleDelete {α : Type} (st : InterventionsState) (id : Nat) (result : ConfirmResult)
    (deleted : Except JsError α)
    (reloaded : Except JsError (List Intervention × List Contract)) :
    Run InterventionsState :=
  let interventionName := deleteName st id
  let asked := Effect.showConfirmation "Annuler l'intervention"
    ("Êtes-vous sûr de vouloir annuler \"" ++ interventionName ++ "\" ?")
    "Oui, annuler" "Non, garder"
  if result.isConfirmed then
    let started := [asked,
      .showLoading "Annulation en cours..." "Suppression de l'intervention",
      .api (deleteIntervention id)]
    match deleted with
    | .ok _ =>
      let loaded := loadData st reloaded
      ⟨loaded.state, started ++ [.closeLoading] ++ loaded.effects
        ++ [.showSuccess "Intervention annulée !"
          (interventionName ++ " a été annulée avec succès.")]⟩
    | .error err =>
      ⟨st, started ++ [.closeLoading, .consoleError "Error deleting intervention:" err,
        (deleteFailure err.message).2]⟩
  else ⟨st, [asked]⟩

/-- The comparison `scheduledDate <= now` of two dates (false for an invalid date). -/
def notAfter (js : Platform) (scheduledTime : String) (now : Int) : Bool :=
  match js.dateValue scheduledTime with
  | some scheduledDate => decide (scheduledDate ≤ now)
  | none => false

/-- The checks at the head of `handleSubmit`: the notification of the first check that
fails, `none` when the form goes through; `now` is the time value of `new Date()`. -/
def validate (js : Platform) (now : Int) (editing : Bool) (formData : InterventionForm) :
    Option Effect :=
  if !truthyStr (trim formData.title) || !truthyStr (trim formData.description)
      || !truthyStr formData.contractId then
    some (.showError "Erreur de validation" "Veuillez remplir tous les champs obligatoires.")
  else if !truthyStr formData.scheduledTime then
    some (.showError "Date requise"
      "Veuillez définir une date et heure pour l'intervention.")
  else if notAfter js formData.scheduledTime now && !editing then
    some (.showError "Date invalide" "La date et l'heure doivent être dans le futur.")
  else none

/-- The `catch` block of `handleSubmit`: the branch taken and the notification shown. -/
def submitFailure (editing : Bool) (message : String) : FailureKind × Effect :=
  if includes message "conflict" || includes message "schedule" then
    (.scheduleConflict, .showError "Conflit de planification"
      "Une autre intervention est déjà planifiée à cette date et heure.")
  else if includes message "validation" then
    (.invalidData, .showError "Erreur de validation"
      "Les données saisies ne sont pas valides. Veuillez vérifier vos informations.")
  else if includes message "fetch" then (.network, showNetworkError)
  else
    (.generic,
      .showError (if editing then "Erreur de modification" else "Erreur de planification")
        "Une erreur est survenue lors de la sauvegarde. Veuillez réessayer.")

/-- The create-or-update call of `handleSubmit`. -/
def saveCall (js : Platform) (st : InterventionsState) : ApiCall :=
  match st.editingIntervention with
  | some editingIntervention =>
    updateIntervention js editingIntervention.id (st.formData.interventionData js)
  | none => createIntervention js (st.formData.interventionData js)

/-- The function `handleSubmit(e)`; `now` is the time value of `new Date()`, `saved` is
what the create-or-update call settles to and `reloaded` what the reads of `loadData`
settle to. -/
def handleSubmit {α : Type} (js : Platform) (now : Int) (st : InterventionsState)
    (saved : Except JsError α)
    (reloaded : Except JsError (List Intervention × List Contract)) :
    Run InterventionsState :=
  let editing := st.editingIntervention.isSome
  match validate js now editing st.formData with
  | some notice => ⟨st, [.preventDefault, notice]⟩
  | none =>
    let started := [Effect.preventDefault,
      .showLoading (if editing then "Modification en cours..." else "Planification en cours...")
        "Sauvegarde de l'intervention",
      .api (saveCall js st)]
    match saved with
    | .ok _ =>
      let loaded := loadData { st with isModalOpen := false } reloaded
      let contractName := getClientNameForContract st (js.parseInt st.formData.contractId)
      ⟨loaded.state, started ++ [.closeLoading] ++ loaded.effects
        ++ [.showSuccess
          (if editing then "Intervention modifiée !" else "Intervention planifiée !")
          (if editing then
            "L'intervention \"" ++ st.formData.title ++ "\" a été mise à jour."
           else "L'intervention \"" ++ st.formData.title ++ "\" a été planifiée pour "
              ++ contractName ++ ".")]⟩
    | .error err =>
      ⟨st, started ++ [.closeLoading, .consoleError "Error saving intervention:" err,
        (submitFailure editing err.message).2]⟩

end InterventionsPage

/- ------------------------------------------------------------------ -/
/- components/EquipmentPage.js                                         -/
/- ------------------------------------------------------------------ -/

/-- The constant `EQUIPMENT_STATUS.OPERATIONAL` of `constants.js`. -/
def EQUIPMENT_STATUS_OPERATIONAL : String := "OPERATIONAL"

/-- An equipment record as returned by the backend. -/
structure EquipmentItem where
  id : Nat
  equipmentCode : Field String := .undefined
  name : Field String := .undefined
  model : Field String := .undefined
  manufacturer : Field String := .undefined
  serialNumber : Field String := .undefined
  installationDate : Field String := .undefined
  warrantyExpiryDate : Field String := .undefined
  status : Field String := .undefined
  type : Field String := .undefined
  location : Field String := .undefined
  description : Field String := .undefined
  specifications : Field String := .undefined
  clientId : Field Nat := .undefined
  client : Field Client := .undefined
deriving DecidableEq, Repr

/-- The `formData` state of the Equipment screen. -/
structure EquipmentForm where
  equipmentCode : String := ""
  name : String := ""
  model : String := ""
  manufacturer : String := ""
  serialNumber : String := ""
  installationDate : String := ""
  warrantyExpiryDate : String := ""
  status : String := EQUIPMENT_STATUS_OPERATIONAL
  type : String := ""
  location : String := ""
  description : String := ""
  specifications : String := ""
  clientId : IdInput := .str ""
deriving DecidableEq, Repr

/-- The object `equipmentData` built by `handleSubmit`. -/
def EquipmentForm.equipmentData (js : Platform) (f : EquipmentForm) : Json :=
  .obj [("equipmentCode", .str f.equipmentCode), ("name", .str f.name),
    ("model", .str f.model), ("manufacturer", .str f.manufacturer),
    ("serialNumber", .str f.serialNumber), ("installationDate", .str f.installationDate),
    ("warrantyExpiryDate", .str f.warrantyExpiryDate), ("status", .str f.status),
    ("type", .str f.type), ("location", .str f.location),
    ("description", .str f.description), ("specifications", .str f.specifications),
    ("clientId", idOrNull js f.clientId)]

/-- The React state of `EquipmentPage`. -/
structure EquipmentState where
  equipment : List EquipmentItem := []
  clients : List Client := []
  loading : Bool := true
  error : Option String := none
  isModalOpen : Bool := false
  editingEquipment : Option EquipmentItem := none
  formData : EquipmentForm := {}
deriving DecidableEq, Repr

namespace EquipmentPage

/-- The function `loadData`; `data` is what `Promise.all` of the two list reads settles
to. -/
def loadData (st : EquipmentState) (data : Except JsError (List EquipmentItem × List Client)) :
    Run EquipmentState :=
  match data with
  | .ok (equipmentData, clientsData) =>
    ⟨{ st with equipment := equipmentData, clients := clientsData,
               error := none, loading := false },
      [.api getEquipment, .api getClients]⟩
  | .error err =>
    ⟨{ st with error := some "Erreur lors du chargement des équipements", loading := false },
      [.api getEquipment, .api getClients, .consoleError "Error loading equipment:" err,
        if includes err.message "fetch" then showNetworkError
        else .showError "Erreur de chargement"
          "Impossible de charger la liste des équipements."]⟩

/-- The `catch` block of `handleDelete`: the branch taken and the notification shown. -/
def deleteFailure (message : String) : FailureKind × Effect :=
  if includes message "constraint" || includes message "foreign key" then
    (.attachedResources, .showError "Impossible de supprimer cet équipement"
      "Une erreur s'est produite. Cet équipement a des ressources attachées (interventions). Veuillez supprimer ces ressources avant de supprimer l'équipement.")
  else if includes message "fetch" then (.network, showNetworkError)
  else
    (.generic, .showError "Erreur de suppression"
      "Une erreur est survenue lors de la suppression de l'équipement. Veuillez réessayer.")

/-- The name shown by `handleDelete` for the record with the given id. -/
def deleteName (st : EquipmentState) (id : Nat) : String :=
  match st.equipment.find? (fun e => e.id == id) with
  | some equipmentItem => equipmentItem.name.template
  | none => "Équipement #" ++ Nat.repr id

/-- The function `handleDelete(id)`; `result` is what the confirmation dialog resolves
to, `deleted` what `apiService.deleteEquipment` settles to and `reloaded` what the reads of
`loadData` settle to. The local `clientName`, computed and never read, is left out. -/
def handleDelete {α : Type} (st : EquipmentState) (id : Nat) (result : ConfirmResult)
    (deleted : Except JsError α)
    (reloaded : Except JsError (List EquipmentItem × List Client)) : Run EquipmentState :=
  let equipmentName := deleteName st id
  let asked := Effect.showConfirmation "Supprimer l'équipement"
    ("Êtes-vous sûr de vouloir supprimer \"" ++ equipmentName ++ "\" ?")
    "Oui, supprimer" "Annuler"
  if result.isConfirmed then
    let started := [asked,
      .showLoading "Suppression en cours..." "Suppression de l'équipement",
      .api (deleteEquipment id)]
    match deleted with
    | .ok _ =>
      let loaded := loadData st reloaded
      ⟨loaded.state, started ++ [.closeLoading] ++ loaded.effects
        ++ [.showSuccess "Équipement supprimé !"
          (equipmentName ++ " a été supprimé avec succès.")]⟩
    | .error err =>
      ⟨st, started ++ [.closeLoading, .consoleError "Error deleting equipment:" err,
        (deleteFailure err.message).2]⟩
  else ⟨st, [asked]⟩

/-- The check at the head of `handleSubmit`: the notification shown when it fails,
`none` when the form goes through. -/
def validate (formData : EquipmentForm) : Option Effect :=
  if !truthyStr (trim formData.name) || !formData.clientId.truthy then
    some (.showError "Erreur de validation" "Le nom et le client sont requis.")
  else none

/-- The `catch` block of `handleSubmit`: the branch taken and the notification shown. -/
def submitFailure (editing : Bool) (message : String) : FailureKind × Effect :=
  if includes message "duplicate" || includes message "unique" then
    (.alreadyExists, .showError "Équipement déjà existant"
      "Un équipement avec ce code ou numéro de série existe déjà.")
  else if includes message "validation" then
    (.invalidData, .showError "Erreur de validation"
      "Les données saisies ne sont pas valides. Veuillez vérifier vos informations.")
  else if includes message "fetch" then (.network, showNetworkError)
  else
    (.generic, .showError (if editing then "Erreur de modification" else "Erreur de création")
      "Une erreur est survenue lors de la sauvegarde. Veuillez réessayer.")

/-- The create-or-update call of `handleSubmit`. -/
def saveCall (js : Platform) (st : EquipmentState) : ApiCall :=
  match st.editingEquipment with
  | some editingEquipment =>
    updateEquipment js editingEquipment.id (st.formData.equipmentData js)
  | none => createEquipment js (st.formData.equipmentData js)

/-- The name `clientDisplayName` computed by `handleSubmit` for the success message. -/
def clientDisplayName (js : Platform) (st : EquipmentState) : String :=
  match st.clients.find? (fun c => idEquals c.clientId (st.formData.clientId.parseInt js)) with
  | some clientName => clientName.firstName.template ++ " " ++ clientName.lastName.template
  | none => "le client sélectionné"

/-- The function `handleSubmit(e)`; `saved` is what the create-or-update call settles to
and `reloaded` what the reads of `loadData` settle to. -/
def handleSubmit {α : Type} (js : Platform) (st : EquipmentState) (saved : Except JsError α)
    (reloaded : Except JsError (List EquipmentItem × List Client)) : Run EquipmentState :=
  match validate st.formData with
  | some notice => ⟨st, [.preventDefault, notice]⟩
  | none =>
    let editing := st.editingEquipment.isSome
    let started := [Effect.preventDefault,
      .showLoading (if editing then "Modification en cours..." else "Création en cours...")
        "Sauvegarde de l'équipement",
      .api (saveCall js st)]
    match saved with
    | .ok _ =>
      let loaded := loadData { st with isModalOpen := false } reloaded
      ⟨loaded.state, started ++ [.closeLoading] ++ loaded.effects
        ++ [.showSuccess (if editing then "Équipement modifié !" else "Équipement créé !")
          (if editing then
            "L'équipement \"" ++ st.formData.name ++ "\" a été mis à jour."
           else "L'équipement \"" ++ st.formData.name ++ "\" a été ajouté pour "
              ++ clientDisplayName js st ++ ".")]⟩
    | .error err =>
      ⟨st, started ++ [.closeLoading, .consoleError "Error saving equipment:" err,
        (submitFailure editing err.message).2]⟩

end EquipmentPage

/- ------------------------------------------------------------------ -/
/- A host to run the handlers on                                       -/
/- ------------------------------------------------------------------ -/

/-- The value of a run of decimal digits read left to right. -/
def digitsValue (cs : List Char) : Nat :=
  cs.foldl (fun acc c => 10 * acc + (c.toNat - '0'.toNat)) 0

/-- The number of halvings that bring `n` below `2 ^ 53`. -/
def halvings : Nat → Nat → Nat
  | 0, _ => 0
  | fuel + 1, n => if n < 2 ^ 53 then 0 else halvings fuel (n / 2) + 1

/-- The Number value of a natural number: the number itself below `2 ^ 53`, otherwise
the nearest double, a tie going to the even significand, and `Infinity` when the rounded
value reaches `2 ^ 1024`. -/
def nearestDouble (n : Nat) : JsNumber :=
  if n < 2 ^ 53 then .fin (n : ℚ)
  else
    let e := halvings n n
    let q := n / 2 ^ e
    let r := n % 2 ^ e
    let m := if 2 ^ e < 2 * r ∨ (2 * r = 2 ^ e ∧ q % 2 = 1) then q + 1 else q
    if e + (if m = 2 ^ 53 then 1 else 0) ≤ 971 then .fin ((m * 2 ^ e : Nat) : ℚ)
    else .posInf

/-- The unary minus on numbers. -/
def JsNumber.negate : JsNumber → JsNumber
  | .nan => .nan
  | .fin q => .fin (-q)
  | .posInf => .negInf
  | .negInf => .posInf

/-- Sample `parseInt` for decimal texts: leading white space, an optional sign, then the
longest run of decimal digits, whose value is rounded to the nearest double as
`parseInt` does; `NaN` when there is no digit. -/
def sampleParseInt (s : String) : JsNumber :=
  let t := s.data.dropWhile isJsWhiteSpace
  let negative := t.head? = some '-'
  let body := if t.head? = some '-' ∨ t.head? = some '+' then t.tail else t
  let digits := body.takeWhile Char.isDigit
  if digits.isEmpty then .nan
  else if negative then (nearestDouble (digitsValue digits)).negate
  else nearestDouble (digitsValue digits)

/-- Sample `parseFloat` for plain decimal texts: leading white space, an optional sign,
digits and an optional fraction; `NaN` when no digit starts the number. -/
def sampleParseFloat (s : String) : JsNumber :=
  let t := s.data.dropWhile isJsWhiteSpace
  let negative := t.head? = some '-'
  let body := if t.head? = some '-' ∨ t.head? = some '+' then t.tail else t
  let whole := body.takeWhile Char.isDigit
  let rest := body.dropWhile Char.isDigit
  let fraction := if rest.head? = some '.' then rest.tail.takeWhile Char.isDigit else []
  if whole.isEmpty && fraction.isEmpty then .nan
  else
    let magnitude : ℚ := (digitsValue whole : ℚ)
      + (digitsValue fraction : ℚ) / ((10 : ℚ) ^ fraction.length)
    .fin (if negative then -magnitude else magnitude)

/-- Sample quoting of a JSON string: the quote and the backslash are escaped. -/
def sampleQuote (s : String) : String :=
  "\"" ++ String.join (s.data.map (fun c =>
    if c = '"' then "\\\"" else if c = '\\' then "\\\\" else c.toString)) ++ "\""

/-- The decimal digits of the fraction `r / d`, at most `fuel` of them. -/
def fractionDigits : Nat → Nat → Nat → List Char
  | 0, _, _ => []
  | fuel + 1, r, d =>
    if r = 0 then [] else Nat.digitChar (10 * r / d) :: fractionDigits fuel (10 * r % d) d

/-- Sample text of a number: decimal notation (twenty fraction digits at most) for a
finite value, `null` for `NaN` and the infinities. -/
def sampleNumber : JsNumber → String
  | .fin q =>
    (if q < 0 then "-" else "") ++ Nat.repr (q.num.natAbs / q.den)
      ++ (if q.den = 1 then ""
          else "." ++ String.mk (fractionDigits 20 (q.num.natAbs % q.den) q.den))
  | _ => "null"

mutual
/-- Sample `JSON.stringify` without indentation. -/
def sampleStringify : Json → String
  | .null => "null"
  | .bool b => if b then "true" else "false"
  | .num n => sampleNumber n
  | .str s => sampleQuote s
  | .arr items => "[" ++ sampleItems items ++ "]"
  | .obj props => "\x7b" ++ sampleProps props ++ "\x7d"
/-- The items of an array, separated by commas. -/
def sampleItems : List Json → String
  | [] => ""
  | [x] => sampleStringify x
  | x :: y :: rest => sampleStringify x ++ "," ++ sampleItems (y :: rest)
/-- The properties of an object, separated by commas. -/
def sampleProps : List (String × Json) → String
  | [] => ""
  | [(k, v)] => sampleQuote k ++ ":" ++ sampleStringify v
  | (k, v) :: p :: rest => sampleQuote k ++ ":" ++ sampleStringify v ++ "," ++ sampleProps (p :: rest)
end

/-- Sample clock reading of a `datetime-local` text `YYYY-MM-DDTHH:mm`: its twelve
digits read as one number, which orders such texts as time does; any other text is an
invalid date. -/
def sampleDateValue (s : String) : Option Int :=
  let digits := s.data.filter Char.isDigit
  if s.data.length = 16 ∧ digits.length = 12 then some (digitsValue digits : Int) else none

/-- Sample addition: exact on finite values, with the usual rules for `NaN` and the
infinities. -/
def sampleAdd : JsNumber → JsNumber → JsNumber
  | .nan, _ => .nan
  | _, .nan => .nan
  | .posInf, .negInf => .nan
  | .negInf, .posInf => .nan
  | .posInf, _ => .posInf
  | _, .posInf => .posInf
  | .negInf, _ => .negInf
  | _, .negInf => .negInf
  | .fin a, .fin b => .fin (a + b)

/-- The two digits of a number of hundredths below one hundred. -/
def twoDigits (n : Nat) : String :=
  String.mk [Nat.digitChar (n / 10), Nat.digitChar (n % 10)]

/-- Sample `toFixed(2)`: the value in hundredths, rounded to the nearest (a tie going
away from zero), written with exactly two decimals. -/
def sampleToFixed2 : JsNumber → String
  | .nan => "NaN"
  | .posInf => "Infinity"
  | .negInf => "-Infinity"
  | .fin q =>
    let hundredths := (200 * q.num.natAbs + q.den) / (2 * q.den)
    (if q < 0 then "-" else "") ++ Nat.repr (hundredths / 100) ++ "."
      ++ twoDigits (hundredths % 100)

/-- A host on which the handlers are run in the examples; every statement that takes a
`Platform` as argument holds for all hosts, this one included. -/
def sampleHost : Platform :=
  ⟨sampleStringify, sampleParseInt, sampleParseFloat, sampleDateValue, sampleAdd,
    sampleToFixed2⟩

/-- Specification side: the handler changed nothing and, after `preventDefault`, only
showed one error notification. -/
def Run.rejected {σ : Type} (r : Run σ) (st : σ) : Prop :=
  r.state = st ∧ ∃ title text, r.effects = [Effect.preventDefault, Effect.showError title text]

/-- Specification side: the handler called some `apiService` method. -/
def Run.callsApi {σ : Type} (r : Run σ) : Prop :=
  ∃ call, Effect.api call ∈ r.effects

/-- An `apiService` call among the effects. -/
def Effect.isApi : Effect → Bool
  | .api _ => true
  | _ => false

/-- A result notification (`showSuccess` or `showError`) among the effects. -/
def Effect.isNotice : Effect → Bool
  | .showSuccess _ _ => true
  | .showError _ _ => true
  | _ => false

/-- The six resource screens. -/
inductive Screen where
  | clients
  | contracts
  | interventions
  | equipment
  | invoices
  | technicians
deriving DecidableEq, Repr

/-- Specification side, the mapping as the specification words it for a failed Submit:
`duplicate`/`unique`, then `validation`, then `fetch`, then `constraint`/`foreign key`,
otherwise the generic failure. -/
def specSubmitKind (message : String) : FailureKind :=
  if includes message "duplicate" || includes message "unique" then .alreadyExists
  else if includes message "validation" then .invalidData
  else if includes message "fetch" then .network
  else if includes message "constraint" || includes message "foreign key" then
    .attachedResources
  else .generic

/-- Specification side, the mapping of a failed Submit screen by screen: Interventions
look for `conflict`/`schedule` first, Invoices have no `validation` case, and no screen
has a `constraint`/`foreign key` case. -/
def amendedSubmitKind : Screen → String → FailureKind
  | .interventions, message =>
    if includes message "conflict" || includes message "schedule" then .scheduleConflict
    else if includes message "validation" then .invalidData
    else if includes message "fetch" then .network
    else .generic
  | .invoices, message =>
    if includes message "duplicate" || includes message "unique" then .alreadyExists
    else if includes message "fetch" then .network
    else .generic
  | _, message =>
    if includes message "duplicate" || includes message "unique" then .alreadyExists
    else if includes message "validation" then .invalidData
    else if includes message "fetch" then .network
    else .generic

/-- Specification side, the mapping of a failed Delete: `constraint`/`foreign key`
first, then `fetch`, otherwise the generic failure. -/
def specDeleteKind (message : String) : FailureKind :=
  if includes message "constraint" || includes message "foreign key" then .attachedResources
  else if includes message "fetch" then .network
  else .generic

/-- Example: the Clients form filled for John Doe. -/
def johnDoeForm : ClientForm :=
  { firstName := "John", lastName := "Doe", email := "john.doe@example.com",
    phoneNumber := "0612345678", address := "123 Rue Mohammed V, Casablanca, Maroc" }

/-- Example: the Clients screen in Create mode with the modal open on a form. -/
def creatingClient (formData : ClientForm) : ClientsState :=
  { clients := [], loading := false, error := none, isModalOpen := true,
    editingClient := none, formData := formData }

/- ------------------------------------------------------------------ -/
/- Opening a record for edition: the `handleEdit` functions            -/
/- ------------------------------------------------------------------ -/

/-- The call `s.slice(0, 16)` on a text (characters counted as code points, which is what
JavaScript counts on texts of the Basic Multilingual Plane such as dates). -/
def sliceTo16 (s : String) : String :=
  ⟨s.data.take 16⟩

/-- The expression `s.split('T')[0]`: the text before the first `T`. -/
def beforeT (s : String) : String :=
  ⟨s.data.takeWhile (fun c => c != 'T')⟩

/-- The expression `x || d` for a string property `x`. -/
def Field.orDefault (d : String) : Field String → String
  | .val s => if truthyStr s then s else d
  | _ => d

/-- The expression `x ? x.split('T')[0] : ''` for a date property `x`. -/
def Field.datePart : Field String → String
  | .val s => if truthyStr s then beforeT s else ""
  | _ => ""

/-- The expression `x || ''` for an amount property `x`. -/
def Field.amountOrEmpty : Field JsNumber → AmountInput
  | .val n => if n.truthy then .num n else .str ""
  | _ => .str ""

/-- The expression `x || ''` for an identifier property `x`. -/
def Field.idOrEmpty : Field Nat → IdInput
  | .val n => if n ≠ 0 then .num n else .str ""
  | _ => .str ""

/-- The function `handleEdit(client)` of `ClientsPage`. -/
def ClientsPage.handleEdit (st : ClientsState) (client : Client) : ClientsState :=
  { st with
    editingClient := some client
    formData :=
      { firstName := client.firstName.orEmpty
        lastName := client.lastName.orEmpty
        email := client.email.orEmpty
        phoneNumber := client.phoneNumber.orEmpty
        address := client.address.orEmpty }
    isModalOpen := true }

/-- The function `handleEdit(technician)` of `TechniciansPage`. -/
def TechniciansPage.handleEdit (st : TechniciansState) (technician : Technician) :
    TechniciansState :=
  { st with
    editingTechnician := some technician
    formData :=
      { firstName := technician.firstName.orEmpty
        lastName := technician.lastName.orEmpty
        email := technician.email.orEmpty
        phoneNumber := technician.phoneNumber.orEmpty
        employeeId := technician.employeeId.orEmpty
        specialization := technician.specialization.orDefault TECHNICIAN_SPECIALIZATIONS_GENERAL }
    isModalOpen := true }

/-- The function `handleEdit(contract)` of `ContractsPage`. -/
def ContractsPage.handleEdit (st : ContractsState) (contract : Contract) : ContractsState :=
  { st with
    editingContract := some contract
    formData :=
      { clientId :=
          match contract.client with
          | .val client => .num client.clientId
          | _ => .str "" }
    isModalOpen := true }

/-- The function `handleEdit(intervention)` of `InterventionsPage`; the contract id is
turned into text by `toString()`. -/
def InterventionsPage.handleEdit (st : InterventionsState) (intervention : Intervention) :
    InterventionsState :=
  { st with
    editingIntervention := some intervention
    formData :=
      { title := intervention.title.orEmpty
        description := intervention.description.orEmpty
        scheduledTime :=
          match intervention.scheduledTime with
          | .val s => if truthyStr s then sliceTo16 s else ""
          | _ => ""
        contractId :=
          match intervention.contract with
          | .val contract => Nat.repr contract.id
          | _ => "" }
    isModalOpen := true }

/-- The function `handleEdit(facture)` of `FacturesPage`. -/
def FacturesPage.handleEdit (st : FacturesState) (facture : Facture) : FacturesState :=
  { st with
    editingFacture := some facture
    formData :=
      { invoiceNumber := facture.invoiceNumber.orEmpty
        description := facture.description.orEmpty
        laborCost := facture.laborCost.amountOrEmpty
        materialCost := facture.materialCost.amountOrEmpty
        totalAmount :=
          match facture.totalAmount.amountOrEmpty with
          | .num n => .num n
          | .str _ => facture.price.amountOrEmpty
        status := facture.status.orDefault INVOICE_STATUS_DRAFT
        dueDate := facture.dueDate.datePart
        paidDate := facture.paidDate.datePart
        paymentMethod := facture.paymentMethod.orEmpty
        notes := facture.notes.orEmpty
        interventionId := facture.interventionId.idOrEmpty }
    isModalOpen := true }

/-- The function `handleEdit(equipmentItem)` of `EquipmentPage`. -/
def EquipmentPage.handleEdit (st : EquipmentState) (equipmentItem : EquipmentItem) :
    EquipmentState :=
  { st with
    editingEquipment := some equipmentItem
    formData :=
      { equipmentCode := equipmentItem.equipmentCode.orEmpty
        name := equipmentItem.name.orEmpty
        model := equipmentItem.model.orEmpty
        manufacturer := equipmentItem.manufacturer.orEmpty
        serialNumber := equipmentItem.serialNumber.orEmpty
        installationDate := equipmentItem.installationDate.datePart
        warrantyExpiryDate := equipmentItem.warrantyExpiryDate.datePart
        status := equipmentItem.status.orDefault EQUIPMENT_STATUS_OPERATIONAL
        type := equipmentItem.type.orEmpty
        location := equipmentItem.location.orEmpty
        description := equipmentItem.description.orEmpty
        specifications := equipmentItem.specifications.orEmpty
        clientId :=
          match equipmentItem.clientId.idOrEmpty with
          | .num n => .num n
          | .str _ =>
            match equipmentItem.client with
            | .val client => .num client.clientId
            | _ => .str "" }
    isModalOpen := true }

/- ------------------------------------------------------------------ -/
/- components/FacturesPage.js: `handleInputChange`                     -/
/- ------------------------------------------------------------------ -/

/-- The names of the inputs of the Invoices form. -/
inductive FactureField where
  | invoiceNumber
  | description
  | laborCost
  | materialCost
  | totalAmount
  | status
  | dueDate
  | paidDate
  | paymentMethod
  | notes
  | interventionId
deriving DecidableEq, Repr

/-- The object `{ ...prev, [name]: value }`: the form with the text `value` stored under
`name`. -/
def FactureForm.set (prev : FactureForm) (name : FactureField) (value : String) :
    FactureForm :=
  match name with
  | .invoiceNumber => { prev with invoiceNumber := value }
  | .description => { prev with description := value }
  | .laborCost => { prev with laborCost := .str value }
  | .materialCost => { prev with materialCost := .str value }
  | .totalAmount => { prev with totalAmount := .str value }
  | .status => { prev with status := value }
  | .dueDate => { prev with dueDate := value }
  | .paidDate => { prev with paidDate := value }
  | .paymentMethod => { prev with paymentMethod := value }
  | .notes => { prev with notes := value }
  | .interventionId => { prev with interventionId := .str value }

/-- The expression `x || 0` on a number. -/
def JsNumber.orZero (n : JsNumber) : JsNumber :=
  if n.truthy then n else .fin 0

/-- The updater passed to `setFormData` by `handleInputChange`, applied to the form. -/
def FacturesPage.changeForm (js : Platform) (prev : FactureForm) (name : FactureField)
    (value : String) : FactureForm :=
  let updated := prev.set name value
  if name = .laborCost ∨ name = .materialCost then
    let laborCost :=
      (if name = .laborCost then js.parseFloat value
       else updated.laborCost.parseFloat js).orZero
    let materialCost :=
      (if name = .materialCost then js.parseFloat value
       else updated.materialCost.parseFloat js).orZero
    { updated with totalAmount := .str (js.toFixed2 (js.add laborCost materialCost)) }
  else updated

/-- The function `handleInputChange(e)` of `FacturesPage`, for a change of the input
`name` to the text `value`. -/
def FacturesPage.handleInputChange (js : Platform) (st : FacturesState) (name : FactureField)
    (value : String) : FacturesState :=
  { st with formData := FacturesPage.changeForm js st.formData name value }

/- ------------------------------------------------------------------ -/
/- Reading a payload                                                   -/
/- ------------------------------------------------------------------ -/

/-- The value of property `k` of a JSON object (`none` when absent or not an object). -/
def Json.prop : Json → String → Option Json
  | .obj props, k => getProp props k
  | _, _ => none

/-- A non-empty text made of decimal digits only. -/
def isDecimalDigits (s : String) : Bool :=
  !s.data.isEmpty && s.data.all Char.isDigit

/-- Example: the client John Doe as the backend returns him. -/
def johnDoeRecord : Client :=
  { clientId := 7, firstName := .val "John", lastName := .val "Doe",
    email := .val "john.doe@example.com", phoneNumber := .val "0612345678",
    address := .val "123 Rue Mohammed V, Casablanca, Maroc" }

/-- Example: an intervention whose schedule the backend returns with seconds. -/
def visitRecord : Intervention :=
  { id := 5, title := .val "Visite", description := .val "Contrôle annuel",
    scheduledTime := .val "2030-01-01T10:00:00", contract := .val { id := 3 } }

/-- Example: an invoice without labour cost, as the backend returns it. -/
def partsInvoiceRecord : Facture :=
  { id := 9, invoiceNumber := .val "INV-2024-001", description := .val "Pièces",
    laborCost := .val (.fin 0), materialCost := .val (.fin 200),
    totalAmount := .val (.fin 200), status := .val "SENT" }

/-- Example: the Invoices screen in Create mode on a form with the given total. -/
def creatingInvoice (totalAmount : String) : FacturesState :=
  { factures := [], interventions := [], loading := false, error := none,
    isModalOpen := true, editingFacture := none,
    formData := { invoiceNumber := "INV-2024-001", description := "Entretien annuel",
                  totalAmount := .str totalAmount } }

/-- Example: the Interventions screen with the modal open on a visit scheduled at the
given time, in Create mode or editing the given record. -/
def schedulingVisit (scheduledTime : String) (editing : Option Intervention) :
    InterventionsState :=
  { interventions := [], contracts := [], loading := false, error := none,
    isModalOpen := true, editingIntervention := editing,
    formData := { title := "Visite", description := "Contrôle annuel",
                  scheduledTime := scheduledTime, contractId := "3" } }

/-- Specification side: the texts that a sequence of pattern items denotes. -/
def Denotes : List RegexItem → List Char → Prop
  | [], w => w = []
  | .one a :: rest, w => ∃ c v, w = c :: v ∧ a.accepts c = true ∧ Denotes rest v
  | .plus a :: rest, w =>
    ∃ u v, w = u ++ v ∧ u ≠ [] ∧ (∀ x ∈ u, a.accepts x = true) ∧ Denotes rest v

/-- Specification side: the text contains a block of the shape
`<non-white-space characters>@<non-white-space characters>.<non-white-space characters>`,
each run having at least one character. -/
def hasEmailShape (s : String) : Prop :=
  ∃ before a b c after : List Char,
    s.data = before ++ ((a ++ '@' :: (b ++ '.' :: c)) ++ after)
    ∧ a ≠ [] ∧ b ≠ [] ∧ c ≠ []
    ∧ (∀ x ∈ a, isJsWhiteSpace x = false) ∧ (∀ x ∈ b, isJsWhiteSpace x = false)
    ∧ (∀ x ∈ c, isJsWhiteSpace x = false)

/- ------------------------------------------------------------------ -/
/- components/DashboardPage.js                                         -/
/- ------------------------------------------------------------------ -/

/-- The `stats` state of `DashboardPage`, with the defaults of its `useState`. -/
structure DashboardStats where
  clientsCount : Nat := 0
  contractsCount : Nat := 0
  facturesCount : Nat := 0
  interventionsCount : Nat := 0
  totalRevenue : JsNumber := .fin 0
  upcomingInterventions : List Intervention := []
deriving DecidableEq

/-- The React state of `DashboardPage`. -/
structure DashboardState where
  stats : DashboardStats := {}
  loading : Bool := true
  error : Option String := none
deriving DecidableEq

/-- The six values `Promise.all` is fulfilled with, in the order of the destructuring. -/
structure DashboardReads where
  clients : List Client
  contracts : List Contract
  factures : List Facture
  interventions : List Intervention
  chiffreAffaires : JsNumber
  upcomingInterventions : List Intervention

namespace DashboardPage

/-- The call `Promise.all([...])` of `loadDashboardData` over the six reads: fulfilled with
the six values when every read is fulfilled, rejected as soon as one read is rejected.
The reason kept here is that of the first rejected read in the order of the array (the
browser keeps the one rejected first in time; the handler only logs it). -/
def promiseAll (clients : Except JsError (List Client))
    (contracts : Except JsError (List Contract)) (factures : Except JsError (List Facture))
    (interventions : Except JsError (List Intervention))
    (chiffreAffaires : Except JsError JsNumber)
    (upcomingInterventions : Except JsError (List Intervention)) :
    Except JsError DashboardReads :=
  match clients with
  | .error e => .error e
  | .ok c =>
    match contracts with
    | .error e => .error e
    | .ok k =>
      match factures with
      | .error e => .error e
      | .ok f =>
        match interventions with
        | .error e => .error e
        | .ok i =>
          match chiffreAffaires with
          | .error e => .error e
          | .ok v =>
            match upcomingInterventions with
            | .error e => .error e
            | .ok u => .ok ⟨c, k, f, i, v, u⟩

/-- The six reads `loadDashboardData` issues. -/
def reads : List Effect :=
  [.api getClients, .api getContracts, .api getFactures, .api getInterventions,
    .api getChiffreAffaires, .api getUpcomingInterventions]

/-- The function `loadDashboardData`; `data` is what `Promise.all` settles to. -/
def loadDashboardData (st : DashboardState) (data : Except JsError DashboardReads) :
    Run DashboardState :=
  match data with
  | .ok r =>
    ⟨{ st with
        stats :=
          { clientsCount := r.clients.length
            contractsCount := r.contracts.length
            facturesCount := r.factures.length
            interventionsCount := r.interventions.length
            totalRevenue := r.chiffreAffaires
            upcomingInterventions := r.upcomingInterventions.take 5 }
        error := none
        loading := false },
      reads⟩
  | .error err =>
    ⟨{ st with
        error := some "Erreur lors du chargement des données du tableau de bord"
        loading := false },
      reads ++ [.consoleError "Error loading dashboard data:" err]⟩

end DashboardPage

/-- A read that was rejected. -/
def rejectedRead {α : Type} : Except JsError α → Bool
  | .ok _ => false
  | .error _ => true

/- ------------------------------------------------------------------ -/
/- components/AssistantIA.js                                           -/
/- ------------------------------------------------------------------ -/

/-- Truthiness of a decoded JSON value. -/
def Json.truthy : Json → Bool
  | .null => false
  | .bool b => b
  | .num n => n.truthy
  | .str s => truthyStr s
  | .arr _ => true
  | .obj _ => true

/-- An entry `{ role, text }` of the transcript; `text` is a string for the entries the
widget writes itself and whatever JSON value `data.reply` holds for a reply. -/
structure ChatEntry where
  role : String
  text : Json

/-- The entry as the object serialised in the request body. -/
def ChatEntry.toJson (m : ChatEntry) : Json :=
  .obj [("role", .str m.role), ("text", m.text)]

/-- The request handed to `fetch` by the assistant. -/
structure FetchCall where
  url : String
  method : String
  headers : Headers
  body : String
deriving DecidableEq, Repr

/-- The React state of `AssistantIA`. -/
structure AssistantState where
  history : List ChatEntry
  input : String
  loading : Bool

/-- What `send` leaves behind: the widget state and the requests it issued. -/
structure AssistantRun where
  state : AssistantState
  requests : List FetchCall

namespace AssistantIA

/-- The constant `API_BASE`; `env` is `process.env.REACT_APP_API_BASE`. -/
def API_BASE (env : Option String) : String :=
  match env with
  | some base => if truthyStr base then base else "http://localhost:8080"
  | none => "http://localhost:8080"

/-- The entry the transcript is seeded with. -/
def greeting : ChatEntry :=
  { role := "model"
    text := .str "👋 Bonjour ! Je suis votre assistant IA dédié à la gestion de maintenance. Posez vos questions (clients, contrats, interventions, équipements, factures, etc.)." }

/-- The state of the widget when it is mounted. -/
def initial : AssistantState :=
  { history := [greeting], input := "", loading := false }

/-- The list `quickPrompts`. -/
def quickPrompts : List String :=
  ["Ajouter un client", "Créer une facture", "Planifier une intervention",
    "Ajouter un équipement", "Afficher le tableau de bord"]

/-- The request of `send`: `history` is the transcript of the render `send` was created
in, before the user message is appended. -/
def chatRequest (js : Platform) (env : Option String) (msg : String)
    (history : List ChatEntry) : FetchCall :=
  { url := API_BASE env ++ "/api/ai/chat"
    method := "POST"
    headers := [("Content-Type", "application/json")]
    body := js.stringify
      (.obj [("message", .str msg), ("history", .arr (history.map ChatEntry.toJson))]) }

/-- The three state updates `send` makes before it awaits `fetch`. -/
def sendStart (st : AssistantState) (msg : String) : AssistantState :=
  { st with
    input := ""
    history := st.history ++ [{ role := "user", text := .str msg }]
    loading := true }

/-- The entry `send` appends once the round trip has settled: `fetched` is what `fetch`
settles to, and the `json` of the response what `res.json()` settles to. -/
def replyEntry (fetched : Except JsError (Response Json)) : ChatEntry :=
  match fetched with
  | .error _ => { role := "model", text := .str "Erreur de communication avec le service IA." }
  | .ok res =>
    match res.json with
    | .error _ => { role := "model", text := .str "Erreur de communication avec le service IA." }
    | .ok data =>
      match data.prop "reply" with
      | some reply =>
        if reply.truthy then { role := "model", text := reply }
        else { role := "model", text := .str "Désolé, je n’ai pas pu répondre." }
      | none => { role := "model", text := .str "Désolé, je n’ai pas pu répondre." }

/-- The state updates `send` makes after the round trip has settled, applied to the state
of the widget at that time. -/
def sendSettle (st : AssistantState) (fetched : Except JsError (Response Json)) :
    AssistantState :=
  { st with
    history := st.history ++ [replyEntry fetched]
    loading := false }

/-- The function `send()`, run to completion with no other event in between. -/
def send (js : Platform) (env : Option String) (st : AssistantState)
    (fetched : Except JsError (Response Json)) : AssistantRun :=
  let msg := trim st.input
  if !truthyStr msg || st.loading then ⟨st, []⟩
  else ⟨sendSettle (sendStart st msg) fetched, [chatRequest js env msg st.history]⟩

/-- The attribute `disabled` of the send button. -/
def sendDisabled (st : AssistantState) : Bool :=
  st.loading

/-- What can happen to the mounted widget. -/
inductive Event where
  | change (value : String)
  | quickPrompt (q : String)
  | click
  | keyDown (key : String) (shiftKey : Bool)
  | settle (fetched : Except JsError (Response Json))

/-- The widget together with the chat requests that have not settled yet. -/
structure Widget where
  ui : AssistantState
  inFlight : List FetchCall

/-- The first half of `send()`, up to the `await`: the guard, the three state updates
and the call of `fetch`. -/
def invokeSend (js : Platform) (env : Option String) (w : Widget) : Widget :=
  let msg := trim w.ui.input
  if !truthyStr msg || w.ui.loading then w
  else ⟨sendStart w.ui msg, w.inFlight ++ [chatRequest js env msg w.ui.history]⟩

/-- One event of the widget: typing, a quick prompt, a click on the send button (without
effect while the button is disabled), a key in the input, or the oldest pending
request settling. -/
def step (js : Platform) (env : Option String) (w : Widget) : Event → Widget
  | .change value => { w with ui := { w.ui with input := value } }
  | .quickPrompt q => { w with ui := { w.ui with input := q } }
  | .click => if sendDisabled w.ui then w else invokeSend js env w
  | .keyDown key shiftKey =>
    if key = "Enter" && !shiftKey then invokeSend js env w else w
  | .settle fetched =>
    match w.inFlight with
    | [] => w
    | _ :: pending => ⟨sendSettle w.ui fetched, pending⟩

/-- The widget after a sequence of events, from the mounted state. -/
def runEvents (js : Platform) (env : Option String) (events : List Event) : Widget :=
  events.foldl (step js env) ⟨initial, []⟩

end AssistantIA

/- ------------------------------------------------------------------ -/
/- Display-name helpers of the screens                                 -/
/- ------------------------------------------------------------------ -/

/-- The object returned by `getClientDetails(contract)` of `ContractsPage`. -/
structure ClientDetails where
  name : String
  email : Field String
  phone : Field String
  address : Field String
deriving DecidableEq, Repr

/-- The function `getClientDetails(contract)` of `ContractsPage`. -/
def ContractsPage.getClientDetails (contract : Contract) : ClientDetails :=
  match contract.client with
  | .val client =>
    { name := ContractsPage.getClientName contract
      email := client.email
      phone := client.phoneNumber
      address := client.address }
  | _ => { name := "Client inconnu", email := .val "-", phone := .val "-", address := .val "-" }

/-- The function `getClientName(intervention)` of `InterventionsPage`. -/
def InterventionsPage.getClientName (intervention : Intervention) : String :=
  match intervention.contract with
  | .val contract =>
    match contract.client with
    | .val client => client.firstName.template ++ " " ++ client.lastName.template
    | _ => "Client inconnu"
  | _ => "Client inconnu"

/-- The object returned by `getContractInfo(intervention)`: `id` is the number of the
contract or the text 'N/A'. -/
structure ContractInfo where
  id : IdInput
  client : String
deriving DecidableEq, Repr

/-- The function `getContractInfo(intervention)` of `InterventionsPage`. -/
def InterventionsPage.getContractInfo (intervention : Intervention) : ContractInfo :=
  match intervention.contract with
  | .val contract =>
    let client :=
      match contract.client with
      | .val client => client.firstName.template ++ " " ++ client.lastName.template
      | _ => "Client inconnu"
    { id := .num contract.id, client := client }
  | _ => { id := .str "N/A", client := "Client inconnu" }

/-- The function `getClientName(equipment)` of `EquipmentPage`. -/
def EquipmentPage.getClientName (st : EquipmentState) (equipment : EquipmentItem) : String :=
  match equipment.client with
  | .val client => client.firstName.template ++ " " ++ client.lastName.template
  | _ =>
    match equipment.clientId with
    | .val clientId =>
      if clientId ≠ 0 then
        match st.clients.find? (fun c => c.clientId == clientId) with
        | some client => client.firstName.template ++ " " ++ client.lastName.template
        | none => "Client inconnu"
      else "Client inconnu"
    | _ => "Client inconnu"

/-- The object returned by `getInterventionInfo(facture)` of `FacturesPage`. -/
structure InterventionInfo where
  title : Field String
  description : Field String
  client : String
  scheduledTime : Field String
deriving DecidableEq, Repr

/-- The object `getInterventionInfo` builds from the intervention it found. -/
def FacturesPage.interventionInfo (intervention : Intervention) : InterventionInfo :=
  let clientName :=
    match intervention.contract with
    | .val contract =>
      match contract.client with
      | .val client => client.firstName.template ++ " " ++ client.lastName.template
      | _ => "Client inconnu"
    | _ => "Client inconnu"
  { title := intervention.title
    description := intervention.description
    client := clientName
    scheduledTime := intervention.scheduledTime }

/-- The function `getInterventionInfo(facture)` of `FacturesPage`; `none` is `null`. -/
def FacturesPage.getInterventionInfo (st : FacturesState) (facture : Facture) :
    Option InterventionInfo :=
  match st.interventions.find? (fun i =>
      match i.facture with
      | .val f => f.id == facture.id
      | _ => false) with
  | some intervention => some (FacturesPage.interventionInfo intervention)
  | none =>
    match facture.interventionId with
    | .val interventionId =>
      if interventionId ≠ 0 then
        match st.interventions.find? (fun i => i.id == interventionId) with
        | some interventionById => some (FacturesPage.interventionInfo interventionById)
        | none => none
      else none
    | _ => none

/-- Specification side: the text `firstName + ' ' + lastName` of a client. -/
def fullName (client : Client) : String :=
  client.firstName.template ++ " " ++ client.lastName.template

/- ------------------------------------------------------------------ -/
/- services/constants.js: enumerations and label lookups               -/
/- ------------------------------------------------------------------ -/

/-- The values of the object `CLIENT_TYPES`. -/
def CLIENT_TYPES : List String := ["INDIVIDUAL", "COMPANY", "GOVERNMENT", "NON_PROFIT"]

/-- The values of the object `CLIENT_STATUS`. -/
def CLIENT_STATUS : List String := ["ACTIVE", "INACTIVE", "SUSPENDED"]

/-- The values of the object `CONTRACT_TYPES`. -/
def CONTRACT_TYPES : List String :=
  ["MAINTENANCE", "REPAIR", "INSTALLATION", "CONSULTING", "EMERGENCY", "SEASONAL"]

/-- The values of the object `CONTRACT_STATUS`. -/
def CONTRACT_STATUS : List String := ["DRAFT", "ACTIVE", "SUSPENDED", "EXPIRED", "CANCELLED"]

/-- The values of the object `INTERVENTION_STATUS`. -/
def INTERVENTION_STATUS : List String :=
  ["SCHEDULED", "IN_PROGRESS", "COMPLETED", "CANCELLED", "POSTPONED"]

/-- The values of the object `INTERVENTION_PRIORITY`. -/
def INTERVENTION_PRIORITY : List String := ["LOW", "MEDIUM", "HIGH", "URGENT"]

/-- The values of the object `INTERVENTION_TYPES`. -/
def INTERVENTION_TYPES : List String :=
  ["PREVENTIVE", "CORRECTIVE", "EMERGENCY", "INSPECTION", "INSTALLATION"]

/-- The values of the object `INVOICE_STATUS`. -/
def INVOICE_STATUS : List String := ["DRAFT", "SENT", "PAID", "OVERDUE", "CANCELLED"]

/-- The values of the object `PAYMENT_METHODS`. -/
def PAYMENT_METHODS : List String := ["CASH", "CREDIT_CARD", "BANK_TRANSFER", "CHECK"]

/-- The values of the object `EQUIPMENT_STATUS`. -/
def EQUIPMENT_STATUS : List String :=
  ["OPERATIONAL", "MAINTENANCE_REQUIRED", "OUT_OF_SERVICE", "DECOMMISSIONED"]

/-- The values of the object `EQUIPMENT_TYPES`. -/
def EQUIPMENT_TYPES : List String :=
  ["HVAC", "ELECTRICAL", "PLUMBING", "MECHANICAL", "SAFETY", "IT"]

/-- The values of the object `TECHNICIAN_SPECIALIZATIONS`. -/
def TECHNICIAN_SPECIALIZATIONS : List String :=
  ["GENERAL", "ELECTRICAL", "PLUMBING", "HVAC", "MECHANICAL", "IT_SUPPORT"]

/-- The function `getClientTypeLabel(type)`. -/
def getClientTypeLabel (type : String) : String :=
  if type = "INDIVIDUAL" then "Particulier"
  else if type = "COMPANY" then "Entreprise"
  else if type = "GOVERNMENT" then "Administration"
  else if type = "NON_PROFIT" then "Association"
  else type

/-- The function `getInvoiceStatusLabel(status)`. -/
def getInvoiceStatusLabel (status : String) : String :=
  if status = "DRAFT" then "Brouillon"
  else if status = "SENT" then "Envoyée"
  else if status = "PAID" then "Payée"
  else if status = "OVERDUE" then "En retard"
  else if status = "CANCELLED" then "Annulée"
  else status

/-- The function `getTechnicianSpecializationLabel(specialization)`. -/
def getTechnicianSpecializationLabel (specialization : String) : String :=
  if specialization = "GENERAL" then "Maintenance générale"
  else if specialization = "ELECTRICAL" then "Systèmes électriques"
  else if specialization = "PLUMBING" then "Plomberie"
  else if specialization = "HVAC" then "CVC (Chauffage, Ventilation, Climatisation)"
  else if specialization = "MECHANICAL" then "Systèmes mécaniques"
  else if specialization = "IT_SUPPORT" then "Support informatique"
  else specialization

/-- The function `getEquipmentStatusLabel(status)`. -/
def getEquipmentStatusLabel (status : String) : String :=
  if status = "OPERATIONAL" then "Opérationnel"
  else if status = "MAINTENANCE_REQUIRED" then "Maintenance requise"
  else if status = "OUT_OF_SERVICE" then "Hors service"
  else if status = "DECOMMISSIONED" then "Déclassé"
  else status

/-- The function `getEquipmentTypeLabel(type)`. -/
def getEquipmentTypeLabel (type : String) : String :=
  if type = "HVAC" then "CVC"
  else if type = "ELECTRICAL" then "Électrique"
  else if type = "PLUMBING" then "Plomberie"
  else if type = "MECHANICAL" then "Mécanique"
  else if type = "SAFETY" then "Sécurité"
  else if type = "IT" then "Informatique"
  else type

/-- The names every object literal inherits from `Object.prototype`. -/
def objectPrototypeNames : List String :=
  ["constructor", "__defineGetter__", "__defineSetter__", "hasOwnProperty",
    "__lookupGetter__", "__lookupSetter__", "isPrototypeOf", "propertyIsEnumerable",
    "toString", "valueOf", "__proto__", "toLocaleString"]

/-- The function `getPaymentMethodLabel(method)` of `FacturesPage`:
`labels[method] || method`. The result is `none` when `labels[method]` is a member
inherited from `Object.prototype`, which is not a text. -/
def FacturesPage.getPaymentMethodLabel (method : String) : Option String :=
  match getProp [("CASH", "Espèces"), ("CREDIT_CARD", "Carte bancaire"),
      ("BANK_TRANSFER", "Virement"), ("CHECK", "Chèque")] method with
  | some label => if truthyStr label then some label else some method
  | none => if objectPrototypeNames.contains method then none else some method

/-- The twelve domain enumerations of `constants.js`. -/
inductive Enumeration where
  | clientType
  | clientStatus
  | contractType
  | contractStatus
  | interventionStatus
  | interventionPriority
  | interventionType
  | invoiceStatus
  | paymentMethod
  | equipmentStatus
  | equipmentType
  | technicianSpecialization
deriving DecidableEq, Repr

/-- The codes of an enumeration. -/
def Enumeration.codes : Enumeration → List String
  | .clientType => CLIENT_TYPES
  | .clientStatus => CLIENT_STATUS
  | .contractType => CONTRACT_TYPES
  | .contractStatus => CONTRACT_STATUS
  | .interventionStatus => INTERVENTION_STATUS
  | .interventionPriority => INTERVENTION_PRIORITY
  | .interventionType => INTERVENTION_TYPES
  | .invoiceStatus => INVOICE_STATUS
  | .paymentMethod => PAYMENT_METHODS
  | .equipmentStatus => EQUIPMENT_STATUS
  | .equipmentType => EQUIPMENT_TYPES
  | .technicianSpecialization => TECHNICIAN_SPECIALIZATIONS

/-- The label lookup the sources define for an enumeration: the five functions of
`constants.js` and `getPaymentMethodLabel` of `FacturesPage`; `none` for the enumerations
for which the sources define no lookup. -/
def Enumeration.labelLookup : Enumeration → Option (String → Option String)
  | .clientType => some (fun code => some (getClientTypeLabel code))
  | .invoiceStatus => some (fun code => some (getInvoiceStatusLabel code))
  | .technicianSpecialization => some (fun code => some (getTechnicianSpecializationLabel code))
  | .equipmentStatus => some (fun code => some (getEquipmentStatusLabel code))
  | .equipmentType => some (fun code => some (getEquipmentTypeLabel code))
  | .paymentMethod => some FacturesPage.getPaymentMethodLabel
  | .clientStatus => none
  | .contractType => none
  | .contractStatus => none
  | .interventionStatus => none
  | .interventionPriority => none
  | .interventionType => none

/-- Specification side: the enumeration has a lookup that gives each of its codes a label
different from the code. -/
def Enumeration.HasLabels (e : Enumeration) : Prop :=
  ∃ lookup, e.labelLookup = some lookup
    ∧ ∀ code ∈ e.codes, ∃ label, lookup code = some label ∧ label ≠ code

/-- The message of the error `request` throws on a non-success status:
the template literal of `new Error(...)` with `response.status` spliced in. -/
def httpErrorMessage (status : Nat) : String :=
  "HTTP error! status: " ++ Nat.repr status

/- ------------------------------------------------------------------ -/
/- components/Dashboard.js, Sidebar.js, MainContent.js: the shell      -/
/- ------------------------------------------------------------------ -/

/-- An entry of `navItems` (the icon left out). -/
structure NavItem where
  id : String
  label : String
deriving DecidableEq, Repr

/-- The list `navItems` of `Sidebar`. -/
def Sidebar.navItems : List NavItem :=
  [⟨"dashboard", "Tableau de bord"⟩, ⟨"clients", "Clients"⟩, ⟨"contrats", "Contrats"⟩,
    ⟨"interventions", "Interventions"⟩, ⟨"equipment", "Équipements"⟩,
    ⟨"factures", "Factures"⟩, ⟨"techniciens", "Techniciens"⟩]

/-- The React state of the component `Dashboard`, the shell of the application. -/
structure ShellState where
  activeTab : String := "dashboard"
  sidebarOpen : Bool := false
deriving DecidableEq, Repr

/-- The function `toggleSidebar` of `Dashboard`, handed to `Header`. -/
def Dashboard.toggleSidebar (st : ShellState) : ShellState :=
  { st with sidebarOpen := !st.sidebarOpen }

/-- The function `closeSidebar` of `Dashboard`, handed to `Sidebar` as its
`toggleSidebar` property. -/
def Dashboard.closeSidebar (st : ShellState) : ShellState :=
  { st with sidebarOpen := false }

/-- The function `handleItemClick(itemId)` of `Sidebar`: its `toggleSidebar` property is
the function `closeSidebar`, so the guard on it holds. -/
def Sidebar.handleItemClick (st : ShellState) (itemId : String) : ShellState :=
  Dashboard.closeSidebar { st with activeTab := itemId }

/-- The components `renderContent` can return. -/
inductive Page where
  | DashboardPage
  | ClientsPage
  | ContractsPage
  | FacturesPage
  | InterventionsPage
  | EquipmentPage
  | TechniciansPage
  | ContactPage
  | AssistantIA
deriving DecidableEq, Repr

/-- The function `renderContent` of `MainContent`: the `switch` on `activeTab`. -/
def MainContent.renderContent (activeTab : String) : Page :=
  if activeTab = "dashboard" then .DashboardPage
  else if activeTab = "clients" then .ClientsPage
  else if activeTab = "contrats" then .ContractsPage
  else if activeTab = "factures" then .FacturesPage
  else if activeTab = "interventions" then .InterventionsPage
  else if activeTab = "equipment" then .EquipmentPage
  else if activeTab = "techniciens" then .TechniciansPage
  else if activeTab = "contact" then .ContactPage
  else if activeTab = "assistant-ia" then .AssistantIA
  else .DashboardPage

/-- What the user can do to the shell: click the button of an entry of `navItems`, the
menu button of the header, the overlay or the close button of the sidebar. -/
inductive ShellEvent where
  | itemClick (item : Fin Sidebar.navItems.length)
  | headerMenu
  | overlay
  | closeButton
deriving DecidableEq

/-- One event of the shell. -/
def Dashboard.step (st : ShellState) : ShellEvent → ShellState
  | .itemClick item => Sidebar.handleItemClick st (Sidebar.navItems.get item).id
  | .headerMenu => Dashboard.toggleSidebar st
  | .overlay => Dashboard.closeSidebar st
  | .closeButton => Dashboard.closeSidebar st

/-- The shell after a sequence of events, from its initial state. -/
def Dashboard.run (events : List ShellEvent) : ShellState :=
  events.foldl Dashboard.step {}

/-- The seven identifiers of the sidebar. -/
def sidebarIds : List String :=
  ["dashboard", "clients", "contrats", "interventions", "equipment", "factures", "techniciens"]

/-- Example: an intervention whose schedule the backend returns to the minute. -/
def minuteVisitRecord : Intervention :=
  { id := 5, title := .val "Visite", description := .val "Contrôle annuel",
    scheduledTime := .val "2030-01-01T10:00", contract := .val { id := 3 } }

/- ------------------------------------------------------------------ -/
/- The REST table of the specification                                 -/
/- ------------------------------------------------------------------ -/

/-- Specification side: a response declares JSON when it has a content-type header
that contains `application/json`. -/
def Response.declaresJson {β : Type} (response : Response β) : Prop :=
  ∃ contentType, response.contentType = some contentType
    ∧ includes contentType "application/json" = true

/-- Specification side: `GET base`, no method override and no body. -/
def restList (base : String) : ApiCall :=
  ⟨base, ⟨none, none, none⟩⟩

/-- Specification side: `GET base/id`. -/
def restGetOne (base : String) (id : Nat) : ApiCall :=
  ⟨base ++ "/" ++ Nat.repr id, ⟨none, none, none⟩⟩

/-- Specification side: `POST base` with the JSON text of `data` as body. -/
def restCreate (js : Platform) (base : String) (data : Json) : ApiCall :=
  ⟨base, ⟨some "POST", some (js.stringify data), none⟩⟩

/-- Specification side: `PUT base/id` with the JSON text of `data` as body. -/
def restUpdate (js : Platform) (base : String) (id : Nat) (data : Json) : ApiCall :=
  ⟨base ++ "/" ++ Nat.repr id, ⟨some "PUT", some (js.stringify data), none⟩⟩

/-- Specification side: `DELETE base/id` without a body. -/
def restDelete (base : String) (id : Nat) : ApiCall :=
  ⟨base ++ "/" ++ Nat.repr id, ⟨some "DELETE", none, none⟩⟩

/- ================================================================== -/
/- Theorems                                                            -/
/- ================================================================== -/

/-- A string that contains a non-empty block is itself non-empty. -/
theorem truthyStr_of_includes (s needle : String) (hn : needle.data ≠ [])
    (h : includes s needle = true) : truthyStr s = true := by
  unfold includes at h
  unfold truthyStr
  cases hs : s.data with
  | nil =>
    rw [hs] at h
    cases hd : needle.data with
    | nil => exact absurd hd hn
    | cons a l => rw [hd] at h; simp [includesFrom] at h
  | cons a l => rfl

/-- C1: when the response's `ok` flag is false with status `s`, `request` rejects with
an error whose message is exactly `HTTP error! status: s`; `response.json()` is never
called, no value is returned, and the rejection is the very error thrown inside the
`try` block (as is every error thrown there, a rejection of `fetch` included). -/
theorem request_rejects_on_http_error {β : Type} (endpoint : String)
    (options : RequestOptions) (response : Response β) (h : response.ok = false) :
    (request endpoint options (.ok response)).result
        = .error ⟨"HTTP error! status: " ++ Nat.repr response.status⟩
    ∧ NetEvent.json ∉ (request endpoint options (.ok response)).events
    ∧ (∀ value, (request endpoint options (.ok response)).result ≠ .ok value)
    ∧ (request endpoint options (.ok response)).result
        = (requestTry (Except.ok response)).result
    ∧ (∀ (fetched : Except JsError (Response β)) (e : JsError),
        (requestTry fetched).result = .error e →
        (request endpoint options fetched).result = .error e) := by
  refine ⟨?_, ?_, ?_, ?_, ?_⟩
  · simp [request, requestTry, h]
  · simp [request, requestTry, h]
  · simp [request, requestTry, h]
  · simp [request, requestTry, h]
  · intro fetched e he
    simp [request, he]

/-- Witness of C1: a 404 on `/clients`. -/
theorem request_rejects_on_http_error_witness :
    (false = false)
    ∧ (request "/clients" {} (.ok (⟨false, 404, some "application/json", .ok ()⟩ : Response Unit))).result
        = .error ⟨"HTTP error! status: 404"⟩ :=
  ⟨rfl, (request_rejects_on_http_error "/clients" {}
    (⟨false, 404, some "application/json", .ok ()⟩ : Response Unit) rfl).1⟩

/-- C2: on a response whose `ok` flag is true, `request` settles to what
`response.json()` settles to when the content-type header contains `application/json`,
and to the raw response handle when the header is missing or does not contain it; so it
returns the parsed body exactly when the header declares JSON. -/
theorem request_success_json_or_handle {β : Type} (endpoint : String)
    (options : RequestOptions) (response : Response β) (h : response.ok = true) :
    (response.declaresJson →
      (request endpoint options (.ok response)).result
        = (match response.json with
           | .ok body => .ok (.parsed body)
           | .error e => .error e))
    ∧ (¬ response.declaresJson →
      (request endpoint options (.ok response)).result = .ok (.raw response))
    ∧ (∀ body, response.json = .ok body →
      ((request endpoint options (.ok response)).result = .ok (.parsed body)
        ↔ response.declaresJson)) := by
  have key : response.declaresJson →
      (request endpoint options (.ok response)).result
        = (match response.json with
           | .ok body => .ok (.parsed body)
           | .error e => .error e) := by
    rintro ⟨ct, hct, hinc⟩
    have ht : truthyStr ct = true := truthyStr_of_includes ct _ (by decide) hinc
    cases hj : response.json <;> simp [request, requestTry, h, hct, hinc, ht, hj]
  have key2 : ¬ response.declaresJson →
      (request endpoint options (.ok response)).result = .ok (.raw response) := by
    intro hno
    cases hct : response.contentType with
    | none => simp [request, requestTry, h, hct]
    | some ct =>
      have hinc : includes ct "application/json" = false := by
        cases hi : includes ct "application/json" with
        | false => rfl
        | true => exact absurd ⟨ct, hct, hi⟩ hno
      simp [request, requestTry, h, hct, hinc]
  refine ⟨key, key2, ?_⟩
  intro body hbody
  constructor
  · intro hres
    by_contra hno
    rw [key2 hno] at hres
    cases hres
  · intro hyes
    rw [key hyes, hbody]

/-- Witness of C2: a JSON response is decoded, a plain-text one is handed back as is. -/
theorem request_success_json_or_handle_witness :
    (true = true)
    ∧ ((request "/clients" {}
          (.ok (⟨true, 200, some "application/json;charset=UTF-8", .ok 7⟩ : Response Nat))).result
        = .ok (.parsed 7))
    ∧ ((request "/clients" {}
          (.ok (⟨true, 200, some "text/plain", .ok 7⟩ : Response Nat))).result
        = .ok (.raw ⟨true, 200, some "text/plain", .ok 7⟩)) :=
  ⟨rfl,
   (request_success_json_or_handle "/clients" {}
      (⟨true, 200, some "application/json;charset=UTF-8", .ok 7⟩ : Response Nat) rfl).1
      ⟨"application/json;charset=UTF-8", rfl, by decide⟩,
   (request_success_json_or_handle "/clients" {}
      (⟨true, 200, some "text/plain", .ok 7⟩ : Response Nat) rfl).2.1
      (by rintro ⟨ct, hct, hinc⟩; cases hct; revert hinc; decide)⟩

/-- Caller-supplied headers replace the `headers` property of `config` as a whole. -/
theorem buildConfig_headers_of_some (options : RequestOptions) (h : Headers)
    (hh : options.headers = some h) :
    getProp (buildConfig options) "headers" = some (ConfigValue.headers h) := by
  obtain ⟨m, b, hd⟩ := options
  simp only at hh
  subst hh
  cases m <;> cases b <;>
    simp [buildConfig, RequestOptions.props, RequestOptions.headerProps, spread, setProp, getProp]

/-- C3 (the code departs from the claim): with caller headers `Authorization` only,
the merge would keep the JSON `Content-Type`, yet the `headers` property of the
configuration passed to `fetch` is the caller's map alone, without `Content-Type`. -/
theorem request_config_loses_content_type :
    spread [("Content-Type", "application/json")] [("Authorization", "Bearer t")]
        = [("Content-Type", "application/json"), ("Authorization", "Bearer t")]
    ∧ getProp (buildConfig { method := some "POST", headers := some [("Authorization", "Bearer t")] })
          "headers"
        = some (ConfigValue.headers [("Authorization", "Bearer t")])
    ∧ getProp [("Authorization", "Bearer t")] "Content-Type" = none
    ∧ (request "/clients" { method := some "POST", headers := some [("Authorization", "Bearer t")] }
          (.ok (⟨true, 200, none, .ok ()⟩ : Response Unit))).events
        = [NetEvent.fetch "http://localhost:8080/api/clients"
            [("headers", ConfigValue.headers [("Authorization", "Bearer t")]),
             ("method", ConfigValue.str "POST")]] := by
  refine ⟨by decide, by decide, by decide, by decide⟩

/-- C4: each of the six entities binds its base path and verb: list is `GET base`
(no method, no body), get-one is `GET base/id`, create is `POST base` with body
`JSON.stringify(data)`, update is `PUT base/id` with body `JSON.stringify(data)`, delete
is `DELETE base/id` without body; the revenue total is read from
`/factures/chiffre-affaires` and the upcoming interventions from
`/interventions/upcoming`, and a call without a method leaves `config` without one. -/
theorem entity_methods_follow_rest_table (js : Platform) (id : Nat) (data : Json) :
    (getClients = restList "/clients"
      ∧ getClient id = restGetOne "/clients" id
      ∧ createClient js data = restCreate js "/clients" data
      ∧ updateClient js id data = restUpdate js "/clients" id data
      ∧ deleteClient id = restDelete "/clients" id)
    ∧ (getContracts = restList "/contracts"
      ∧ getContract id = restGetOne "/contracts" id
      ∧ createContract js data = restCreate js "/contracts" data
      ∧ updateContract js id data = restUpdate js "/contracts" id data
      ∧ deleteContract id = restDelete "/contracts" id)
    ∧ (getFactures = restList "/factures"
      ∧ getFacture id = restGetOne "/factures" id
      ∧ createFacture js data = restCreate js "/factures" data
      ∧ updateFacture js id data = restUpdate js "/factures" id data
      ∧ deleteFacture id = restDelete "/factures" id)
    ∧ (getInterventions = restList "/interventions"
      ∧ getIntervention id = restGetOne "/interventions" id
      ∧ createIntervention js data = restCreate js "/interventions" data
      ∧ updateIntervention js id data = restUpdate js "/interventions" id data
      ∧ deleteIntervention id = restDelete "/interventions" id)
    ∧ (getEquipment = restList "/equipment"
      ∧ getEquipmentItem id = restGetOne "/equipment" id
      ∧ createEquipment js data = restCreate js "/equipment" data
      ∧ updateEquipment js id data = restUpdate js "/equipment" id data
      ∧ deleteEquipment id = restDelete "/equipment" id)
    ∧ (getTechnicians = restList "/techniciens"
      ∧ getTechnician id = restGetOne "/techniciens" id
      ∧ createTechnician js data = restCreate js "/techniciens" data
      ∧ updateTechnician js id data = restUpdate js "/techniciens" id data
      ∧ deleteTechnician id = restDelete "/techniciens" id)
    ∧ getChiffreAffaires = restList "/factures/chiffre-affaires"
    ∧ getUpcomingInterventions = restList "/interventions/upcoming"
    ∧ (∀ base, getProp (buildConfig (restList base).options) "method" = none)
    ∧ (∀ base, getProp (buildConfig (restDelete base id).options) "body" = none) := by
  refine ⟨⟨rfl, ?_, rfl, ?_, ?_⟩, ⟨rfl, ?_, rfl, ?_, ?_⟩, ⟨rfl, ?_, rfl, ?_, ?_⟩,
    ⟨rfl, ?_, rfl, ?_, ?_⟩, ⟨rfl, ?_, rfl, ?_, ?_⟩, ⟨rfl, ?_, rfl, ?_, ?_⟩, rfl, rfl,
    fun _ => rfl, fun _ => rfl⟩ <;>
  simp [restGetOne, restUpdate, restDelete, getClient, updateClient, deleteClient,
    getContract, updateContract, deleteContract, getFacture, updateFacture, deleteFacture,
    getIntervention, updateIntervention, deleteIntervention, getEquipmentItem,
    updateEquipment, deleteEquipment, getTechnician, updateTechnician, deleteTechnician,
    String.ext_iff]

/-- A trimmed string is empty exactly when the string is blank. -/
theorem truthyStr_trim_eq_false_iff (s : String) :
    truthyStr (trim s) = false ↔ isBlank s = true := by
  unfold truthyStr trim isBlank
  simp only [Bool.not_eq_false', List.isEmpty_iff, List.reverse_eq_nil_iff,
    List.dropWhile_eq_nil_iff, List.mem_reverse, List.all_eq_true]
  constructor
  · intro h
    have hnil : s.data.dropWhile isJsWhiteSpace = [] := by
      cases hd : s.data.dropWhile isJsWhiteSpace with
      | nil => rfl
      | cons a l =>
        have hne : s.data.dropWhile isJsWhiteSpace ≠ [] := by rw [hd]; simp
        have h1 := List.head_dropWhile_not isJsWhiteSpace s.data hne
        have h2 := h a (by rw [hd]; simp)
        simp only [hd, List.head_cons] at h1
        rw [h2] at h1
        exact absurd h1 (by simp)
    exact List.dropWhile_eq_nil_iff.mp hnil
  · intro h x hx
    have hnil : s.data.dropWhile isJsWhiteSpace = [] := List.dropWhile_eq_nil_iff.mpr h
    rw [hnil] at hx
    cases hx



/-- The failure notification of the Clients submit handler is an error notification and
its branch follows the keywords of the message. -/
theorem ClientsPage_submitFailure_spec (editing : Bool) (message : String) :
    (ClientsPage.submitFailure editing message).2.isNotice = true
    ∧ (ClientsPage.submitFailure editing message).2.isApi = false
    ∧ (ClientsPage.submitFailure editing message).1 = amendedSubmitKind .clients message := by
  unfold ClientsPage.submitFailure
  simp only [amendedSubmitKind]
  split_ifs <;> exact ⟨rfl, rfl, rfl⟩

/-- The failure notification of the Clients delete handler is an error notification and
its branch follows the keywords of the message. -/
theorem ClientsPage_deleteFailure_spec (message : String) :
    (ClientsPage.deleteFailure message).2.isNotice = true
    ∧ (ClientsPage.deleteFailure message).2.isApi = false
    ∧ (ClientsPage.deleteFailure message).1 = specDeleteKind message := by
  unfold ClientsPage.deleteFailure specDeleteKind
  split_ifs <;> exact ⟨rfl, rfl, rfl⟩

/-- The Clients submit handler stops at the first failed check. -/
theorem ClientsPage_handleSubmit_invalid {α : Type} (js : Platform) (st : ClientsState)
    (saved : Except JsError α) (reloaded : Except JsError (List Client)) (notice : Effect)
    (h : ClientsPage.validate st.formData = some notice) :
    ClientsPage.handleSubmit js st saved reloaded = ⟨st, [.preventDefault, notice]⟩ := by
  simp [ClientsPage.handleSubmit, h]

/-- The Clients submit handler after a rejected create-or-update call: the state is
untouched, the save call is the only `apiService` call and one notification is shown. -/
theorem ClientsPage_handleSubmit_failed {α : Type} (js : Platform) (st : ClientsState)
    (err : JsError) (reloaded : Except JsError (List Client))
    (h : ClientsPage.validate st.formData = none) :
    (ClientsPage.handleSubmit js st (Except.error err : Except JsError α) reloaded).state = st
    ∧ (ClientsPage.handleSubmit js st (Except.error err : Except JsError α) reloaded).effects.filter Effect.isApi
        = [.api (ClientsPage.saveCall js st)]
    ∧ (ClientsPage.handleSubmit js st (Except.error err : Except JsError α) reloaded).effects.filter Effect.isNotice
        = [(ClientsPage.submitFailure st.editingClient.isSome err.message).2] := by
  obtain ⟨hn, ha, _⟩ := ClientsPage_submitFailure_spec st.editingClient.isSome err.message
  simp only [ClientsPage.handleSubmit, h]
  generalize (ClientsPage.submitFailure st.editingClient.isSome err.message).2 = n at hn ha
  cases n <;> simp [Effect.isApi, Effect.isNotice] at hn ha ⊢

/-- The Clients delete handler when the dialog is not confirmed: only the question was
asked. -/
theorem ClientsPage_handleDelete_unconfirmed {α : Type} (st : ClientsState) (id : Nat)
    (result : ConfirmResult) (deleted : Except JsError α) (reloaded : Except JsError (List Client))
    (h : result.isConfirmed = false) :
    (ClientsPage.handleDelete st id result deleted reloaded).state = st
    ∧ ∃ title text confirmText cancelText,
        (ClientsPage.handleDelete st id result deleted reloaded).effects
          = [.showConfirmation title text confirmText cancelText] := by
  simp [ClientsPage.handleDelete, h]

/-- The Clients delete handler after a confirmed delete call was rejected: the state is
untouched, the delete call is the only `apiService` call and one notification is shown. -/
theorem ClientsPage_handleDelete_failed {α : Type} (st : ClientsState) (id : Nat) (err : JsError)
    (reloaded : Except JsError (List Client)) :
    (ClientsPage.handleDelete st id ⟨true⟩ (Except.error err : Except JsError α) reloaded).state = st
    ∧ (ClientsPage.handleDelete st id ⟨true⟩ (Except.error err : Except JsError α)
          reloaded).effects.filter Effect.isApi
        = [.api (deleteClient id)]
    ∧ (ClientsPage.handleDelete st id ⟨true⟩ (Except.error err : Except JsError α)
          reloaded).effects.filter Effect.isNotice
        = [(ClientsPage.deleteFailure err.message).2] := by
  obtain ⟨hn, ha, _⟩ := ClientsPage_deleteFailure_spec err.message
  simp only [ClientsPage.handleDelete]
  generalize (ClientsPage.deleteFailure err.message).2 = n at hn ha
  cases n <;> simp [Effect.isApi, Effect.isNotice] at hn ha ⊢

/-- The failure notification of the Contracts submit handler is an error notification and
its branch follows the keywords of the message. -/
theorem ContractsPage_submitFailure_spec (editing : Bool) (message : String) :
    (ContractsPage.submitFailure editing message).2.isNotice = true
    ∧ (ContractsPage.submitFailure editing message).2.isApi = false
    ∧ (ContractsPage.submitFailure editing message).1 = amendedSubmitKind .contracts message := by
  unfold ContractsPage.submitFailure
  simp only [amendedSubmitKind]
  split_ifs <;> exact ⟨rfl, rfl, rfl⟩

/-- The failure notification of the Contracts delete handler is an error notification and
its branch follows the keywords of the message. -/
theorem ContractsPage_deleteFailure_spec (message : String) :
    (ContractsPage.deleteFailure message).2.isNotice = true
    ∧ (ContractsPage.deleteFailure message).2.isApi = false
    ∧ (ContractsPage.deleteFailure message).1 = specDeleteKind message := by
  unfold ContractsPage.deleteFailure specDeleteKind
  split_ifs <;> exact ⟨rfl, rfl, rfl⟩

/-- The Contracts submit handler stops at the first failed check. -/
theorem ContractsPage_handleSubmit_invalid {α : Type} (js : Platform) (st : ContractsState)
    (saved : Except JsError α) (reloaded : Except JsError (List Contract × List Client)) (notice : Effect)
    (h : ContractsPage.validate st.formData = some notice) :
    ContractsPage.handleSubmit js st saved reloaded = ⟨st, [.preventDefault, notice]⟩ := by
  simp [ContractsPage.handleSubmit, h]

/-- The Contracts submit handler after a rejected create-or-update call: the state is
untouched, the save call is the only `apiService` call and one notification is shown. -/
theorem ContractsPage_handleSubmit_failed {α : Type} (js : Platform) (st : ContractsState)
    (err : JsError) (reloaded : Except JsError (List Contract × List Client))
    (h : ContractsPage.validate st.formData = none) :
    (ContractsPage.handleSubmit js st (Except.error err : Except JsError α) reloaded).state = st
    ∧ (ContractsPage.handleSubmit js st (Except.error err : Except JsError α) reloaded).effects.filter Effect.isApi
        = [.api (ContractsPage.saveCall js st)]
    ∧ (ContractsPage.handleSubmit js st (Except.error err : Except JsError α) reloaded).effects.filter Effect.isNotice
        = [(ContractsPage.submitFailure st.editingContract.isSome err.message).2] := by
  obtain ⟨hn, ha, _⟩ := ContractsPage_submitFailure_spec st.editingContract.isSome err.message
  simp only [ContractsPage.handleSubmit, h]
  generalize (ContractsPage.submitFailure st.editingContract.isSome err.message).2 = n at hn ha
  cases n <;> simp [Effect.isApi, Effect.isNotice] at hn ha ⊢

/-- The Contracts delete handler when the dialog is not confirmed: only the question was
asked. -/
theorem ContractsPage_handleDelete_unconfirmed {α : Type} (st : ContractsState) (id : Nat)
    (result : ConfirmResult) (deleted : Except JsError α) (reloaded : Except JsError (List Contract × List Client))
    (h : result.isConfirmed = false) :
    (ContractsPage.handleDelete st id result deleted reloaded).state = st
    ∧ ∃ title text confirmText cancelText,
        (ContractsPage.handleDelete st id result deleted reloaded).effects
          = [.showConfirmation title text confirmText cancelText] := by
  simp [ContractsPage.handleDelete, h]

/-- The Contracts delete handler after a confirmed delete call was rejected: the state is
untouched, the delete call is the only `apiService` call and one notification is shown. -/
theorem ContractsPage_handleDelete_failed {α : Type} (st : ContractsState) (id : Nat) (err : JsError)
    (reloaded : Except JsError (List Contract × List Client)) :
    (ContractsPage.handleDelete st id ⟨true⟩ (Except.error err : Except JsError α) reloaded).state = st
    ∧ (ContractsPage.handleDelete st id ⟨true⟩ (Except.error err : Except JsError α)
          reloaded).effects.filter Effect.isApi
        = [.api (deleteContract id)]
    ∧ (ContractsPage.handleDelete st id ⟨true⟩ (Except.error err : Except JsError α)
          reloaded).effects.filter Effect.isNotice
        = [(ContractsPage.deleteFailure err.message).2] := by
  obtain ⟨hn, ha, _⟩ := ContractsPage_deleteFailure_spec err.message
  simp only [ContractsPage.handleDelete]
  generalize (ContractsPage.deleteFailure err.message).2 = n at hn ha
  cases n <;> simp [Effect.isApi, Effect.isNotice] at hn ha ⊢

/-- The failure notification of the Interventions submit handler is an error notification and
its branch follows the keywords of the message. -/
theorem InterventionsPage_submitFailure_spec (editing : Bool) (message : String) :
    (InterventionsPage.submitFailure editing message).2.isNotice = true
    ∧ (InterventionsPage.submitFailure editing message).2.isApi = false
    ∧ (InterventionsPage.submitFailure editing message).1 = amendedSubmitKind .interventions message := by
  unfold InterventionsPage.submitFailure
  simp only [amendedSubmitKind]
  split_ifs <;> exact ⟨rfl, rfl, rfl⟩

/-- The failure notification of the Interventions delete handler is an error notification and
its branch follows the keywords of the message. -/
theorem InterventionsPage_deleteFailure_spec (message : String) :
    (InterventionsPage.deleteFailure message).2.isNotice = true
    ∧ (InterventionsPage.deleteFailure message).2.isApi = false
    ∧ (InterventionsPage.deleteFailure message).1 = specDeleteKind message := by
  unfold InterventionsPage.deleteFailure specDeleteKind
  split_ifs <;> exact ⟨rfl, rfl, rfl⟩

/-- The Interventions submit handler stops at the first failed check. -/
theorem InterventionsPage_handleSubmit_invalid {α : Type} (js : Platform) (now : Int) (st : InterventionsState)
    (saved : Except JsError α) (reloaded : Except JsError (List Intervention × List Contract)) (notice : Effect)
    (h : InterventionsPage.validate js now st.editingIntervention.isSome st.formData = some notice) :
    InterventionsPage.handleSubmit js now st saved reloaded = ⟨st, [.preventDefault, notice]⟩ := by
  simp [InterventionsPage.handleSubmit, h]

/-- The Interventions submit handler after a rejected create-or-update call: the state is
untouched, the save call is the only `apiService` call and one notification is shown. -/
theorem InterventionsPage_handleSubmit_failed {α : Type} (js : Platform) (now : Int) (st : InterventionsState)
    (err : JsError) (reloaded : Except JsError (List Intervention × List Contract))
    (h : InterventionsPage.validate js now st.editingIntervention.isSome st.formData = none) :
    (InterventionsPage.handleSubmit js now st (Except.error err : Except JsError α) reloaded).state = st
    ∧ (InterventionsPage.handleSubmit js now st (Except.error err : Except JsError α) reloaded).effects.filter Effect.isApi
        = [.api (InterventionsPage.saveCall js st)]
    ∧ (InterventionsPage.handleSubmit js now st (Except.error err : Except JsError α) reloaded).effects.filter Effect.isNotice
        = [(InterventionsPage.submitFailure st.editingIntervention.isSome err.message).2] := by
  obtain ⟨hn, ha, _⟩ := InterventionsPage_submitFailure_spec st.editingIntervention.isSome err.message
  simp only [InterventionsPage.handleSubmit, h]
  generalize (InterventionsPage.submitFailure st.editingIntervention.isSome err.message).2 = n at hn ha
  cases n <;> simp [Effect.isApi, Effect.isNotice] at hn ha ⊢

/-- The Interventions delete handler when the dialog is not confirmed: only the question was
asked. -/
theorem InterventionsPage_handleDelete_unconfirmed {α : Type} (st : InterventionsState) (id : Nat)
    (result : ConfirmResult) (deleted : Except JsError α) (reloaded : Except JsError (List Intervention × List Contract))
    (h : result.isConfirmed = false) :
    (InterventionsPage.handleDelete st id result deleted reloaded).state = st
    ∧ ∃ title text confirmText cancelText,
        (InterventionsPage.handleDelete st id result deleted reloaded).effects
          = [.showConfirmation title text confirmText cancelText] := by
  simp [InterventionsPage.handleDelete, h]

/-- The Interventions delete handler after a confirmed delete call was rejected: the state is
untouched, the delete call is the only `apiService` call and one notification is shown. -/
theorem InterventionsPage_handleDelete_failed {α : Type} (st : InterventionsState) (id : Nat) (err : JsError)
    (reloaded : Except JsError (List Intervention × List Contract)) :
    (InterventionsPage.handleDelete st id ⟨true⟩ (Except.error err : Except JsError α) reloaded).state = st
    ∧ (InterventionsPage.handleDelete st id ⟨true⟩ (Except.error err : Except JsError α)
          reloaded).effects.filter Effect.isApi
        = [.api (deleteIntervention id)]
    ∧ (InterventionsPage.handleDelete st id ⟨true⟩ (Except.error err : Except JsError α)
          reloaded).effects.filter Effect.isNotice
        = [(InterventionsPage.deleteFailure err.message).2] := by
  obtain ⟨hn, ha, _⟩ := InterventionsPage_deleteFailure_spec err.message
  simp only [InterventionsPage.handleDelete]
  generalize (InterventionsPage.deleteFailure err.message).2 = n at hn ha
  cases n <;> simp [Effect.isApi, Effect.isNotice] at hn ha ⊢

/-- The failure notification of the Equipment submit handler is an error notification and
its branch follows the keywords of the message. -/
theorem EquipmentPage_submitFailure_spec (editing : Bool) (message : String) :
    (EquipmentPage.submitFailure editing message).2.isNotice = true
    ∧ (EquipmentPage.submitFailure editing message).2.isApi = false
    ∧ (EquipmentPage.submitFailure editing message).1 = amendedSubmitKind .equipment message := by
  unfold EquipmentPage.submitFailure
  simp only [amendedSubmitKind]
  split_ifs <;> exact ⟨rfl, rfl, rfl⟩

/-- The failure notification of the Equipment delete handler is an error notification and
its branch follows the keywords of the message. -/
theorem EquipmentPage_deleteFailure_spec (message : String) :
    (EquipmentPage.deleteFailure message).2.isNotice = true
    ∧ (EquipmentPage.deleteFailure message).2.isApi = false
    ∧ (EquipmentPage.deleteFailure message).1 = specDeleteKind message := by
  unfold EquipmentPage.deleteFailure specDeleteKind
  split_ifs <;> exact ⟨rfl, rfl, rfl⟩

/-- The Equipment submit handler stops at the first failed check. -/
theorem EquipmentPage_handleSubmit_invalid {α : Type} (js : Platform) (st : EquipmentState)
    (saved : Except JsError α) (reloaded : Except JsError (List EquipmentItem × List Client)) (notice : Effect)
    (h : EquipmentPage.validate st.formData = some notice) :
    EquipmentPage.handleSubmit js st saved reloaded = ⟨st, [.preventDefault, notice]⟩ := by
  simp [EquipmentPage.handleSubmit, h]

/-- The Equipment submit handler after a rejected create-or-update call: the state is
untouched, the save call is the only `apiService` call and one notification is shown. -/
theorem EquipmentPage_handleSubmit_failed {α : Type} (js : Platform) (st : EquipmentState)
    (err : JsError) (reloaded : Except JsError (List EquipmentItem × List Client))
    (h : EquipmentPage.validate st.formData = none) :
    (EquipmentPage.handleSubmit js st (Except.error err : Except JsError α) reloaded).state = st
    ∧ (EquipmentPage.handleSubmit js st (Except.error err : Except JsError α) reloaded).effects.filter Effect.isApi
        = [.api (EquipmentPage.saveCall js st)]
    ∧ (EquipmentPage.handleSubmit js st (Except.error err : Except JsError α) reloaded).effects.filter Effect.isNotice
        = [(EquipmentPage.submitFailure st.editingEquipment.isSome err.message).2] := by
  obtain ⟨hn, ha, _⟩ := EquipmentPage_submitFailure_spec st.editingEquipment.isSome err.message
  simp only [EquipmentPage.handleSubmit, h]
  generalize (EquipmentPage.submitFailure st.editingEquipment.isSome err.message).2 = n at hn ha
  cases n <;> simp [Effect.isApi, Effect.isNotice] at hn ha ⊢

/-- The Equipment delete handler when the dialog is not confirmed: only the question was
asked. -/
theorem EquipmentPage_handleDelete_unconfirmed {α : Type} (st : EquipmentState) (id : Nat)
    (result : ConfirmResult) (deleted : Except JsError α) (reloaded : Except JsError (List EquipmentItem × List Client))
    (h : result.isConfirmed = false) :
    (EquipmentPage.handleDelete st id result deleted reloaded).state = st
    ∧ ∃ title text confirmText cancelText,
        (EquipmentPage.handleDelete st id result deleted reloaded).effects
          = [.showConfirmation title text confirmText cancelText] := by
  simp [EquipmentPage.handleDelete, h]

/-- The Equipment delete handler after a confirmed delete call was rejected: the state is
untouched, the delete call is the only `apiService` call and one notification is shown. -/
theorem EquipmentPage_handleDelete_failed {α : Type} (st : EquipmentState) (id : Nat) (err : JsError)
    (reloaded : Except JsError (List EquipmentItem × List Client)) :
    (EquipmentPage.handleDelete st id ⟨true⟩ (Except.error err : Except JsError α) reloaded).state = st
    ∧ (EquipmentPage.handleDelete st id ⟨true⟩ (Except.error err : Except JsError α)
          reloaded).effects.filter Effect.isApi
        = [.api (deleteEquipment id)]
    ∧ (EquipmentPage.handleDelete st id ⟨true⟩ (Except.error err : Except JsError α)
          reloaded).effects.filter Effect.isNotice
        = [(EquipmentPage.deleteFailure err.message).2] := by
  obtain ⟨hn, ha, _⟩ := EquipmentPage_deleteFailure_spec err.message
  simp only [EquipmentPage.handleDelete]
  generalize (EquipmentPage.deleteFailure err.message).2 = n at hn ha
  cases n <;> simp [Effect.isApi, Effect.isNotice] at hn ha ⊢

/-- The failure notification of the Invoices submit handler is an error notification and
its branch follows the keywords of the message. -/
theorem FacturesPage_submitFailure_spec (editing : Bool) (message : String) :
    (FacturesPage.submitFailure editing message).2.isNotice = true
    ∧ (FacturesPage.submitFailure editing message).2.isApi = false
    ∧ (FacturesPage.submitFailure editing message).1 = amendedSubmitKind .invoices message := by
  unfold FacturesPage.submitFailure
  simp only [amendedSubmitKind]
  split_ifs <;> exact ⟨rfl, rfl, rfl⟩

/-- The failure notification of the Invoices delete handler is an error notification and
its branch follows the keywords of the message. -/
theorem FacturesPage_deleteFailure_spec (message : String) :
    (FacturesPage.deleteFailure message).2.isNotice = true
    ∧ (FacturesPage.deleteFailure message).2.isApi = false
    ∧ (FacturesPage.deleteFailure message).1 = specDeleteKind message := by
  unfold FacturesPage.deleteFailure specDeleteKind
  split_ifs <;> exact ⟨rfl, rfl, rfl⟩

/-- The Invoices submit handler stops at the first failed check. -/
theorem FacturesPage_handleSubmit_invalid {α : Type} (js : Platform) (st : FacturesState)
    (saved : Except JsError α) (reloaded : Except JsError (List Facture × List Intervention)) (notice : Effect)
    (h : FacturesPage.validate js st.formData = some notice) :
    FacturesPage.handleSubmit js st saved reloaded = ⟨st, [.preventDefault, notice]⟩ := by
  simp [FacturesPage.handleSubmit, h]

/-- The Invoices submit handler after a rejected create-or-update call: the state is
untouched, the save call is the only `apiService` call and one notification is shown. -/
theorem FacturesPage_handleSubmit_failed {α : Type} (js : Platform) (st : FacturesState)
    (err : JsError) (reloaded : Except JsError (List Facture × List Intervention))
    (h : FacturesPage.validate js st.formData = none) :
    (FacturesPage.handleSubmit js st (Except.error err : Except JsError α) reloaded).state = st
    ∧ (FacturesPage.handleSubmit js st (Except.error err : Except JsError α) reloaded).effects.filter Effect.isApi
        = [.api (FacturesPage.saveCall js st)]
    ∧ (FacturesPage.handleSubmit js st (Except.error err : Except JsError α) reloaded).effects.filter Effect.isNotice
        = [(FacturesPage.submitFailure st.editingFacture.isSome err.message).2] := by
  obtain ⟨hn, ha, _⟩ := FacturesPage_submitFailure_spec st.editingFacture.isSome err.message
  simp only [FacturesPage.handleSubmit, h]
  generalize (FacturesPage.submitFailure st.editingFacture.isSome err.message).2 = n at hn ha
  cases n <;> simp [Effect.isApi, Effect.isNotice] at hn ha ⊢

/-- The Invoices delete handler when the dialog is not confirmed: only the question was
asked. -/
theorem FacturesPage_handleDelete_unconfirmed {α : Type} (st : FacturesState) (id : Nat)
    (result : ConfirmResult) (deleted : Except JsError α) (reloaded : Except JsError (List Facture × List Intervention))
    (h : result.isConfirmed = false) :
    (FacturesPage.handleDelete st id result deleted reloaded).state = st
    ∧ ∃ title text confirmText cancelText,
        (FacturesPage.handleDelete st id result deleted reloaded).effects
          = [.showConfirmation title text confirmText cancelText] := by
  simp [FacturesPage.handleDelete, h]

/-- The Invoices delete handler after a confirmed delete call was rejected: the state is
untouched, the delete call is the only `apiService` call and one notification is shown. -/
theorem FacturesPage_handleDelete_failed {α : Type} (st : FacturesState) (id : Nat) (err : JsError)
    (reloaded : Except JsError (List Facture × List Intervention)) :
    (FacturesPage.handleDelete st id ⟨true⟩ (Except.error err : Except JsError α) reloaded).state = st
    ∧ (FacturesPage.handleDelete st id ⟨true⟩ (Except.error err : Except JsError α)
          reloaded).effects.filter Effect.isApi
        = [.api (deleteFacture id)]
    ∧ (FacturesPage.handleDelete st id ⟨true⟩ (Except.error err : Except JsError α)
          reloaded).effects.filter Effect.isNotice
        = [(FacturesPage.deleteFailure err.message).2] := by
  obtain ⟨hn, ha, _⟩ := FacturesPage_deleteFailure_spec err.message
  simp only [FacturesPage.handleDelete]
  generalize (FacturesPage.deleteFailure err.message).2 = n at hn ha
  cases n <;> simp [Effect.isApi, Effect.isNotice] at hn ha ⊢

/-- The failure notification of the Technicians submit handler is an error notification and
its branch follows the keywords of the message. -/
theorem TechniciansPage_submitFailure_spec (editing : Bool) (message : String) :
    (TechniciansPage.submitFailure editing message).2.isNotice = true
    ∧ (TechniciansPage.submitFailure editing message).2.isApi = false
    ∧ (TechniciansPage.submitFailure editing message).1 = amendedSubmitKind .technicians message := by
  unfold TechniciansPage.submitFailure
  simp only [amendedSubmitKind]
  split_ifs <;> exact ⟨rfl, rfl, rfl⟩

/-- The failure notification of the Technicians delete handler is an error notification and
its branch follows the keywords of the message. -/
theorem TechniciansPage_deleteFailure_spec (message : String) :
    (TechniciansPage.deleteFailure message).2.isNotice = true
    ∧ (TechniciansPage.deleteFailure message).2.isApi = false
    ∧ (TechniciansPage.deleteFailure message).1 = specDeleteKind message := by
  unfold TechniciansPage.deleteFailure specDeleteKind
  split_ifs <;> exact ⟨rfl, rfl, rfl⟩

/-- The Technicians submit handler stops at the first failed check. -/
theorem TechniciansPage_handleSubmit_invalid {α : Type} (js : Platform) (st : TechniciansState)
    (saved : Except JsError α) (reloaded : Except JsError (List Technician)) (notice : Effect)
    (h : TechniciansPage.validate st.formData = some notice) :
    TechniciansPage.handleSubmit js st saved reloaded = ⟨st, [.preventDefault, notice]⟩ := by
  simp [TechniciansPage.handleSubmit, h]

/-- The Technicians submit handler after a rejected create-or-update call: the state is
untouched, the save call is the only `apiService` call and one notification is shown. -/
theorem TechniciansPage_handleSubmit_failed {α : Type} (js : Platform) (st : TechniciansState)
    (err : JsError) (reloaded : Except JsError (List Technician))
    (h : TechniciansPage.validate st.formData = none) :
    (TechniciansPage.handleSubmit js st (Except.error err : Except JsError α) reloaded).state = st
    ∧ (TechniciansPage.handleSubmit js st (Except.error err : Except JsError α) reloaded).effects.filter Effect.isApi
        = [.api (TechniciansPage.saveCall js st)]
    ∧ (TechniciansPage.handleSubmit js st (Except.error err : Except JsError α) reloaded).effects.filter Effect.isNotice
        = [(TechniciansPage.submitFailure st.editingTechnician.isSome err.message).2] := by
  obtain ⟨hn, ha, _⟩ := TechniciansPage_submitFailure_spec st.editingTechnician.isSome err.message
  simp only [TechniciansPage.handleSubmit, h]
  generalize (TechniciansPage.submitFailure st.editingTechnician.isSome err.message).2 = n at hn ha
  cases n <;> simp [Effect.isApi, Effect.isNotice] at hn ha ⊢

/-- The Technicians delete handler when the dialog is not confirmed: only the question was
asked. -/
theorem TechniciansPage_handleDelete_unconfirmed {α : Type} (st : TechniciansState) (id : Nat)
    (result : ConfirmResult) (deleted : Except JsError α) (reloaded : Except JsError (List Technician))
    (h : result.isConfirmed = false) :
    (TechniciansPage.handleDelete st id result deleted reloaded).state = st
    ∧ ∃ title text confirmText cancelText,
        (TechniciansPage.handleDelete st id result deleted reloaded).effects
          = [.showConfirmation title text confirmText cancelText] := by
  simp [TechniciansPage.handleDelete, h]

/-- The Technicians delete handler after a confirmed delete call was rejected: the state is
untouched, the delete call is the only `apiService` call and one notification is shown. -/
theorem TechniciansPage_handleDelete_failed {α : Type} (st : TechniciansState) (id : Nat) (err : JsError)
    (reloaded : Except JsError (List Technician)) :
    (TechniciansPage.handleDelete st id ⟨true⟩ (Except.error err : Except JsError α) reloaded).state = st
    ∧ (TechniciansPage.handleDelete st id ⟨true⟩ (Except.error err : Except JsError α)
          reloaded).effects.filter Effect.isApi
        = [.api (deleteTechnician id)]
    ∧ (TechniciansPage.handleDelete st id ⟨true⟩ (Except.error err : Except JsError α)
          reloaded).effects.filter Effect.isNotice
        = [(TechniciansPage.deleteFailure err.message).2] := by
  obtain ⟨hn, ha, _⟩ := TechniciansPage_deleteFailure_spec err.message
  simp only [TechniciansPage.handleDelete]
  generalize (TechniciansPage.deleteFailure err.message).2 = n at hn ha
  cases n <;> simp [Effect.isApi, Effect.isNotice] at hn ha ⊢


/-- A run that only showed an error notification called no `apiService` method. -/
theorem not_callsApi_of_rejected {σ : Type} (r : Run σ) (st : σ) (h : r.rejected st) :
    ¬ r.callsApi := by
  obtain ⟨_, title, text, he⟩ := h
  rintro ⟨call, hc⟩
  rw [he] at hc
  simp at hc

/-- Clients: a blank first name, last name or email fails a check. -/
theorem ClientsPage_validate_of_blank (f : ClientForm)
    (h : isBlank f.firstName = true ∨ isBlank f.lastName = true ∨ isBlank f.email = true) :
    ∃ title text, ClientsPage.validate f = some (.showError title text) := by
  unfold ClientsPage.validate
  split_ifs with h1 h2 h3
  · exact ⟨_, _, rfl⟩
  · exact ⟨_, _, rfl⟩
  · exact ⟨_, _, rfl⟩
  · exfalso
    rcases h with h | h | h <;>
      simp_all [(truthyStr_trim_eq_false_iff _).mpr h]

/-- Technicians: a blank first name, last name, email or employee id fails a check. -/
theorem TechniciansPage_validate_of_blank (f : TechnicianForm)
    (h : isBlank f.firstName = true ∨ isBlank f.lastName = true ∨ isBlank f.email = true
      ∨ isBlank f.employeeId = true) :
    ∃ title text, TechniciansPage.validate f = some (.showError title text) := by
  unfold TechniciansPage.validate
  split_ifs with h1 h2
  · exact ⟨_, _, rfl⟩
  · exact ⟨_, _, rfl⟩
  · exfalso
    rcases h with h | h | h | h <;>
      simp_all [(truthyStr_trim_eq_false_iff _).mpr h]

/-- Contracts: an empty client selection fails the check. -/
theorem ContractsPage_validate_of_blank (f : ContractForm) (h : f.clientId.truthy = false) :
    ∃ title text, ContractsPage.validate f = some (.showError title text) := by
  unfold ContractsPage.validate
  simp [h]

/-- Equipment: a blank name or an empty client selection fails the check. -/
theorem EquipmentPage_validate_of_blank (f : EquipmentForm)
    (h : isBlank f.name = true ∨ f.clientId.truthy = false) :
    ∃ title text, EquipmentPage.validate f = some (.showError title text) := by
  unfold EquipmentPage.validate
  split_ifs with h1
  · exact ⟨_, _, rfl⟩
  · exfalso
    rcases h with h | h
    · simp_all [(truthyStr_trim_eq_false_iff _).mpr h]
    · simp_all

/-- Invoices: a blank invoice number or description, or an empty total, fails a check. -/
theorem FacturesPage_validate_of_blank (js : Platform) (f : FactureForm)
    (h : isBlank f.invoiceNumber = true ∨ isBlank f.description = true
      ∨ f.totalAmount.truthy = false) :
    ∃ title text, FacturesPage.validate js f = some (.showError title text) := by
  unfold FacturesPage.validate
  split_ifs with h1 h2 h3
  · exact ⟨_, _, rfl⟩
  · exact ⟨_, _, rfl⟩
  · exact ⟨_, _, rfl⟩
  · exfalso
    rcases h with h | h | h
    · simp_all [(truthyStr_trim_eq_false_iff _).mpr h]
    · simp_all [(truthyStr_trim_eq_false_iff _).mpr h]
    · simp_all

/-- Interventions: a blank title or description, or an empty contract or schedule,
fails a check. -/
theorem InterventionsPage_validate_of_blank (js : Platform) (now : Int) (editing : Bool)
    (f : InterventionForm)
    (h : isBlank f.title = true ∨ isBlank f.description = true
      ∨ truthyStr f.contractId = false ∨ truthyStr f.scheduledTime = false) :
    ∃ title text, InterventionsPage.validate js now editing f
      = some (.showError title text) := by
  unfold InterventionsPage.validate
  split_ifs with h1 h2 h3
  · exact ⟨_, _, rfl⟩
  · exact ⟨_, _, rfl⟩
  · exact ⟨_, _, rfl⟩
  · exfalso
    rcases h with h | h | h | h
    · simp_all [(truthyStr_trim_eq_false_iff _).mpr h]
    · simp_all [(truthyStr_trim_eq_false_iff _).mpr h]
    · simp_all
    · simp_all


set_option maxRecDepth 8000 in
/-- C5 (as stated, fails): the Clients form marks the phone number as required, yet with
a phone number made of white space only and the other fields filled, `handleSubmit`
issues the create call and shows no validation error; likewise for an empty phone number
on the Technicians screen, and for a client, contract or total made of one space on the
Contracts, Interventions, Equipment and Invoices screens. -/
theorem submit_blank_required_field_calls_create :
    (isBlank "   " = true
      ∧ (ClientsPage.handleSubmit sampleHost
            (creatingClient { johnDoeForm with phoneNumber := "   " })
            (Except.ok ()) (Except.ok [])).effects
          = [.preventDefault,
             .showLoading "Création en cours..." "Sauvegarde des informations client",
             .api (createClient sampleHost
               (ClientForm.toJson { johnDoeForm with phoneNumber := "   " })),
             .closeLoading,
             .api getClients,
             .showSuccess "Client créé !" "John Doe a été ajouté avec succès."])
    ∧ (isBlank "" = true
      ∧ Effect.api (createTechnician sampleHost (TechnicianForm.toJson
            { firstName := "Sara", lastName := "Alami", email := "sara@example.com",
              phoneNumber := "", employeeId := "TECH003" }))
          ∈ (TechniciansPage.handleSubmit sampleHost
              { formData := { firstName := "Sara", lastName := "Alami",
                              email := "sara@example.com", phoneNumber := "",
                              employeeId := "TECH003" } }
              (Except.ok ()) (Except.ok [])).effects)
    ∧ (isBlank " " = true
      ∧ Effect.api (createContract sampleHost
            (ContractForm.contractData sampleHost { clientId := .str " " }))
          ∈ (ContractsPage.handleSubmit sampleHost { formData := { clientId := .str " " } }
              (Except.ok ()) (Except.ok ([], []))).effects)
    ∧ (Effect.api (createIntervention sampleHost (InterventionForm.interventionData sampleHost
            { title := "Visite", description := "Contrôle annuel",
              scheduledTime := "2030-01-01T10:00", contractId := " " }))
          ∈ (InterventionsPage.handleSubmit sampleHost 0
              { formData := { title := "Visite", description := "Contrôle annuel",
                              scheduledTime := "2030-01-01T10:00", contractId := " " } }
              (Except.ok ()) (Except.ok ([], []))).effects)
    ∧ (Effect.api (createEquipment sampleHost (EquipmentForm.equipmentData sampleHost
            { name := "Chaudière", clientId := .str " " }))
          ∈ (EquipmentPage.handleSubmit sampleHost
              { formData := { name := "Chaudière", clientId := .str " " } }
              (Except.ok ()) (Except.ok ([], []))).effects)
    ∧ (Effect.api (createFacture sampleHost (FactureForm.factureData sampleHost
            { invoiceNumber := "INV-2024-001", description := "Entretien",
              totalAmount := .str " " }))
          ∈ (FacturesPage.handleSubmit sampleHost
              { formData := { invoiceNumber := "INV-2024-001", description := "Entretien",
                              totalAmount := .str " " } }
              (Except.ok ()) (Except.ok ([], []))).effects) := by
  refine ⟨⟨by decide, by decide⟩, ⟨by decide, by decide⟩, ⟨by decide, by decide⟩,
    by decide, by decide, by decide⟩

/-- C5 (amended): on every screen, when a field that `handleSubmit` checks is blank
(Clients: first name, last name, email; Contracts: client empty; Interventions: title or
description blank, contract or schedule empty; Equipment: name blank or client empty;
Invoices: invoice number or description blank, total empty; Technicians: first name,
last name, email, employee id), the handler changes nothing, shows one error
notification and calls no `apiService` method. -/
theorem submit_rejects_blank_checked_field {α : Type} (js : Platform) (now : Int)
    (saved : Except JsError α) :
    (∀ (st : ClientsState) reloaded,
      (isBlank st.formData.firstName = true ∨ isBlank st.formData.lastName = true
        ∨ isBlank st.formData.email = true) →
      (ClientsPage.handleSubmit js st saved reloaded).rejected st
      ∧ ¬ (ClientsPage.handleSubmit js st saved reloaded).callsApi)
    ∧ (∀ (st : ContractsState) reloaded,
      st.formData.clientId.truthy = false →
      (ContractsPage.handleSubmit js st saved reloaded).rejected st
      ∧ ¬ (ContractsPage.handleSubmit js st saved reloaded).callsApi)
    ∧ (∀ (st : InterventionsState) reloaded,
      (isBlank st.formData.title = true ∨ isBlank st.formData.description = true
        ∨ truthyStr st.formData.contractId = false
        ∨ truthyStr st.formData.scheduledTime = false) →
      (InterventionsPage.handleSubmit js now st saved reloaded).rejected st
      ∧ ¬ (InterventionsPage.handleSubmit js now st saved reloaded).callsApi)
    ∧ (∀ (st : EquipmentState) reloaded,
      (isBlank st.formData.name = true ∨ st.formData.clientId.truthy = false) →
      (EquipmentPage.handleSubmit js st saved reloaded).rejected st
      ∧ ¬ (EquipmentPage.handleSubmit js st saved reloaded).callsApi)
    ∧ (∀ (st : FacturesState) reloaded,
      (isBlank st.formData.invoiceNumber = true ∨ isBlank st.formData.description = true
        ∨ st.formData.totalAmount.truthy = false) →
      (FacturesPage.handleSubmit js st saved reloaded).rejected st
      ∧ ¬ (FacturesPage.handleSubmit js st saved reloaded).callsApi)
    ∧ (∀ (st : TechniciansState) reloaded,
      (isBlank st.formData.firstName = true ∨ isBlank st.formData.lastName = true
        ∨ isBlank st.formData.email = true ∨ isBlank st.formData.employeeId = true) →
      (TechniciansPage.handleSubmit js st saved reloaded).rejected st
      ∧ ¬ (TechniciansPage.handleSubmit js st saved reloaded).callsApi) := by
  refine ⟨?_, ?_, ?_, ?_, ?_, ?_⟩
  · intro st reloaded h
    obtain ⟨title, text, hv⟩ := ClientsPage_validate_of_blank st.formData h
    have hr : (ClientsPage.handleSubmit js st saved reloaded).rejected st := by
      rw [ClientsPage_handleSubmit_invalid js st saved reloaded _ hv]
      exact ⟨rfl, title, text, rfl⟩
    exact ⟨hr, not_callsApi_of_rejected _ st hr⟩
  · intro st reloaded h
    obtain ⟨title, text, hv⟩ := ContractsPage_validate_of_blank st.formData h
    have hr : (ContractsPage.handleSubmit js st saved reloaded).rejected st := by
      rw [ContractsPage_handleSubmit_invalid js st saved reloaded _ hv]
      exact ⟨rfl, title, text, rfl⟩
    exact ⟨hr, not_callsApi_of_rejected _ st hr⟩
  · intro st reloaded h
    obtain ⟨title, text, hv⟩ :=
      InterventionsPage_validate_of_blank js now st.editingIntervention.isSome st.formData h
    have hr : (InterventionsPage.handleSubmit js now st saved reloaded).rejected st := by
      rw [InterventionsPage_handleSubmit_invalid js now st saved reloaded _ hv]
      exact ⟨rfl, title, text, rfl⟩
    exact ⟨hr, not_callsApi_of_rejected _ st hr⟩
  · intro st reloaded h
    obtain ⟨title, text, hv⟩ := EquipmentPage_validate_of_blank st.formData h
    have hr : (EquipmentPage.handleSubmit js st saved reloaded).rejected st := by
      rw [EquipmentPage_handleSubmit_invalid js st saved reloaded _ hv]
      exact ⟨rfl, title, text, rfl⟩
    exact ⟨hr, not_callsApi_of_rejected _ st hr⟩
  · intro st reloaded h
    obtain ⟨title, text, hv⟩ := FacturesPage_validate_of_blank js st.formData h
    have hr : (FacturesPage.handleSubmit js st saved reloaded).rejected st := by
      rw [FacturesPage_handleSubmit_invalid js st saved reloaded _ hv]
      exact ⟨rfl, title, text, rfl⟩
    exact ⟨hr, not_callsApi_of_rejected _ st hr⟩
  · intro st reloaded h
    obtain ⟨title, text, hv⟩ := TechniciansPage_validate_of_blank st.formData h
    have hr : (TechniciansPage.handleSubmit js st saved reloaded).rejected st := by
      rw [TechniciansPage_handleSubmit_invalid js st saved reloaded _ hv]
      exact ⟨rfl, title, text, rfl⟩
    exact ⟨hr, not_callsApi_of_rejected _ st hr⟩

/-- Witness of C5 (amended): creating a client with an empty email is rejected without
any call. -/
theorem submit_rejects_blank_checked_field_witness :
    isBlank ({ johnDoeForm with email := "" } : ClientForm).email = true
    ∧ (ClientsPage.handleSubmit sampleHost (creatingClient { johnDoeForm with email := "" })
          (Except.ok ()) (Except.ok [])).rejected
        (creatingClient { johnDoeForm with email := "" })
    ∧ ¬ (ClientsPage.handleSubmit sampleHost (creatingClient { johnDoeForm with email := "" })
          (Except.ok ()) (Except.ok [])).callsApi :=
  ⟨by decide,
   (submit_rejects_blank_checked_field sampleHost 0 (Except.ok ())).1
     (creatingClient { johnDoeForm with email := "" }) (Except.ok [])
     (Or.inr (Or.inr (by decide)))⟩


/-- C6 (as stated, fails): a save rejected with a foreign-key message makes the Clients
screen show its generic save failure, where the stated mapping selects "has attached
resources"; on the Interventions screen `duplicate` selects the generic failure and
`schedule` the scheduling conflict; on the Invoices screen `validation` selects the
generic failure. -/
theorem submit_failure_departs_from_stated_mapping :
    (specSubmitKind "foreign key constraint fails" = .attachedResources
      ∧ (ClientsPage.handleSubmit sampleHost (creatingClient johnDoeForm)
            (Except.error ⟨"foreign key constraint fails"⟩ : Except JsError Unit)
            (Except.ok [])).effects.filter Effect.isNotice
          = [.showError "Erreur de création"
              "Une erreur est survenue lors de la sauvegarde. Veuillez réessayer."]
      ∧ (ClientsPage.submitFailure false "foreign key constraint fails").1 = .generic)
    ∧ (specSubmitKind "duplicate entry" = .alreadyExists
      ∧ (InterventionsPage.submitFailure false "duplicate entry").1 = .generic)
    ∧ (specSubmitKind "schedule overlap" = .generic
      ∧ (InterventionsPage.submitFailure false "schedule overlap").1 = .scheduleConflict)
    ∧ (specSubmitKind "validation failed" = .invalidData
      ∧ (FacturesPage.submitFailure false "validation failed").1 = .generic) := by
  refine ⟨⟨by decide, by decide, by decide⟩, ⟨by decide, by decide⟩,
    ⟨by decide, by decide⟩, ⟨by decide, by decide⟩⟩

/-- C6 (amended): on every screen, when the create-or-update call is rejected with
error `err`, `handleSubmit` shows exactly one notification, the one its `catch` block
selects on `err.message`: for Clients, Contracts, Equipment and Technicians
`duplicate`/`unique`, else `validation`, else `fetch`, else generic; for Invoices
`duplicate`/`unique`, else `fetch`, else generic; for Interventions
`conflict`/`schedule`, else `validation`, else `fetch`, else generic. -/
theorem submit_failure_notification {α : Type} (js : Platform) (now : Int) (err : JsError) :
    (∀ (st : ClientsState) reloaded, ClientsPage.validate st.formData = none →
      (ClientsPage.handleSubmit js st (Except.error err : Except JsError α) reloaded).effects.filter Effect.isNotice
          = [(ClientsPage.submitFailure st.editingClient.isSome err.message).2]
      ∧ (ClientsPage.submitFailure st.editingClient.isSome err.message).1
          = amendedSubmitKind .clients err.message)
    ∧ (∀ (st : ContractsState) reloaded, ContractsPage.validate st.formData = none →
      (ContractsPage.handleSubmit js st (Except.error err : Except JsError α) reloaded).effects.filter Effect.isNotice
          = [(ContractsPage.submitFailure st.editingContract.isSome err.message).2]
      ∧ (ContractsPage.submitFailure st.editingContract.isSome err.message).1
          = amendedSubmitKind .contracts err.message)
    ∧ (∀ (st : InterventionsState) reloaded, InterventionsPage.validate js now st.editingIntervention.isSome st.formData = none →
      (InterventionsPage.handleSubmit js now st (Except.error err : Except JsError α) reloaded).effects.filter Effect.isNotice
          = [(InterventionsPage.submitFailure st.editingIntervention.isSome err.message).2]
      ∧ (InterventionsPage.submitFailure st.editingIntervention.isSome err.message).1
          = amendedSubmitKind .interventions err.message)
    ∧ (∀ (st : EquipmentState) reloaded, EquipmentPage.validate st.formData = none →
      (EquipmentPage.handleSubmit js st (Except.error err : Except JsError α) reloaded).effects.filter Effect.isNotice
          = [(EquipmentPage.submitFailure st.editingEquipment.isSome err.message).2]
      ∧ (EquipmentPage.submitFailure st.editingEquipment.isSome err.message).1
          = amendedSubmitKind .equipment err.message)
    ∧ (∀ (st : FacturesState) reloaded, FacturesPage.validate js st.formData = none →
      (FacturesPage.handleSubmit js st (Except.error err : Except JsError α) reloaded).effects.filter Effect.isNotice
          = [(FacturesPage.submitFailure st.editingFacture.isSome err.message).2]
      ∧ (FacturesPage.submitFailure st.editingFacture.isSome err.message).1
          = amendedSubmitKind .invoices err.message)
    ∧ (∀ (st : TechniciansState) reloaded, TechniciansPage.validate st.formData = none →
      (TechniciansPage.handleSubmit js st (Except.error err : Except JsError α) reloaded).effects.filter Effect.isNotice
          = [(TechniciansPage.submitFailure st.editingTechnician.isSome err.message).2]
      ∧ (TechniciansPage.submitFailure st.editingTechnician.isSome err.message).1
          = amendedSubmitKind .technicians err.message) := by
  refine ⟨?_, ?_, ?_, ?_, ?_, ?_⟩
  · intro st reloaded h
    exact ⟨(ClientsPage_handleSubmit_failed js st err reloaded h).2.2,
      (ClientsPage_submitFailure_spec st.editingClient.isSome err.message).2.2⟩
  · intro st reloaded h
    exact ⟨(ContractsPage_handleSubmit_failed js st err reloaded h).2.2,
      (ContractsPage_submitFailure_spec st.editingContract.isSome err.message).2.2⟩
  · intro st reloaded h
    exact ⟨(InterventionsPage_handleSubmit_failed js now st err reloaded h).2.2,
      (InterventionsPage_submitFailure_spec st.editingIntervention.isSome err.message).2.2⟩
  · intro st reloaded h
    exact ⟨(EquipmentPage_handleSubmit_failed js st err reloaded h).2.2,
      (EquipmentPage_submitFailure_spec st.editingEquipment.isSome err.message).2.2⟩
  · intro st reloaded h
    exact ⟨(FacturesPage_handleSubmit_failed js st err reloaded h).2.2,
      (FacturesPage_submitFailure_spec st.editingFacture.isSome err.message).2.2⟩
  · intro st reloaded h
    exact ⟨(TechniciansPage_handleSubmit_failed js st err reloaded h).2.2,
      (TechniciansPage_submitFailure_spec st.editingTechnician.isSome err.message).2.2⟩

/-- Witness of C6 (amended): a duplicate email on the Clients screen. -/
theorem submit_failure_notification_witness :
    ClientsPage.validate (creatingClient johnDoeForm).formData = none
    ∧ (ClientsPage.handleSubmit sampleHost (creatingClient johnDoeForm)
          (Except.error ⟨"duplicate key value violates unique constraint"⟩ : Except JsError Unit)
          (Except.ok [])).effects.filter Effect.isNotice
        = [.showError "Client déjà existant" "Un client avec cette adresse email existe déjà."] :=
  ⟨by decide,
   ((submit_failure_notification sampleHost 0
      ⟨"duplicate key value violates unique constraint"⟩).1
      (creatingClient johnDoeForm) (Except.ok []) (by decide)).1⟩

/-- C7: on every screen, when a confirmed delete call is rejected with error `err`,
`handleDelete` shows exactly one notification, selected on `err.message`: "has attached
resources" when it contains `constraint` or `foreign key` (also when it contains
`fetch`), else the network error when it contains `fetch`, else the generic delete
failure. -/
theorem delete_failure_notification {α : Type} (err : JsError) :
    (∀ (st : ClientsState) id reloaded,
      (ClientsPage.handleDelete st id ⟨true⟩ (Except.error err : Except JsError α)
          reloaded).effects.filter Effect.isNotice
          = [(ClientsPage.deleteFailure err.message).2]
      ∧ (ClientsPage.deleteFailure err.message).1 = specDeleteKind err.message)
    ∧ (∀ (st : ContractsState) id reloaded,
      (ContractsPage.handleDelete st id ⟨true⟩ (Except.error err : Except JsError α)
          reloaded).effects.filter Effect.isNotice
          = [(ContractsPage.deleteFailure err.message).2]
      ∧ (ContractsPage.deleteFailure err.message).1 = specDeleteKind err.message)
    ∧ (∀ (st : InterventionsState) id reloaded,
      (InterventionsPage.handleDelete st id ⟨true⟩ (Except.error err : Except JsError α)
          reloaded).effects.filter Effect.isNotice
          = [(InterventionsPage.deleteFailure err.message).2]
      ∧ (InterventionsPage.deleteFailure err.message).1 = specDeleteKind err.message)
    ∧ (∀ (st : EquipmentState) id reloaded,
      (EquipmentPage.handleDelete st id ⟨true⟩ (Except.error err : Except JsError α)
          reloaded).effects.filter Effect.isNotice
          = [(EquipmentPage.deleteFailure err.message).2]
      ∧ (EquipmentPage.deleteFailure err.message).1 = specDeleteKind err.message)
    ∧ (∀ (st : FacturesState) id reloaded,
      (FacturesPage.handleDelete st id ⟨true⟩ (Except.error err : Except JsError α)
          reloaded).effects.filter Effect.isNotice
          = [(FacturesPage.deleteFailure err.message).2]
      ∧ (FacturesPage.deleteFailure err.message).1 = specDeleteKind err.message)
    ∧ (∀ (st : TechniciansState) id reloaded,
      (TechniciansPage.handleDelete st id ⟨true⟩ (Except.error err : Except JsError α)
          reloaded).effects.filter Effect.isNotice
          = [(TechniciansPage.deleteFailure err.message).2]
      ∧ (TechniciansPage.deleteFailure err.message).1 = specDeleteKind err.message)
    ∧ ((includes err.message "constraint" = true ∨ includes err.message "foreign key" = true) →
        specDeleteKind err.message = .attachedResources)
    ∧ (includes err.message "constraint" = false → includes err.message "foreign key" = false →
        specDeleteKind err.message
          = if includes err.message "fetch" then .network else .generic) := by
  refine ⟨?_, ?_, ?_, ?_, ?_, ?_, ?_, ?_⟩
  · intro st id reloaded
    exact ⟨(ClientsPage_handleDelete_failed st id err reloaded).2.2,
      (ClientsPage_deleteFailure_spec err.message).2.2⟩
  · intro st id reloaded
    exact ⟨(ContractsPage_handleDelete_failed st id err reloaded).2.2,
      (ContractsPage_deleteFailure_spec err.message).2.2⟩
  · intro st id reloaded
    exact ⟨(InterventionsPage_handleDelete_failed st id err reloaded).2.2,
      (InterventionsPage_deleteFailure_spec err.message).2.2⟩
  · intro st id reloaded
    exact ⟨(EquipmentPage_handleDelete_failed st id err reloaded).2.2,
      (EquipmentPage_deleteFailure_spec err.message).2.2⟩
  · intro st id reloaded
    exact ⟨(FacturesPage_handleDelete_failed st id err reloaded).2.2,
      (FacturesPage_deleteFailure_spec err.message).2.2⟩
  · intro st id reloaded
    exact ⟨(TechniciansPage_handleDelete_failed st id err reloaded).2.2,
      (TechniciansPage_deleteFailure_spec err.message).2.2⟩
  · intro h
    unfold specDeleteKind
    rcases h with h | h <;> simp [h]
  · intro h1 h2
    unfold specDeleteKind
    simp [h1, h2]

/-- Witness of C7: a foreign-key rejection that also mentions `fetch`, on the Clients
screen. -/
theorem delete_failure_notification_witness :
    (includes "fetch failed: foreign key constraint" "constraint" = true
      ∨ includes "fetch failed: foreign key constraint" "foreign key" = true)
    ∧ specDeleteKind "fetch failed: foreign key constraint" = .attachedResources
    ∧ (ClientsPage.handleDelete (creatingClient johnDoeForm) 7 ⟨true⟩
          (Except.error ⟨"fetch failed: foreign key constraint"⟩ : Except JsError Unit)
          (Except.ok [])).effects.filter Effect.isNotice
        = [.showError "Impossible de supprimer ce client"
            "Une erreur s'est produite. Ce client a des ressources attachées (contrats, équipements, interventions). Veuillez supprimer ces ressources avant de supprimer le client."] :=
  ⟨Or.inl (by decide),
   (@delete_failure_notification Unit ⟨"fetch failed: foreign key constraint"⟩).2.2.2.2.2.2.1
     (Or.inl (by decide)),
   ((@delete_failure_notification Unit ⟨"fetch failed: foreign key constraint"⟩).1
     (creatingClient johnDoeForm) 7 (Except.ok [])).1⟩


/-- C8: on every screen, when the confirmation dialog resolves with `isConfirmed` false,
`handleDelete` only asked the question: the state is unchanged, no `apiService` method is
called (neither the delete nor a list read) and no loading, success or error
notification is shown. -/
theorem delete_unconfirmed_only_asks {α : Type} (result : ConfirmResult)
    (h : result.isConfirmed = false) (deleted : Except JsError α) :
    (∀ (st : ClientsState) id reloaded,
      (ClientsPage.handleDelete st id result deleted reloaded).state = st
      ∧ (∃ title text confirmText cancelText,
          (ClientsPage.handleDelete st id result deleted reloaded).effects
            = [.showConfirmation title text confirmText cancelText])
      ∧ ¬ (ClientsPage.handleDelete st id result deleted reloaded).callsApi)
    ∧ (∀ (st : ContractsState) id reloaded,
      (ContractsPage.handleDelete st id result deleted reloaded).state = st
      ∧ (∃ title text confirmText cancelText,
          (ContractsPage.handleDelete st id result deleted reloaded).effects
            = [.showConfirmation title text confirmText cancelText])
      ∧ ¬ (ContractsPage.handleDelete st id result deleted reloaded).callsApi)
    ∧ (∀ (st : InterventionsState) id reloaded,
      (InterventionsPage.handleDelete st id result deleted reloaded).state = st
      ∧ (∃ title text confirmText cancelText,
          (InterventionsPage.handleDelete st id result deleted reloaded).effects
            = [.showConfirmation title text confirmText cancelText])
      ∧ ¬ (InterventionsPage.handleDelete st id result deleted reloaded).callsApi)
    ∧ (∀ (st : EquipmentState) id reloaded,
      (EquipmentPage.handleDelete st id result deleted reloaded).state = st
      ∧ (∃ title text confirmText cancelText,
          (EquipmentPage.handleDelete st id result deleted reloaded).effects
            = [.showConfirmation title text confirmText cancelText])
      ∧ ¬ (EquipmentPage.handleDelete st id result deleted reloaded).callsApi)
    ∧ (∀ (st : FacturesState) id reloaded,
      (FacturesPage.handleDelete st id result deleted reloaded).state = st
      ∧ (∃ title text confirmText cancelText,
          (FacturesPage.handleDelete st id result deleted reloaded).effects
            = [.showConfirmation title text confirmText cancelText])
      ∧ ¬ (FacturesPage.handleDelete st id result deleted reloaded).callsApi)
    ∧ (∀ (st : TechniciansState) id reloaded,
      (TechniciansPage.handleDelete st id result deleted reloaded).state = st
      ∧ (∃ title text confirmText cancelText,
          (TechniciansPage.handleDelete st id result deleted reloaded).effects
            = [.showConfirmation title text confirmText cancelText])
      ∧ ¬ (TechniciansPage.handleDelete st id result deleted reloaded).callsApi) := by
  refine ⟨?_, ?_, ?_, ?_, ?_, ?_⟩
  · intro st id reloaded
    obtain ⟨hs, title, text, yes, no, he⟩ :=
      ClientsPage_handleDelete_unconfirmed st id result deleted reloaded h
    refine ⟨hs, ⟨title, text, yes, no, he⟩, ?_⟩
    rintro ⟨call, hc⟩
    rw [he] at hc
    simp at hc
  · intro st id reloaded
    obtain ⟨hs, title, text, yes, no, he⟩ :=
      ContractsPage_handleDelete_unconfirmed st id result deleted reloaded h
    refine ⟨hs, ⟨title, text, yes, no, he⟩, ?_⟩
    rintro ⟨call, hc⟩
    rw [he] at hc
    simp at hc
  · intro st id reloaded
    obtain ⟨hs, title, text, yes, no, he⟩ :=
      InterventionsPage_handleDelete_unconfirmed st id result deleted reloaded h
    refine ⟨hs, ⟨title, text, yes, no, he⟩, ?_⟩
    rintro ⟨call, hc⟩
    rw [he] at hc
    simp at hc
  · intro st id reloaded
    obtain ⟨hs, title, text, yes, no, he⟩ :=
      EquipmentPage_handleDelete_unconfirmed st id result deleted reloaded h
    refine ⟨hs, ⟨title, text, yes, no, he⟩, ?_⟩
    rintro ⟨call, hc⟩
    rw [he] at hc
    simp at hc
  · intro st id reloaded
    obtain ⟨hs, title, text, yes, no, he⟩ :=
      FacturesPage_handleDelete_unconfirmed st id result deleted reloaded h
    refine ⟨hs, ⟨title, text, yes, no, he⟩, ?_⟩
    rintro ⟨call, hc⟩
    rw [he] at hc
    simp at hc
  · intro st id reloaded
    obtain ⟨hs, title, text, yes, no, he⟩ :=
      TechniciansPage_handleDelete_unconfirmed st id result deleted reloaded h
    refine ⟨hs, ⟨title, text, yes, no, he⟩, ?_⟩
    rintro ⟨call, hc⟩
    rw [he] at hc
    simp at hc

/-- Witness of C8: a dismissed dialog on the Clients screen, even if the backend would
have accepted the delete. -/
theorem delete_unconfirmed_only_asks_witness :
    (⟨false⟩ : ConfirmResult).isConfirmed = false
    ∧ (ClientsPage.handleDelete (creatingClient johnDoeForm) 7 ⟨false⟩
          (Except.ok () : Except JsError Unit) (Except.ok [])).state
        = creatingClient johnDoeForm
    ∧ ¬ (ClientsPage.handleDelete (creatingClient johnDoeForm) 7 ⟨false⟩
          (Except.ok () : Except JsError Unit) (Except.ok [])).callsApi :=
  ⟨rfl,
   ((delete_unconfirmed_only_asks ⟨false⟩ rfl (Except.ok () : Except JsError Unit)).1
      (creatingClient johnDoeForm) 7 (Except.ok [])).1,
   ((delete_unconfirmed_only_asks ⟨false⟩ rfl (Except.ok () : Except JsError Unit)).1
      (creatingClient johnDoeForm) 7 (Except.ok [])).2.2⟩

/-- C9: on every screen, when a confirmed delete call is rejected, the whole screen
state after `handleDelete` (list, modal flag, editing record, form data, banner) is the
state before it, and the delete call is the only `apiService` call: no list read is
issued. -/
theorem failed_delete_keeps_state {α : Type} (err : JsError) :
    (∀ (st : ClientsState) id reloaded,
      (ClientsPage.handleDelete st id ⟨true⟩ (Except.error err : Except JsError α) reloaded).state
          = st
      ∧ (ClientsPage.handleDelete st id ⟨true⟩ (Except.error err : Except JsError α)
            reloaded).effects.filter Effect.isApi
          = [.api (deleteClient id)])
    ∧ (∀ (st : ContractsState) id reloaded,
      (ContractsPage.handleDelete st id ⟨true⟩ (Except.error err : Except JsError α) reloaded).state
          = st
      ∧ (ContractsPage.handleDelete st id ⟨true⟩ (Except.error err : Except JsError α)
            reloaded).effects.filter Effect.isApi
          = [.api (deleteContract id)])
    ∧ (∀ (st : InterventionsState) id reloaded,
      (InterventionsPage.handleDelete st id ⟨true⟩ (Except.error err : Except JsError α) reloaded).state
          = st
      ∧ (InterventionsPage.handleDelete st id ⟨true⟩ (Except.error err : Except JsError α)
            reloaded).effects.filter Effect.isApi
          = [.api (deleteIntervention id)])
    ∧ (∀ (st : EquipmentState) id reloaded,
      (EquipmentPage.handleDelete st id ⟨true⟩ (Except.error err : Except JsError α) reloaded).state
          = st
      ∧ (EquipmentPage.handleDelete st id ⟨true⟩ (Except.error err : Except JsError α)
            reloaded).effects.filter Effect.isApi
          = [.api (deleteEquipment id)])
    ∧ (∀ (st : FacturesState) id reloaded,
      (FacturesPage.handleDelete st id ⟨true⟩ (Except.error err : Except JsError α) reloaded).state
          = st
      ∧ (FacturesPage.handleDelete st id ⟨true⟩ (Except.error err : Except JsError α)
            reloaded).effects.filter Effect.isApi
          = [.api (deleteFacture id)])
    ∧ (∀ (st : TechniciansState) id reloaded,
      (TechniciansPage.handleDelete st id ⟨true⟩ (Except.error err : Except JsError α) reloaded).state
          = st
      ∧ (TechniciansPage.handleDelete st id ⟨true⟩ (Except.error err : Except JsError α)
            reloaded).effects.filter Effect.isApi
          = [.api (deleteTechnician id)]) := by
  refine ⟨?_, ?_, ?_, ?_, ?_, ?_⟩
  · intro st id reloaded
    exact ⟨(ClientsPage_handleDelete_failed st id err reloaded).1,
      (ClientsPage_handleDelete_failed st id err reloaded).2.1⟩
  · intro st id reloaded
    exact ⟨(ContractsPage_handleDelete_failed st id err reloaded).1,
      (ContractsPage_handleDelete_failed st id err reloaded).2.1⟩
  · intro st id reloaded
    exact ⟨(InterventionsPage_handleDelete_failed st id err reloaded).1,
      (InterventionsPage_handleDelete_failed st id err reloaded).2.1⟩
  · intro st id reloaded
    exact ⟨(EquipmentPage_handleDelete_failed st id err reloaded).1,
      (EquipmentPage_handleDelete_failed st id err reloaded).2.1⟩
  · intro st id reloaded
    exact ⟨(FacturesPage_handleDelete_failed st id err reloaded).1,
      (FacturesPage_handleDelete_failed st id err reloaded).2.1⟩
  · intro st id reloaded
    exact ⟨(TechniciansPage_handleDelete_failed st id err reloaded).1,
      (TechniciansPage_handleDelete_failed st id err reloaded).2.1⟩

/-- C10: on every screen, when the create-or-update call issued by `handleSubmit` is
rejected, the whole screen state after the handler (modal flag, form data, editing
record, list) is the state before it, and the save call is the only `apiService` call:
no list read is issued. -/
theorem failed_submit_keeps_state {α : Type} (js : Platform) (now : Int) (err : JsError) :
    (∀ (st : ClientsState) reloaded, ClientsPage.validate st.formData = none →
      (ClientsPage.handleSubmit js st (Except.error err : Except JsError α) reloaded).state = st
      ∧ (ClientsPage.handleSubmit js st (Except.error err : Except JsError α) reloaded).effects.filter Effect.isApi
          = [.api (ClientsPage.saveCall js st)])
    ∧ (∀ (st : ContractsState) reloaded, ContractsPage.validate st.formData = none →
      (ContractsPage.handleSubmit js st (Except.error err : Except JsError α) reloaded).state = st
      ∧ (ContractsPage.handleSubmit js st (Except.error err : Except JsError α) reloaded).effects.filter Effect.isApi
          = [.api (ContractsPage.saveCall js st)])
    ∧ (∀ (st : InterventionsState) reloaded, InterventionsPage.validate js now st.editingIntervention.isSome st.formData = none →
      (InterventionsPage.handleSubmit js now st (Except.error err : Except JsError α) reloaded).state = st
      ∧ (InterventionsPage.handleSubmit js now st (Except.error err : Except JsError α) reloaded).effects.filter Effect.isApi
          = [.api (InterventionsPage.saveCall js st)])
    ∧ (∀ (st : EquipmentState) reloaded, EquipmentPage.validate st.formData = none →
      (EquipmentPage.handleSubmit js st (Except.error err : Except JsError α) reloaded).state = st
      ∧ (EquipmentPage.handleSubmit js st (Except.error err : Except JsError α) reloaded).effects.filter Effect.isApi
          = [.api (EquipmentPage.saveCall js st)])
    ∧ (∀ (st : FacturesState) reloaded, FacturesPage.validate js st.formData = none →
      (FacturesPage.handleSubmit js st (Except.error err : Except JsError α) reloaded).state = st
      ∧ (FacturesPage.handleSubmit js st (Except.error err : Except JsError α) reloaded).effects.filter Effect.isApi
          = [.api (FacturesPage.saveCall js st)])
    ∧ (∀ (st : TechniciansState) reloaded, TechniciansPage.validate st.formData = none →
      (TechniciansPage.handleSubmit js st (Except.error err : Except JsError α) reloaded).state = st
      ∧ (TechniciansPage.handleSubmit js st (Except.error err : Except JsError α) reloaded).effects.filter Effect.isApi
          = [.api (TechniciansPage.saveCall js st)]) := by
  refine ⟨?_, ?_, ?_, ?_, ?_, ?_⟩
  · intro st reloaded h
    exact ⟨(ClientsPage_handleSubmit_failed js st err reloaded h).1,
      (ClientsPage_handleSubmit_failed js st err reloaded h).2.1⟩
  · intro st reloaded h
    exact ⟨(ContractsPage_handleSubmit_failed js st err reloaded h).1,
      (ContractsPage_handleSubmit_failed js st err reloaded h).2.1⟩
  · intro st reloaded h
    exact ⟨(InterventionsPage_handleSubmit_failed js now st err reloaded h).1,
      (InterventionsPage_handleSubmit_failed js now st err reloaded h).2.1⟩
  · intro st reloaded h
    exact ⟨(EquipmentPage_handleSubmit_failed js st err reloaded h).1,
      (EquipmentPage_handleSubmit_failed js st err reloaded h).2.1⟩
  · intro st reloaded h
    exact ⟨(FacturesPage_handleSubmit_failed js st err reloaded h).1,
      (FacturesPage_handleSubmit_failed js st err reloaded h).2.1⟩
  · intro st reloaded h
    exact ⟨(TechniciansPage_handleSubmit_failed js st err reloaded h).1,
      (TechniciansPage_handleSubmit_failed js st err reloaded h).2.1⟩

/-- Witness of C10: a rejected create on the Clients screen leaves the modal open on
the same form. -/
theorem failed_submit_keeps_state_witness :
    ClientsPage.validate (creatingClient johnDoeForm).formData = none
    ∧ (ClientsPage.handleSubmit sampleHost (creatingClient johnDoeForm)
          (Except.error ⟨"HTTP error! status: 500"⟩ : Except JsError Unit)
          (Except.ok [])).state
        = creatingClient johnDoeForm
    ∧ (creatingClient johnDoeForm).isModalOpen = true :=
  ⟨by decide,
   ((failed_submit_keeps_state sampleHost 0 ⟨"HTTP error! status: 500"⟩).1
      (creatingClient johnDoeForm) (Except.ok []) (by decide)).1,
   rfl⟩


/-- The search finds a block that the text begins with. -/
theorem includesFrom_prefix (needle rest : List Char) :
    includesFrom needle (needle ++ rest) = true := by
  cases h : needle ++ rest with
  | nil =>
    have : needle = [] := (List.append_eq_nil.mp h).1
    simp [includesFrom, this]
  | cons c cs =>
    have hp : needle.isPrefixOf (c :: cs) = true := by
      rw [← h]
      exact List.isPrefixOf_iff_prefix.mpr (List.prefix_append needle rest)
    simp [includesFrom, hp]

/-- The search finds a block wherever it lies in the text. -/
theorem includesFrom_append (before needle after : List Char) :
    includesFrom needle (before ++ (needle ++ after)) = true := by
  induction before with
  | nil => exact includesFrom_prefix needle after
  | cons c cs ih =>
    show (needle.isPrefixOf (c :: (cs ++ (needle ++ after)))
      || includesFrom needle (cs ++ (needle ++ after))) = true
    rw [ih, Bool.or_true]

/-- A text includes each block it is assembled from. -/
theorem includes_append (before needle after : String) :
    includes (before ++ needle ++ after) needle = true := by
  unfold includes
  simp only [String.data_append, List.append_assoc]
  exact includesFrom_append before.data needle.data after.data


/-- The Clients load issues its list reads and nothing else through `apiService`. -/
theorem ClientsPage_load_apiCalls (st : ClientsState) (data : Except JsError (List Client)) :
    ((ClientsPage.loadClients st data).effects.filter Effect.isApi) = [.api getClients] := by
  cases data with
  | ok v => rfl
  | error err =>
    simp only [ClientsPage.loadClients]
    split_ifs <;> rfl

/-- The Clients submit handler after an accepted create-or-update call: the modal is
closed, the list is read again, and the `apiService` calls are the save call followed by
the list reads. -/
theorem ClientsPage_handleSubmit_saved {α : Type} (js : Platform) (st : ClientsState) (v : α)
    (reloaded : Except JsError (List Client)) (h : ClientsPage.validate st.formData = none) :
    (ClientsPage.handleSubmit js st (Except.ok v) reloaded).state
        = (ClientsPage.loadClients { st with isModalOpen := false } reloaded).state
    ∧ (ClientsPage.handleSubmit js st (Except.ok v) reloaded).effects.filter Effect.isApi
        = [.api (ClientsPage.saveCall js st), .api getClients] := by
  have hl := ClientsPage_load_apiCalls { st with isModalOpen := false } reloaded
  simp only [ClientsPage.handleSubmit, h]
  refine ⟨trivial, ?_⟩
  simp only [List.filter_append, hl]
  rfl

/-- The Contracts load issues its list reads and nothing else through `apiService`. -/
theorem ContractsPage_load_apiCalls (st : ContractsState) (data : Except JsError (List Contract × List Client)) :
    ((ContractsPage.loadData st data).effects.filter Effect.isApi) = [.api getContracts, .api getClients] := by
  cases data with
  | ok v => rfl
  | error err =>
    simp only [ContractsPage.loadData]
    split_ifs <;> rfl

/-- The Contracts submit handler after an accepted create-or-update call: the modal is
closed, the list is read again, and the `apiService` calls are the save call followed by
the list reads. -/
theorem ContractsPage_handleSubmit_saved {α : Type} (js : Platform) (st : ContractsState) (v : α)
    (reloaded : Except JsError (List Contract × List Client)) (h : ContractsPage.validate st.formData = none) :
    (ContractsPage.handleSubmit js st (Except.ok v) reloaded).state
        = (ContractsPage.loadData { st with isModalOpen := false } reloaded).state
    ∧ (ContractsPage.handleSubmit js st (Except.ok v) reloaded).effects.filter Effect.isApi
        = [.api (ContractsPage.saveCall js st), .api getContracts, .api getClients] := by
  have hl := ContractsPage_load_apiCalls { st with isModalOpen := false } reloaded
  simp only [ContractsPage.handleSubmit, h]
  refine ⟨trivial, ?_⟩
  simp only [List.filter_append, hl]
  rfl

/-- The Interventions load issues its list reads and nothing else through `apiService`. -/
theorem InterventionsPage_load_apiCalls (st : InterventionsState) (data : Except JsError (List Intervention × List Contract)) :
    ((InterventionsPage.loadData st data).effects.filter Effect.isApi) = [.api getInterventions, .api getContracts] := by
  cases data with
  | ok v => rfl
  | error err =>
    simp only [InterventionsPage.loadData]
    split_ifs <;> rfl

/-- The Interventions submit handler after an accepted create-or-update call: the modal is
closed, the list is read again, and the `apiService` calls are the save call followed by
the list reads. -/
theorem InterventionsPage_handleSubmit_saved {α : Type} (js : Platform) (now : Int) (st : InterventionsState) (v : α)
    (reloaded : Except JsError (List Intervention × List Contract)) (h : InterventionsPage.validate js now st.editingIntervention.isSome st.formData = none) :
    (InterventionsPage.handleSubmit js now st (Except.ok v) reloaded).state
        = (InterventionsPage.loadData { st with isModalOpen := false } reloaded).state
    ∧ (InterventionsPage.handleSubmit js now st (Except.ok v) reloaded).effects.filter Effect.isApi
        = [.api (InterventionsPage.saveCall js st), .api getInterventions, .api getContracts] := by
  have hl := InterventionsPage_load_apiCalls { st with isModalOpen := false } reloaded
  simp only [InterventionsPage.handleSubmit, h]
  refine ⟨trivial, ?_⟩
  simp only [List.filter_append, hl]
  rfl

/-- The Equipment load issues its list reads and nothing else through `apiService`. -/
theorem EquipmentPage_load_apiCalls (st : EquipmentState) (data : Except JsError (List EquipmentItem × List Client)) :
    ((EquipmentPage.loadData st data).effects.filter Effect.isApi) = [.api getEquipment, .api getClients] := by
  cases data with
  | ok v => rfl
  | error err =>
    simp only [EquipmentPage.loadData]
    split_ifs <;> rfl

/-- The Equipment submit handler after an accepted create-or-update call: the modal is
closed, the list is read again, and the `apiService` calls are the save call followed by
the list reads. -/
theorem EquipmentPage_handleSubmit_saved {α : Type} (js : Platform) (st : EquipmentState) (v : α)
    (reloaded : Except JsError (List EquipmentItem × List Client)) (h : EquipmentPage.validate st.formData = none) :
    (EquipmentPage.handleSubmit js st (Except.ok v) reloaded).state
        = (EquipmentPage.loadData { st with isModalOpen := false } reloaded).state
    ∧ (EquipmentPage.handleSubmit js st (Except.ok v) reloaded).effects.filter Effect.isApi
        = [.api (EquipmentPage.saveCall js st), .api getEquipment, .api getClients] := by
  have hl := EquipmentPage_load_apiCalls { st with isModalOpen := false } reloaded
  simp only [EquipmentPage.handleSubmit, h]
  refine ⟨trivial, ?_⟩
  simp only [List.filter_append, hl]
  rfl

/-- The Invoices load issues its list reads and nothing else through `apiService`. -/
theorem FacturesPage_load_apiCalls (st : FacturesState) (data : Except JsError (List Facture × List Intervention)) :
    ((FacturesPage.loadData st data).effects.filter Effect.isApi) = [.api getFactures, .api getInterventions] := by
  cases data with
  | ok v => rfl
  | error err =>
    rfl

/-- The Invoices submit handler after an accepted create-or-update call: the modal is
closed, the list is read again, and the `apiService` calls are the save call followed by
the list reads. -/
theorem FacturesPage_handleSubmit_saved {α : Type} (js : Platform) (st : FacturesState) (v : α)
    (reloaded : Except JsError (List Facture × List Intervention)) (h : FacturesPage.validate js st.formData = none) :
    (FacturesPage.handleSubmit js st (Except.ok v) reloaded).state
        = (FacturesPage.loadData { st with isModalOpen := false } reloaded).state
    ∧ (FacturesPage.handleSubmit js st (Except.ok v) reloaded).effects.filter Effect.isApi
        = [.api (FacturesPage.saveCall js st), .api getFactures, .api getInterventions] := by
  have hl := FacturesPage_load_apiCalls { st with isModalOpen := false } reloaded
  simp only [FacturesPage.handleSubmit, h]
  refine ⟨trivial, ?_⟩
  simp only [List.filter_append, hl]
  rfl

/-- The Technicians load issues its list reads and nothing else through `apiService`. -/
theorem TechniciansPage_load_apiCalls (st : TechniciansState) (data : Except JsError (List Technician)) :
    ((TechniciansPage.loadTechnicians st data).effects.filter Effect.isApi) = [.api getTechnicians] := by
  cases data with
  | ok v => rfl
  | error err =>
    simp only [TechniciansPage.loadTechnicians]
    split_ifs <;> rfl

/-- The Technicians submit handler after an accepted create-or-update call: the modal is
closed, the list is read again, and the `apiService` calls are the save call followed by
the list reads. -/
theorem TechniciansPage_handleSubmit_saved {α : Type} (js : Platform) (st : TechniciansState) (v : α)
    (reloaded : Except JsError (List Technician)) (h : TechniciansPage.validate st.formData = none) :
    (TechniciansPage.handleSubmit js st (Except.ok v) reloaded).state
        = (TechniciansPage.loadTechnicians { st with isModalOpen := false } reloaded).state
    ∧ (TechniciansPage.handleSubmit js st (Except.ok v) reloaded).effects.filter Effect.isApi
        = [.api (TechniciansPage.saveCall js st), .api getTechnicians] := by
  have hl := TechniciansPage_load_apiCalls { st with isModalOpen := false } reloaded
  simp only [TechniciansPage.handleSubmit, h]
  refine ⟨trivial, ?_⟩
  simp only [List.filter_append, hl]
  rfl


/-- C11: for a Clients form that passes validation, `handleSubmit` issues one save call:
in Create mode `POST /clients` whose body is `JSON.stringify` of the five form fields, in
Edit mode `PUT /clients/{editingClient.clientId}` with the same body; when the call is
rejected it is the only `apiService` call; when it is accepted the modal is closed, the
list is read once more and the last notification is a success whose text contains
`firstName + ' ' + lastName`. -/
theorem clients_submit_creates_or_updates {α : Type} (js : Platform) (st : ClientsState)
    (h : ClientsPage.validate st.formData = none) :
    (st.editingClient = none →
      ClientsPage.saveCall js st
        = ⟨"/clients", ⟨some "POST",
            some (js.stringify (.obj [("firstName", .str st.formData.firstName),
              ("lastName", .str st.formData.lastName), ("email", .str st.formData.email),
              ("phoneNumber", .str st.formData.phoneNumber),
              ("address", .str st.formData.address)])), none⟩⟩)
    ∧ (∀ editingClient, st.editingClient = some editingClient →
      ClientsPage.saveCall js st
        = ⟨"/clients/" ++ Nat.repr editingClient.clientId, ⟨some "PUT",
            some (js.stringify (.obj [("firstName", .str st.formData.firstName),
              ("lastName", .str st.formData.lastName), ("email", .str st.formData.email),
              ("phoneNumber", .str st.formData.phoneNumber),
              ("address", .str st.formData.address)])), none⟩⟩)
    ∧ (∀ (err : JsError) reloaded,
      (ClientsPage.handleSubmit js st (Except.error err : Except JsError α)
          reloaded).effects.filter Effect.isApi
        = [.api (ClientsPage.saveCall js st)])
    ∧ (∀ (v : α) reloaded,
      (ClientsPage.handleSubmit js st (Except.ok v) reloaded).effects.filter Effect.isApi
          = [.api (ClientsPage.saveCall js st), .api getClients]
      ∧ (ClientsPage.handleSubmit js st (Except.ok v) reloaded).state.isModalOpen = false
      ∧ ∃ title text,
          (ClientsPage.handleSubmit js st (Except.ok v) reloaded).effects.getLast?
            = some (.showSuccess title text)
          ∧ includes text (st.formData.firstName ++ " " ++ st.formData.lastName) = true) := by
  refine ⟨?_, ?_, ?_, ?_⟩
  · intro he
    simp [ClientsPage.saveCall, he, createClient, ClientForm.toJson]
  · intro c he
    simp [ClientsPage.saveCall, he, updateClient, ClientForm.toJson]
  · intro err reloaded
    exact (ClientsPage_handleSubmit_failed js st err reloaded h).2.1
  · intro v reloaded
    refine ⟨(ClientsPage_handleSubmit_saved js st v reloaded h).2, ?_, ?_⟩
    · rw [(ClientsPage_handleSubmit_saved js st v reloaded h).1]
      cases reloaded <;> rfl
    · simp only [ClientsPage.handleSubmit, h]
      cases hed : st.editingClient.isSome
      · refine ⟨_, _, List.getLast?_concat _, ?_⟩
        have := includes_append "" (st.formData.firstName ++ " " ++ st.formData.lastName)
          " a été ajouté avec succès."
        simpa [String.append_assoc] using this
      · refine ⟨_, _, List.getLast?_concat _, ?_⟩
        have := includes_append "Les informations de "
          (st.formData.firstName ++ " " ++ st.formData.lastName) " ont été mises à jour."
        simpa [String.append_assoc] using this

/-- Witness of C11: creating John Doe posts the form once, reloads the list and names
him in the success notification. -/
theorem clients_submit_creates_or_updates_witness :
    ClientsPage.validate (creatingClient johnDoeForm).formData = none
    ∧ (ClientsPage.handleSubmit sampleHost (creatingClient johnDoeForm) (Except.ok ())
          (Except.ok [])).effects.filter Effect.isApi
        = [.api ⟨"/clients", ⟨some "POST",
            some "\x7b\"firstName\":\"John\",\"lastName\":\"Doe\",\"email\":\"john.doe@example.com\",\"phoneNumber\":\"0612345678\",\"address\":\"123 Rue Mohammed V, Casablanca, Maroc\"\x7d",
            none⟩⟩,
           .api getClients]
    ∧ (ClientsPage.handleSubmit sampleHost (creatingClient johnDoeForm) (Except.ok ())
          (Except.ok [])).effects.getLast?
        = some (.showSuccess "Client créé !" "John Doe a été ajouté avec succès.") :=
  ⟨by decide,
   ((clients_submit_creates_or_updates sampleHost (creatingClient johnDoeForm)
      (by decide)).2.2.2 () (Except.ok [])).1,
   by decide⟩


/-- A decimal digit is not white space. -/
theorem isJsWhiteSpace_of_isDigit (c : Char) (h : c.isDigit = true) :
    isJsWhiteSpace c = false := by
  have h' : 48 ≤ c.toNat ∧ c.toNat ≤ 57 := by
    simpa [Char.isDigit, Char.toNat, UInt32.le_def, Fin.le_def] using h
  obtain ⟨h1, h2⟩ := h'
  unfold isJsWhiteSpace
  interval_cases c.toNat <;> decide

/-- A text of decimal digits is not empty, hence truthy. -/
theorem truthyStr_of_isDecimalDigits (s : String) (h : isDecimalDigits s = true) :
    truthyStr s = true := by
  unfold isDecimalDigits at h
  unfold truthyStr
  simp only [Bool.and_eq_true] at h
  exact h.1

/-- Below `2 ^ 53` a natural number is its own Number value. -/
theorem nearestDouble_of_lt (n : Nat) (h : n < 2 ^ 53) : nearestDouble n = .fin n := by
  unfold nearestDouble
  rw [if_pos h]

/-- The sample `parseInt` reads a text of decimal digits as the Number value of the
number it denotes. -/
theorem sampleParseInt_digits (s : String) (h : isDecimalDigits s = true) :
    sampleHost.parseInt s = nearestDouble (digitsValue s.data) := by
  unfold isDecimalDigits at h
  simp only [Bool.and_eq_true, Bool.not_eq_true', List.isEmpty_eq_false, List.all_eq_true] at h
  obtain ⟨hne, hall⟩ := h
  show sampleParseInt s = _
  unfold sampleParseInt
  cases hd : s.data with
  | nil => exact absurd hd hne
  | cons c cs =>
    have hc : c.isDigit = true := hall c (by rw [hd]; simp)
    have hws : isJsWhiteSpace c = false := isJsWhiteSpace_of_isDigit c hc
    have hdrop : List.dropWhile isJsWhiteSpace (c :: cs) = c :: cs := by
      simp [List.dropWhile, hws]
    have hminus : c ≠ '-' := by
      intro he; rw [he] at hc; revert hc; decide
    have hplus : c ≠ '+' := by
      intro he; rw [he] at hc; revert hc; decide
    have htake : List.takeWhile Char.isDigit (c :: cs) = c :: cs := by
      rw [List.takeWhile_eq_self_iff]
      intro x hx
      exact hall x (by rw [hd]; exact hx)
    simp [hdrop, hminus, hplus, htake]

/-- The sample `parseInt` reads a text of decimal digits that denotes a number below
`2 ^ 53` as that number. -/
theorem sampleParseInt_safe_digits (s : String) (h : isDecimalDigits s = true)
    (hsafe : digitsValue s.data < 2 ^ 53) :
    sampleHost.parseInt s = .fin (digitsValue s.data) := by
  rw [sampleParseInt_digits s h, nearestDouble_of_lt _ hsafe]


/-- C12 (as stated, fails): the payload carries what `parseInt` returns, a double. The
select-option text '9007199254740993' denotes `2 ^ 53 + 1`, passes validation on the
Contracts screen, and is sent as the number 9007199254740992. -/
theorem large_foreign_key_is_rounded :
    isDecimalDigits "9007199254740993" = true
    ∧ digitsValue "9007199254740993".data = 9007199254740993
    ∧ ContractsPage.validate ({ clientId := .str "9007199254740993" } : ContractForm) = none
    ∧ (ContractForm.contractData sampleHost { clientId := .str "9007199254740993" }).prop
          "clientId"
        = some (.num (sampleHost.parseInt "9007199254740993"))
    ∧ sampleHost.parseInt "9007199254740993" = .fin 9007199254740992
    ∧ sampleHost.parseInt "9007199254740993" ≠ .fin 9007199254740993 := by
  refine ⟨by decide, by decide, by decide, ?_, by decide!, by decide!⟩
  simp [ContractForm.contractData, Json.prop, getProp, IdInput.parseInt]

/-- C12 (amended): for the Contracts, Interventions, Equipment and Invoices screens in
Create mode and a form that passes validation with its foreign key captured as a text
`s` of decimal digits, the single save call is the create call, its body is
`JSON.stringify` of a payload whose foreign key is the number `parseInt(s)`, a JSON
number and not a string; on a host whose `parseInt` is exact below `2 ^ 53`, this is the
number `s` denotes whenever that number is below `2 ^ 53`. An empty `interventionId`
is sent as `null`. -/
theorem create_sends_parsed_foreign_key {α : Type} (js : Platform) (now : Int)
    (hjs : ∀ s, isDecimalDigits s = true → digitsValue s.data < 2 ^ 53 →
      js.parseInt s = .fin (digitsValue s.data))
    (saved : Except JsError α) :
    (∀ (st : ContractsState) reloaded s, st.editingContract = none →
      st.formData.clientId = .str s → isDecimalDigits s = true →
      ContractsPage.validate st.formData = none →
      ((ContractsPage.handleSubmit js st saved reloaded).effects.filter Effect.isApi).head?
          = some (.api (createContract js (st.formData.contractData js)))
      ∧ (createContract js (st.formData.contractData js)).options.body
          = some (js.stringify (st.formData.contractData js))
      ∧ (st.formData.contractData js).prop "clientId" = some (.num (js.parseInt s))
      ∧ (digitsValue s.data < 2 ^ 53 →
          (st.formData.contractData js).prop "clientId"
            = some (.num (.fin (digitsValue s.data)))))
    ∧ (∀ (st : InterventionsState) reloaded s, st.editingIntervention = none →
      st.formData.contractId = s → isDecimalDigits s = true →
      InterventionsPage.validate js now false st.formData = none →
      ((InterventionsPage.handleSubmit js now st saved reloaded).effects.filter
          Effect.isApi).head?
          = some (.api (createIntervention js (st.formData.interventionData js)))
      ∧ (createIntervention js (st.formData.interventionData js)).options.body
          = some (js.stringify (st.formData.interventionData js))
      ∧ (st.formData.interventionData js).prop "contractId" = some (.num (js.parseInt s))
      ∧ (digitsValue s.data < 2 ^ 53 →
          (st.formData.interventionData js).prop "contractId"
            = some (.num (.fin (digitsValue s.data)))))
    ∧ (∀ (st : EquipmentState) reloaded s, st.editingEquipment = none →
      st.formData.clientId = .str s → isDecimalDigits s = true →
      EquipmentPage.validate st.formData = none →
      ((EquipmentPage.handleSubmit js st saved reloaded).effects.filter Effect.isApi).head?
          = some (.api (createEquipment js (st.formData.equipmentData js)))
      ∧ (createEquipment js (st.formData.equipmentData js)).options.body
          = some (js.stringify (st.formData.equipmentData js))
      ∧ (st.formData.equipmentData js).prop "clientId" = some (.num (js.parseInt s))
      ∧ (digitsValue s.data < 2 ^ 53 →
          (st.formData.equipmentData js).prop "clientId"
            = some (.num (.fin (digitsValue s.data)))))
    ∧ (∀ (st : FacturesState) reloaded, st.editingFacture = none →
      FacturesPage.validate js st.formData = none →
      ((FacturesPage.handleSubmit js st saved reloaded).effects.filter Effect.isApi).head?
          = some (.api (createFacture js (st.formData.factureData js)))
      ∧ (createFacture js (st.formData.factureData js)).options.body
          = some (js.stringify (st.formData.factureData js))
      ∧ (∀ s, st.formData.interventionId = .str s → isDecimalDigits s = true →
          (st.formData.factureData js).prop "interventionId" = some (.num (js.parseInt s))
          ∧ (digitsValue s.data < 2 ^ 53 →
              (st.formData.factureData js).prop "interventionId"
                = some (.num (.fin (digitsValue s.data)))))
      ∧ (st.formData.interventionId = .str "" →
          (st.formData.factureData js).prop "interventionId" = some .null)) := by
  refine ⟨?_, ?_, ?_, ?_⟩
  · intro st reloaded s hed hs hdig hv
    have hcall : ContractsPage.saveCall js st
        = createContract js (st.formData.contractData js) := by
      simp [ContractsPage.saveCall, hed]
    have hp : (st.formData.contractData js).prop "clientId" = some (.num (js.parseInt s)) := by
      simp [ContractForm.contractData, Json.prop, getProp, hs, IdInput.parseInt]
    refine ⟨?_, rfl, hp, fun hsafe => by rw [hp, hjs s hdig hsafe]⟩
    cases saved with
    | ok v => rw [(ContractsPage_handleSubmit_saved js st v reloaded hv).2, hcall]; rfl
    | error err =>
      rw [(ContractsPage_handleSubmit_failed js st err reloaded hv).2.1, hcall]; rfl
  · intro st reloaded s hed hs hdig hv
    have hcall : InterventionsPage.saveCall js st
        = createIntervention js (st.formData.interventionData js) := by
      simp [InterventionsPage.saveCall, hed]
    have hv2 : InterventionsPage.validate js now st.editingIntervention.isSome st.formData
        = none := by
      rw [hed]; exact hv
    have ht := truthyStr_of_isDecimalDigits s hdig
    have hp : (st.formData.interventionData js).prop "contractId"
        = some (.num (js.parseInt s)) := by
      simp [InterventionForm.interventionData, Json.prop, getProp, hs, ht]
    refine ⟨?_, rfl, hp, fun hsafe => by rw [hp, hjs s hdig hsafe]⟩
    cases saved with
    | ok v =>
      rw [(InterventionsPage_handleSubmit_saved js now st v reloaded hv2).2, hcall]; rfl
    | error err =>
      rw [(InterventionsPage_handleSubmit_failed js now st err reloaded hv2).2.1, hcall]; rfl
  · intro st reloaded s hed hs hdig hv
    have hcall : EquipmentPage.saveCall js st
        = createEquipment js (st.formData.equipmentData js) := by
      simp [EquipmentPage.saveCall, hed]
    have ht := truthyStr_of_isDecimalDigits s hdig
    have hp : (st.formData.equipmentData js).prop "clientId" = some (.num (js.parseInt s)) := by
      simp [EquipmentForm.equipmentData, Json.prop, getProp, hs, idOrNull, IdInput.truthy,
        IdInput.parseInt, ht]
    refine ⟨?_, rfl, hp, fun hsafe => by rw [hp, hjs s hdig hsafe]⟩
    cases saved with
    | ok v => rw [(EquipmentPage_handleSubmit_saved js st v reloaded hv).2, hcall]; rfl
    | error err =>
      rw [(EquipmentPage_handleSubmit_failed js st err reloaded hv).2.1, hcall]; rfl
  · intro st reloaded hed hv
    have hcall : FacturesPage.saveCall js st
        = createFacture js (st.formData.factureData js) := by
      simp [FacturesPage.saveCall, hed]
    refine ⟨?_, rfl, ?_, ?_⟩
    · cases saved with
      | ok v => rw [(FacturesPage_handleSubmit_saved js st v reloaded hv).2, hcall]; rfl
      | error err =>
        rw [(FacturesPage_handleSubmit_failed js st err reloaded hv).2.1, hcall]; rfl
    · intro s hs hdig
      have ht := truthyStr_of_isDecimalDigits s hdig
      have hp : (st.formData.factureData js).prop "interventionId"
          = some (.num (js.parseInt s)) := by
        simp [FactureForm.factureData, Json.prop, getProp, hs, idOrNull, IdInput.truthy,
          IdInput.parseInt, ht]
      exact ⟨hp, fun hsafe => by rw [hp, hjs s hdig hsafe]⟩
    · intro hs
      simp [FactureForm.factureData, Json.prop, getProp, hs, idOrNull, IdInput.truthy,
        truthyStr]

/-- Witness of C12 (amended): on the sample host, whose `parseInt` is exact below
`2 ^ 53`, a contract created for the client chosen as option `12` carries `clientId` as
the number 12. -/
theorem create_sends_parsed_foreign_key_witness :
    (∀ s, isDecimalDigits s = true → digitsValue s.data < 2 ^ 53 →
      sampleHost.parseInt s = .fin (digitsValue s.data))
    ∧ isDecimalDigits "12" = true
    ∧ ContractsPage.validate ({ clientId := .str "12" } : ContractForm) = none
    ∧ digitsValue "12".data < 2 ^ 53
    ∧ (ContractForm.contractData sampleHost { clientId := .str "12" }).prop "clientId"
        = some (.num (.fin (digitsValue "12".data)))
    ∧ digitsValue "12".data = 12 :=
  ⟨sampleParseInt_safe_digits, by decide, by decide, by decide,
   ((create_sends_parsed_foreign_key sampleHost 0 sampleParseInt_safe_digits
      (Except.ok () : Except JsError Unit)).1
      { formData := { clientId := .str "12" } } (Except.ok ([], [])) "12" rfl rfl
      (by decide) (by decide)).2.2.2 (by decide),
   by decide⟩


/-- The `apiService` calls of the Clients submit handler for a form that passes
validation: the save call, followed by the list reads when it was accepted. -/
theorem ClientsPage_handleSubmit_apiCalls {α : Type} (js : Platform) (st : ClientsState)
    (saved : Except JsError α) (reloaded : Except JsError (List Client)) (h : ClientsPage.validate st.formData = none) :
    (ClientsPage.handleSubmit js st saved reloaded).effects.filter Effect.isApi
      = .api (ClientsPage.saveCall js st)
          :: (match saved with
              | .ok _ => [.api getClients]
              | .error _ => []) := by
  cases saved with
  | ok v => exact (ClientsPage_handleSubmit_saved js st v reloaded h).2
  | error err => exact (ClientsPage_handleSubmit_failed js st err reloaded h).2.1

/-- The `apiService` calls of the Contracts submit handler for a form that passes
validation: the save call, followed by the list reads when it was accepted. -/
theorem ContractsPage_handleSubmit_apiCalls {α : Type} (js : Platform) (st : ContractsState)
    (saved : Except JsError α) (reloaded : Except JsError (List Contract × List Client)) (h : ContractsPage.validate st.formData = none) :
    (ContractsPage.handleSubmit js st saved reloaded).effects.filter Effect.isApi
      = .api (ContractsPage.saveCall js st)
          :: (match saved with
              | .ok _ => [.api getContracts, .api getClients]
              | .error _ => []) := by
  cases saved with
  | ok v => exact (ContractsPage_handleSubmit_saved js st v reloaded h).2
  | error err => exact (ContractsPage_handleSubmit_failed js st err reloaded h).2.1

/-- The `apiService` calls of the Interventions submit handler for a form that passes
validation: the save call, followed by the list reads when it was accepted. -/
theorem InterventionsPage_handleSubmit_apiCalls {α : Type} (js : Platform) (now : Int) (st : InterventionsState)
    (saved : Except JsError α) (reloaded : Except JsError (List Intervention × List Contract)) (h : InterventionsPage.validate js now st.editingIntervention.isSome st.formData = none) :
    (InterventionsPage.handleSubmit js now st saved reloaded).effects.filter Effect.isApi
      = .api (InterventionsPage.saveCall js st)
          :: (match saved with
              | .ok _ => [.api getInterventions, .api getContracts]
              | .error _ => []) := by
  cases saved with
  | ok v => exact (InterventionsPage_handleSubmit_saved js now st v reloaded h).2
  | error err => exact (InterventionsPage_handleSubmit_failed js now st err reloaded h).2.1

/-- The `apiService` calls of the Equipment submit handler for a form that passes
validation: the save call, followed by the list reads when it was accepted. -/
theorem EquipmentPage_handleSubmit_apiCalls {α : Type} (js : Platform) (st : EquipmentState)
    (saved : Except JsError α) (reloaded : Except JsError (List EquipmentItem × List Client)) (h : EquipmentPage.validate st.formData = none) :
    (EquipmentPage.handleSubmit js st saved reloaded).effects.filter Effect.isApi
      = .api (EquipmentPage.saveCall js st)
          :: (match saved with
              | .ok _ => [.api getEquipment, .api getClients]
              | .error _ => []) := by
  cases saved with
  | ok v => exact (EquipmentPage_handleSubmit_saved js st v reloaded h).2
  | error err => exact (EquipmentPage_handleSubmit_failed js st err reloaded h).2.1

/-- The `apiService` calls of the Invoices submit handler for a form that passes
validation: the save call, followed by the list reads when it was accepted. -/
theorem FacturesPage_handleSubmit_apiCalls {α : Type} (js : Platform) (st : FacturesState)
    (saved : Except JsError α) (reloaded : Except JsError (List Facture × List Intervention)) (h : FacturesPage.validate js st.formData = none) :
    (FacturesPage.handleSubmit js st saved reloaded).effects.filter Effect.isApi
      = .api (FacturesPage.saveCall js st)
          :: (match saved with
              | .ok _ => [.api getFactures, .api getInterventions]
              | .error _ => []) := by
  cases saved with
  | ok v => exact (FacturesPage_handleSubmit_saved js st v reloaded h).2
  | error err => exact (FacturesPage_handleSubmit_failed js st err reloaded h).2.1

/-- The `apiService` calls of the Technicians submit handler for a form that passes
validation: the save call, followed by the list reads when it was accepted. -/
theorem TechniciansPage_handleSubmit_apiCalls {α : Type} (js : Platform) (st : TechniciansState)
    (saved : Except JsError α) (reloaded : Except JsError (List Technician)) (h : TechniciansPage.validate st.formData = none) :
    (TechniciansPage.handleSubmit js st saved reloaded).effects.filter Effect.isApi
      = .api (TechniciansPage.saveCall js st)
          :: (match saved with
              | .ok _ => [.api getTechnicians]
              | .error _ => []) := by
  cases saved with
  | ok v => exact (TechniciansPage_handleSubmit_saved js st v reloaded h).2
  | error err => exact (TechniciansPage_handleSubmit_failed js st err reloaded h).2.1

/-- The character of a decimal digit is a digit and gives the digit back. -/
theorem digitChar_spec (k : Nat) (h : k < 10) :
    (Nat.digitChar k).isDigit = true ∧ (Nat.digitChar k).toNat - '0'.toNat = k := by
  interval_cases k <;> decide

/-- With enough fuel, the digits written in front of `ds` are decimal digits whose value
is the number written. -/
theorem toDigitsCore_spec (fuel : Nat) :
    ∀ (n : Nat) (ds : List Char), n < fuel →
      ∃ pre, Nat.toDigitsCore 10 fuel n ds = pre ++ ds ∧ pre ≠ []
        ∧ (∀ c ∈ pre, c.isDigit = true) ∧ digitsValue pre = n := by
  induction fuel with
  | zero => intro n ds h; omega
  | succ fuel ih =>
    intro n ds h
    unfold Nat.toDigitsCore
    obtain ⟨hd1, hd2⟩ := digitChar_spec (n % 10) (Nat.mod_lt n (by omega))
    by_cases h0 : n / 10 = 0
    · refine ⟨[Nat.digitChar (n % 10)], by simp [h0], by simp, by simpa using hd1, ?_⟩
      have hn : n % 10 = n := Nat.mod_eq_of_lt (by omega)
      have hd3 : (Nat.digitChar (n % 10)).toNat - '0'.toNat = n := by rw [hd2, hn]
      simpa [digitsValue] using hd3
    · have hlt : n / 10 < fuel := by omega
      obtain ⟨pre, hpre, _, hdig, hval⟩ := ih (n / 10) (Nat.digitChar (n % 10) :: ds) hlt
      refine ⟨pre ++ [Nat.digitChar (n % 10)], by simp [h0, hpre], by simp, ?_, ?_⟩
      · intro c hc
        rcases List.mem_append.mp hc with hc | hc
        · exact hdig c hc
        · simp only [List.mem_singleton] at hc
          rw [hc]; exact hd1
      · unfold digitsValue at hval ⊢
        rw [List.foldl_append, hval]
        simp only [List.foldl_cons, List.foldl_nil, hd2]
        omega

/-- The decimal rendering of a number is a text of decimal digits that denotes it. -/
theorem repr_isDecimalDigits (n : Nat) :
    isDecimalDigits (Nat.repr n) = true ∧ digitsValue (Nat.repr n).data = n := by
  obtain ⟨pre, hpre, hne, hdig, hval⟩ := toDigitsCore_spec (n + 1) n [] (by omega)
  have hdata : (Nat.repr n).data = pre := by
    simp [Nat.repr, Nat.toDigits, hpre, List.asString]
  unfold isDecimalDigits
  rw [hdata]
  refine ⟨?_, hval⟩
  simp only [Bool.and_eq_true, Bool.not_eq_true', List.isEmpty_eq_false, List.all_eq_true]
  exact ⟨hne, hdig⟩


/-- Cutting a text of at most sixteen characters to sixteen leaves it as it is. -/
theorem sliceTo16_of_short (s : String) (h : s.data.length ≤ 16) : sliceTo16 s = s := by
  unfold sliceTo16
  rw [List.take_of_length_le h]

/-- A text without `T` is its own part before the first `T`. -/
theorem beforeT_of_noT (s : String) (h : 'T' ∉ s.data) : beforeT s = s := by
  unfold beforeT
  have : List.takeWhile (fun c => c != 'T') s.data = s.data := by
    rw [List.takeWhile_eq_self_iff]
    intro x hx
    simp only [bne_iff_ne, ne_eq]
    intro he
    exact h (he ▸ hx)
  rw [this]

/-- The date part of a present date without `T` is the date itself. -/
theorem datePart_of_noT (s : String) (h : 'T' ∉ s.data) : (Field.val s).datePart = s := by
  show (if truthyStr s = true then beforeT s else "") = s
  split_ifs with ht
  · exact beforeT_of_noT s h
  · have : s.data = [] := by simpa [truthyStr] using ht
    exact String.ext this.symm

/-- Clients: the update call of an unchanged edit carries the five fields of the
record. -/
theorem ClientsPage_edit_round_trip {α : Type} (js : Platform) (st : ClientsState)
    (r : Client) (a b c d e : String) (saved : Except JsError α)
    (reloaded : Except JsError (List Client))
    (h1 : r.firstName = .val a) (h2 : r.lastName = .val b) (h3 : r.email = .val c)
    (h4 : r.phoneNumber = .val d) (h5 : r.address = .val e)
    (hv : ClientsPage.validate (ClientsPage.handleEdit st r).formData = none) :
    (ClientsPage.handleSubmit js (ClientsPage.handleEdit st r) saved
        reloaded).effects.filter Effect.isApi
      = .api (updateClient js r.clientId (.obj [("firstName", .str a), ("lastName", .str b),
          ("email", .str c), ("phoneNumber", .str d), ("address", .str e)]))
          :: (match saved with
              | .ok _ => [.api getClients]
              | .error _ => []) := by
  rw [ClientsPage_handleSubmit_apiCalls js _ saved reloaded hv]
  simp [ClientsPage.saveCall, ClientsPage.handleEdit, ClientForm.toJson, Field.orEmpty,
    h1, h2, h3, h4, h5]

/-- Technicians: the update call of an unchanged edit carries the six fields of the
record. -/
theorem TechniciansPage_edit_round_trip {α : Type} (js : Platform) (st : TechniciansState)
    (r : Technician) (a b c d e sp : String) (saved : Except JsError α)
    (reloaded : Except JsError (List Technician))
    (h1 : r.firstName = .val a) (h2 : r.lastName = .val b) (h3 : r.email = .val c)
    (h4 : r.phoneNumber = .val d) (h5 : r.employeeId = .val e)
    (h6 : r.specialization = .val sp) (hsp : truthyStr sp = true)
    (hv : TechniciansPage.validate (TechniciansPage.handleEdit st r).formData = none) :
    (TechniciansPage.handleSubmit js (TechniciansPage.handleEdit st r) saved
        reloaded).effects.filter Effect.isApi
      = .api (updateTechnician js r.id (.obj [("firstName", .str a), ("lastName", .str b),
          ("email", .str c), ("phoneNumber", .str d), ("employeeId", .str e),
          ("specialization", .str sp)]))
          :: (match saved with
              | .ok _ => [.api getTechnicians]
              | .error _ => []) := by
  rw [TechniciansPage_handleSubmit_apiCalls js _ saved reloaded hv]
  simp [TechniciansPage.saveCall, TechniciansPage.handleEdit, TechnicianForm.toJson,
    Field.orEmpty, Field.orDefault, h1, h2, h3, h4, h5, h6, hsp]

/-- Contracts: the update call of an unchanged edit carries the id of the nested
client as a number. -/
theorem ContractsPage_edit_round_trip {α : Type} (js : Platform) (st : ContractsState)
    (r : Contract) (client : Client) (saved : Except JsError α)
    (reloaded : Except JsError (List Contract × List Client))
    (h1 : r.client = .val client)
    (hv : ContractsPage.validate (ContractsPage.handleEdit st r).formData = none) :
    (ContractsPage.handleSubmit js (ContractsPage.handleEdit st r) saved
        reloaded).effects.filter Effect.isApi
      = .api (updateContract js r.id (.obj [("clientId", .num (.fin client.clientId))]))
          :: (match saved with
              | .ok _ => [.api getContracts, .api getClients]
              | .error _ => []) := by
  rw [ContractsPage_handleSubmit_apiCalls js _ saved reloaded hv]
  simp [ContractsPage.saveCall, ContractsPage.handleEdit, ContractForm.contractData,
    IdInput.parseInt, h1]

/-- Interventions: the update call of an unchanged edit carries the title, the
description, a schedule of at most sixteen characters and the contract id as a number,
when `parseInt` reads the decimal rendering of that id back as the id. -/
theorem InterventionsPage_edit_round_trip {α : Type} (js : Platform) (now : Int)
    (st : InterventionsState) (r : Intervention) (t d s : String) (contract : Contract)
    (saved : Except JsError α) (reloaded : Except JsError (List Intervention × List Contract))
    (h1 : r.title = .val t) (h2 : r.description = .val d) (h3 : r.scheduledTime = .val s)
    (hs : s.data.length ≤ 16) (h4 : r.contract = .val contract)
    (hparse : js.parseInt (Nat.repr contract.id) = .fin contract.id)
    (hv : InterventionsPage.validate js now true (InterventionsPage.handleEdit st r).formData
      = none) :
    (InterventionsPage.handleSubmit js now (InterventionsPage.handleEdit st r) saved
        reloaded).effects.filter Effect.isApi
      = .api (updateIntervention js r.id (.obj [("title", .str t), ("description", .str d),
          ("scheduledTime", .str s), ("contractId", .num (.fin contract.id))]))
          :: (match saved with
              | .ok _ => [.api getInterventions, .api getContracts]
              | .error _ => []) := by
  rw [InterventionsPage_handleSubmit_apiCalls js now _ saved reloaded hv]
  have hrepr := repr_isDecimalDigits contract.id
  have htr := truthyStr_of_isDecimalDigits _ hrepr.1
  have hslice : (if truthyStr s = true then sliceTo16 s else "") = s := by
    split_ifs with ht
    · exact sliceTo16_of_short s hs
    · have : s.data = [] := by simpa [truthyStr] using ht
      exact String.ext this.symm
  simp [InterventionsPage.saveCall, InterventionsPage.handleEdit,
    InterventionForm.interventionData, Field.orEmpty, h1, h2, h3, h4, hparse, htr, hslice]


/-- Equipment: the update call of an unchanged edit carries the twelve text fields of the
record (dates without a time part, a non-empty status) and its client id as a number. -/
theorem EquipmentPage_edit_round_trip {α : Type} (js : Platform) (st : EquipmentState)
    (r : EquipmentItem)
    (code name model maker serial installed warranty status type location description
      specifications : String)
    (clientId : Nat) (saved : Except JsError α)
    (reloaded : Except JsError (List EquipmentItem × List Client))
    (h1 : r.equipmentCode = .val code) (h2 : r.name = .val name) (h3 : r.model = .val model)
    (h4 : r.manufacturer = .val maker) (h5 : r.serialNumber = .val serial)
    (h6 : r.installationDate = .val installed) (h6t : 'T' ∉ installed.data)
    (h7 : r.warrantyExpiryDate = .val warranty) (h7t : 'T' ∉ warranty.data)
    (h8 : r.status = .val status) (h8t : truthyStr status = true)
    (h9 : r.type = .val type) (h10 : r.location = .val location)
    (h11 : r.description = .val description) (h12 : r.specifications = .val specifications)
    (h13 : r.clientId = .val clientId) (h13t : clientId ≠ 0)
    (hv : EquipmentPage.validate (EquipmentPage.handleEdit st r).formData = none) :
    (EquipmentPage.handleSubmit js (EquipmentPage.handleEdit st r) saved
        reloaded).effects.filter Effect.isApi
      = .api (updateEquipment js r.id (.obj [("equipmentCode", .str code),
          ("name", .str name), ("model", .str model), ("manufacturer", .str maker),
          ("serialNumber", .str serial), ("installationDate", .str installed),
          ("warrantyExpiryDate", .str warranty), ("status", .str status),
          ("type", .str type), ("location", .str location),
          ("description", .str description), ("specifications", .str specifications),
          ("clientId", .num (.fin clientId))]))
          :: (match saved with
              | .ok _ => [.api getEquipment, .api getClients]
              | .error _ => []) := by
  rw [EquipmentPage_handleSubmit_apiCalls js _ saved reloaded hv]
  simp [EquipmentPage.saveCall, EquipmentPage.handleEdit, EquipmentForm.equipmentData,
    Field.orEmpty, Field.orDefault, Field.idOrEmpty, idOrNull, IdInput.truthy,
    IdInput.parseInt, datePart_of_noT, h1, h2, h3, h4, h5, h6, h6t, h7, h7t, h8, h8t, h9,
    h10, h11, h12, h13, h13t]

/-- Invoices: the update call of an unchanged edit carries the text fields of the record
(dates without a time part, a non-empty status), its non-zero amounts and its
intervention id as numbers, and `price` equal to the total. -/
theorem FacturesPage_edit_round_trip {α : Type} (js : Platform) (st : FacturesState)
    (r : Facture)
    (number description status due paid method notes : String)
    (labor material total : JsNumber) (interventionId : Nat) (saved : Except JsError α)
    (reloaded : Except JsError (List Facture × List Intervention))
    (h1 : r.invoiceNumber = .val number) (h2 : r.description = .val description)
    (h3 : r.laborCost = .val labor) (h3t : labor.truthy = true)
    (h4 : r.materialCost = .val material) (h4t : material.truthy = true)
    (h5 : r.totalAmount = .val total) (h5t : total.truthy = true)
    (h6 : r.status = .val status) (h6t : truthyStr status = true)
    (h7 : r.dueDate = .val due) (h7t : 'T' ∉ due.data)
    (h8 : r.paidDate = .val paid) (h8t : 'T' ∉ paid.data)
    (h9 : r.paymentMethod = .val method) (h10 : r.notes = .val notes)
    (h11 : r.interventionId = .val interventionId) (h11t : interventionId ≠ 0)
    (hv : FacturesPage.validate js (FacturesPage.handleEdit st r).formData = none) :
    (FacturesPage.handleSubmit js (FacturesPage.handleEdit st r) saved
        reloaded).effects.filter Effect.isApi
      = .api (updateFacture js r.id (.obj [("invoiceNumber", .str number),
          ("description", .str description), ("laborCost", .num labor),
          ("materialCost", .num material), ("totalAmount", .num total),
          ("status", .str status), ("dueDate", .str due), ("paidDate", .str paid),
          ("paymentMethod", .str method), ("notes", .str notes),
          ("interventionId", .num (.fin interventionId)), ("price", .num total)]))
          :: (match saved with
              | .ok _ => [.api getFactures, .api getInterventions]
              | .error _ => []) := by
  rw [FacturesPage_handleSubmit_apiCalls js _ saved reloaded hv]
  simp [FacturesPage.saveCall, FacturesPage.handleEdit, FactureForm.factureData,
    Field.orEmpty, Field.orDefault, Field.idOrEmpty, Field.amountOrEmpty, idOrNull,
    amountOrNull, IdInput.truthy, IdInput.parseInt, AmountInput.truthy,
    AmountInput.parseFloat, datePart_of_noT, h1, h2, h3, h3t, h4, h4t, h5, h5t, h6, h6t,
    h7, h7t, h8, h8t, h9, h10, h11, h11t]


set_option maxRecDepth 8000 in
/-- C13 (as stated, fails): an intervention scheduled at `2030-01-01T10:00:00` comes
back from an unchanged edit with `scheduledTime` cut to `2030-01-01T10:00`; an invoice
whose labour cost is 0 comes back with `laborCost` null; a client without email gets no
update call at all, only a validation error. -/
theorem edit_round_trip_alters_record :
    (visitRecord.scheduledTime = .val "2030-01-01T10:00:00"
      ∧ (InterventionsPage.handleSubmit sampleHost 0
            (InterventionsPage.handleEdit {} visitRecord) (Except.ok ())
            (Except.ok ([], []))).effects.filter Effect.isApi
          = [.api (updateIntervention sampleHost 5 (.obj [("title", .str "Visite"),
              ("description", .str "Contrôle annuel"),
              ("scheduledTime", .str "2030-01-01T10:00"), ("contractId", .num (.fin 3))])),
             .api getInterventions, .api getContracts])
    ∧ (partsInvoiceRecord.laborCost = .val (.fin 0)
      ∧ (FactureForm.factureData sampleHost
            (FacturesPage.handleEdit {} partsInvoiceRecord).formData).prop "laborCost"
          = some .null)
    ∧ ((ClientsPage.handleSubmit sampleHost
            (ClientsPage.handleEdit {} { johnDoeRecord with email := .null })
            (Except.ok ()) (Except.ok [])).effects
          = [.preventDefault, .showError "Erreur de validation" "L'email est requis."]) := by
  refine ⟨⟨rfl, ?_⟩, ⟨rfl, ?_⟩, ?_⟩
  · decide!
  · simp [FactureForm.factureData, FacturesPage.handleEdit, partsInvoiceRecord,
      Field.amountOrEmpty, JsNumber.truthy, amountOrNull, AmountInput.truthy, truthyStr,
      Json.prop, getProp]
  · decide


/-- C13 (amended): for every screen and every record whose editable fields are all
present and already in the form's format (texts as they are, a schedule of at most
sixteen characters, dates without a `T`, a non-empty status or specialization, non-zero
amounts and ids, a contract id whose decimal rendering `parseInt` reads back as that
id), and for which the form built by `handleEdit` passes validation, `handleEdit`
followed by `handleSubmit` issues exactly one save call, the update for the record's id,
whose payload carries each form field with the record's value and type (Invoices add
`price`, equal to the total); the list reads follow when the call is accepted. -/
theorem edit_round_trip_payload {α : Type} (js : Platform) (now : Int)
    (saved : Except JsError α) :
    (∀ (st : ClientsState) (r : Client) (a b c d e : String) reloaded,
      r.firstName = .val a → r.lastName = .val b → r.email = .val c →
      r.phoneNumber = .val d → r.address = .val e →
      ClientsPage.validate (ClientsPage.handleEdit st r).formData = none →
      (ClientsPage.handleSubmit js (ClientsPage.handleEdit st r) saved
          reloaded).effects.filter Effect.isApi
        = .api (updateClient js r.clientId (.obj [("firstName", .str a),
            ("lastName", .str b), ("email", .str c), ("phoneNumber", .str d),
            ("address", .str e)]))
            :: (match saved with
                | .ok _ => [.api getClients]
                | .error _ => []))
    ∧ (∀ (st : ContractsState) (r : Contract) (client : Client) reloaded,
      r.client = .val client →
      ContractsPage.validate (ContractsPage.handleEdit st r).formData = none →
      (ContractsPage.handleSubmit js (ContractsPage.handleEdit st r) saved
          reloaded).effects.filter Effect.isApi
        = .api (updateContract js r.id (.obj [("clientId", .num (.fin client.clientId))]))
            :: (match saved with
                | .ok _ => [.api getContracts, .api getClients]
                | .error _ => []))
    ∧ (∀ (st : InterventionsState) (r : Intervention) (t d s : String) (contract : Contract)
        reloaded,
      r.title = .val t → r.description = .val d → r.scheduledTime = .val s →
      s.data.length ≤ 16 → r.contract = .val contract →
      js.parseInt (Nat.repr contract.id) = .fin contract.id →
      InterventionsPage.validate js now true (InterventionsPage.handleEdit st r).formData
        = none →
      (InterventionsPage.handleSubmit js now (InterventionsPage.handleEdit st r) saved
          reloaded).effects.filter Effect.isApi
        = .api (updateIntervention js r.id (.obj [("title", .str t),
            ("description", .str d), ("scheduledTime", .str s),
            ("contractId", .num (.fin contract.id))]))
            :: (match saved with
                | .ok _ => [.api getInterventions, .api getContracts]
                | .error _ => []))
    ∧ (∀ (st : EquipmentState) (r : EquipmentItem)
        (code name model maker serial installed warranty status type location description
          specifications : String) (clientId : Nat) reloaded,
      r.equipmentCode = .val code → r.name = .val name → r.model = .val model →
      r.manufacturer = .val maker → r.serialNumber = .val serial →
      r.installationDate = .val installed → 'T' ∉ installed.data →
      r.warrantyExpiryDate = .val warranty → 'T' ∉ warranty.data →
      r.status = .val status → truthyStr status = true →
      r.type = .val type → r.location = .val location →
      r.description = .val description → r.specifications = .val specifications →
      r.clientId = .val clientId → clientId ≠ 0 →
      EquipmentPage.validate (EquipmentPage.handleEdit st r).formData = none →
      (EquipmentPage.handleSubmit js (EquipmentPage.handleEdit st r) saved
          reloaded).effects.filter Effect.isApi
        = .api (updateEquipment js r.id (.obj [("equipmentCode", .str code),
            ("name", .str name), ("model", .str model), ("manufacturer", .str maker),
            ("serialNumber", .str serial), ("installationDate", .str installed),
            ("warrantyExpiryDate", .str warranty), ("status", .str status),
            ("type", .str type), ("location", .str location),
            ("description", .str description), ("specifications", .str specifications),
            ("clientId", .num (.fin clientId))]))
            :: (match saved with
                | .ok _ => [.api getEquipment, .api getClients]
                | .error _ => []))
    ∧ (∀ (st : FacturesState) (r : Facture)
        (number description status due paid method notes : String)
        (labor material total : JsNumber) (interventionId : Nat) reloaded,
      r.invoiceNumber = .val number → r.description = .val description →
      r.laborCost = .val labor → labor.truthy = true →
      r.materialCost = .val material → material.truthy = true →
      r.totalAmount = .val total → total.truthy = true →
      r.status = .val status → truthyStr status = true →
      r.dueDate = .val due → 'T' ∉ due.data →
      r.paidDate = .val paid → 'T' ∉ paid.data →
      r.paymentMethod = .val method → r.notes = .val notes →
      r.interventionId = .val interventionId → interventionId ≠ 0 →
      FacturesPage.validate js (FacturesPage.handleEdit st r).formData = none →
      (FacturesPage.handleSubmit js (FacturesPage.handleEdit st r) saved
          reloaded).effects.filter Effect.isApi
        = .api (updateFacture js r.id (.obj [("invoiceNumber", .str number),
            ("description", .str description), ("laborCost", .num labor),
            ("materialCost", .num material), ("totalAmount", .num total),
            ("status", .str status), ("dueDate", .str due), ("paidDate", .str paid),
            ("paymentMethod", .str method), ("notes", .str notes),
            ("interventionId", .num (.fin interventionId)), ("price", .num total)]))
            :: (match saved with
                | .ok _ => [.api getFactures, .api getInterventions]
                | .error _ => []))
    ∧ (∀ (st : TechniciansState) (r : Technician) (a b c d e sp : String) reloaded,
      r.firstName = .val a → r.lastName = .val b → r.email = .val c →
      r.phoneNumber = .val d → r.employeeId = .val e →
      r.specialization = .val sp → truthyStr sp = true →
      TechniciansPage.validate (TechniciansPage.handleEdit st r).formData = none →
      (TechniciansPage.handleSubmit js (TechniciansPage.handleEdit st r) saved
          reloaded).effects.filter Effect.isApi
        = .api (updateTechnician js r.id (.obj [("firstName", .str a),
            ("lastName", .str b), ("email", .str c), ("phoneNumber", .str d),
            ("employeeId", .str e), ("specialization", .str sp)]))
            :: (match saved with
                | .ok _ => [.api getTechnicians]
                | .error _ => [])) := by
  refine ⟨?_, ?_, ?_, ?_, ?_, ?_⟩
  · intro st r a b c d e reloaded h1 h2 h3 h4 h5 hv
    exact ClientsPage_edit_round_trip js st r a b c d e saved reloaded h1 h2 h3 h4 h5 hv
  · intro st r client reloaded h1 hv
    exact ContractsPage_edit_round_trip js st r client saved reloaded h1 hv
  · intro st r t d s contract reloaded h1 h2 h3 hs h4 hparse hv
    exact InterventionsPage_edit_round_trip js now st r t d s contract saved reloaded
      h1 h2 h3 hs h4 hparse hv
  · intro st r code name model maker serial installed warranty status type location
      description specifications clientId reloaded h1 h2 h3 h4 h5 h6 h6t h7 h7t h8 h8t h9
      h10 h11 h12 h13 h13t hv
    exact EquipmentPage_edit_round_trip js st r code name model maker serial installed
      warranty status type location description specifications clientId saved reloaded
      h1 h2 h3 h4 h5 h6 h6t h7 h7t h8 h8t h9 h10 h11 h12 h13 h13t hv
  · intro st r number description status due paid method notes labor material total
      interventionId reloaded h1 h2 h3 h3t h4 h4t h5 h5t h6 h6t h7 h7t h8 h8t h9 h10 h11
      h11t hv
    exact FacturesPage_edit_round_trip js st r number description status due paid method
      notes labor material total interventionId saved reloaded h1 h2 h3 h3t h4 h4t h5 h5t
      h6 h6t h7 h7t h8 h8t h9 h10 h11 h11t hv
  · intro st r a b c d e sp reloaded h1 h2 h3 h4 h5 h6 hsp hv
    exact TechniciansPage_edit_round_trip js st r a b c d e sp saved reloaded
      h1 h2 h3 h4 h5 h6 hsp hv

/-- Witness of C13 (amended): editing John Doe and submitting at once sends his five
fields back to `/clients/7`; editing a visit scheduled to the minute and submitting at
once sends its four fields back to `/interventions/5`, the contract id as the number
3. -/
theorem edit_round_trip_payload_witness :
    (ClientsPage.validate (ClientsPage.handleEdit {} johnDoeRecord).formData = none
      ∧ (ClientsPage.handleSubmit sampleHost (ClientsPage.handleEdit {} johnDoeRecord)
            (Except.ok ()) (Except.ok [])).effects.filter Effect.isApi
          = [.api (updateClient sampleHost 7 (.obj [("firstName", .str "John"),
              ("lastName", .str "Doe"), ("email", .str "john.doe@example.com"),
              ("phoneNumber", .str "0612345678"),
              ("address", .str "123 Rue Mohammed V, Casablanca, Maroc")])),
             .api getClients])
    ∧ (sampleHost.parseInt (Nat.repr 3) = .fin ((3 : Nat) : ℚ)
      ∧ InterventionsPage.validate sampleHost 0 true
          (InterventionsPage.handleEdit {} minuteVisitRecord).formData = none
      ∧ (InterventionsPage.handleSubmit sampleHost 0
            (InterventionsPage.handleEdit {} minuteVisitRecord)
            (Except.ok ()) (Except.ok ([], []))).effects.filter Effect.isApi
          = [.api (updateIntervention sampleHost 5 (.obj [("title", .str "Visite"),
              ("description", .str "Contrôle annuel"),
              ("scheduledTime", .str "2030-01-01T10:00"),
              ("contractId", .num (.fin ((3 : Nat) : ℚ)))])),
             .api getInterventions, .api getContracts]) :=
  ⟨⟨by decide,
    (edit_round_trip_payload sampleHost 0 (Except.ok () : Except JsError Unit)).1 {}
      johnDoeRecord "John" "Doe" "john.doe@example.com" "0612345678"
      "123 Rue Mohammed V, Casablanca, Maroc" (Except.ok []) rfl rfl rfl rfl rfl
      (by decide)⟩,
   ⟨by decide!, by decide,
    (edit_round_trip_payload sampleHost 0 (Except.ok () : Except JsError Unit)).2.2.1 {}
      minuteVisitRecord "Visite" "Contrôle annuel" "2030-01-01T10:00" { id := 3 }
      (Except.ok ([], [])) rfl rfl rfl (by decide) rfl (by decide!) (by decide)⟩⟩


/-- The expression `x || 0` leaves a finite number as it is. -/
theorem orZero_fin (a : ℚ) : (JsNumber.fin a).orZero = .fin a := by
  unfold JsNumber.orZero JsNumber.truthy
  by_cases h : a = 0
  · simp [h]
  · simp [h]

/-- C14: in the Invoices form, a change of `laborCost` (or `materialCost`) to a text that
parses to a finite amount, while the other sub-field parses to a finite amount, stores
the text and sets `totalAmount` to the host's `toFixed(2)` text of the host's sum of the
newly typed amount and the stored other amount; the other sub-field is kept. -/
theorem invoice_total_follows_costs (js : Platform) (st : FacturesState) (value : String)
    (typed other : ℚ) (hv : js.parseFloat value = .fin typed) :
    (st.formData.materialCost.parseFloat js = .fin other →
      (FacturesPage.handleInputChange js st .laborCost value).formData.totalAmount
          = .str (js.toFixed2 (js.add (.fin typed) (.fin other)))
      ∧ (FacturesPage.handleInputChange js st .laborCost value).formData.laborCost
          = .str value
      ∧ (FacturesPage.handleInputChange js st .laborCost value).formData.materialCost
          = st.formData.materialCost)
    ∧ (st.formData.laborCost.parseFloat js = .fin other →
      (FacturesPage.handleInputChange js st .materialCost value).formData.totalAmount
          = .str (js.toFixed2 (js.add (.fin other) (.fin typed)))
      ∧ (FacturesPage.handleInputChange js st .materialCost value).formData.materialCost
          = .str value
      ∧ (FacturesPage.handleInputChange js st .materialCost value).formData.laborCost
          = st.formData.laborCost) := by
  constructor
  · intro ho
    simp [FacturesPage.handleInputChange, FacturesPage.changeForm, FactureForm.set, hv, ho,
      orZero_fin]
  · intro ho
    simp [FacturesPage.handleInputChange, FacturesPage.changeForm, FactureForm.set, hv, ho,
      orZero_fin]

/-- Witness of C14: on the sample host, labour `500.00` then material `200.00` gives the
total `700.00`, and material `150.00` afterwards gives `650.00`. -/
theorem invoice_total_follows_costs_witness :
    sampleHost.parseFloat "200.00" = .fin 200
    ∧ (FacturesPage.handleInputChange sampleHost {} .laborCost "500.00"
          ).formData.laborCost.parseFloat sampleHost = .fin 500
    ∧ (FacturesPage.handleInputChange sampleHost
          (FacturesPage.handleInputChange sampleHost {} .laborCost "500.00")
          .materialCost "200.00").formData.totalAmount
        = .str (sampleHost.toFixed2 (sampleHost.add (.fin 500) (.fin 200)))
    ∧ sampleHost.toFixed2 (sampleHost.add (.fin 500) (.fin 200)) = "700.00"
    ∧ (FacturesPage.handleInputChange sampleHost
          (FacturesPage.handleInputChange sampleHost
            (FacturesPage.handleInputChange sampleHost {} .laborCost "500.00")
            .materialCost "200.00")
          .materialCost "150.00").formData.totalAmount
        = .str "650.00" :=
  ⟨by decide!, by decide!,
   ((invoice_total_follows_costs sampleHost
      (FacturesPage.handleInputChange sampleHost {} .laborCost "500.00") "200.00" 200 500
      (by decide!)).2 (by decide!)).1,
   by decide!, by decide!⟩


set_option maxRecDepth 8000 in
/-- C15 (as stated, fails): with invoice number and description filled and the total
`abc`, which `parseFloat` reads as `NaN`, the check `!x || parseFloat(x) <= 0` is false:
`handleSubmit` shows no validation error and issues the create call, the total written
as `null`; the totals `''`, `0` and `-5` are rejected with "Le montant total doit être
supérieur à 0." -/
theorem invoice_submit_accepts_unparsable_total :
    sampleHost.parseFloat "abc" = .nan
    ∧ (FacturesPage.handleSubmit sampleHost (creatingInvoice "abc") (Except.ok ())
          (Except.ok ([], []))).effects
        = [.preventDefault,
           .showLoading "Création en cours..." "Création de la nouvelle facture",
           .api ⟨"/factures", ⟨some "POST",
             some "\x7b\"invoiceNumber\":\"INV-2024-001\",\"description\":\"Entretien annuel\",\"laborCost\":null,\"materialCost\":null,\"totalAmount\":null,\"status\":\"DRAFT\",\"dueDate\":\"\",\"paidDate\":\"\",\"paymentMethod\":\"\",\"notes\":\"\",\"interventionId\":null,\"price\":null\x7d",
             none⟩⟩,
           .closeLoading, .api getFactures, .api getInterventions,
           .showSuccess "Facture créée !" "La nouvelle facture a été créée avec succès."]
    ∧ (FacturesPage.handleSubmit sampleHost (creatingInvoice "") (Except.ok ())
          (Except.ok ([], []))).effects
        = [.preventDefault,
           .showError "Erreur de validation" "Le montant total doit être supérieur à 0."]
    ∧ (FacturesPage.handleSubmit sampleHost (creatingInvoice "0") (Except.ok ())
          (Except.ok ([], []))).effects
        = [.preventDefault,
           .showError "Erreur de validation" "Le montant total doit être supérieur à 0."]
    ∧ (FacturesPage.handleSubmit sampleHost (creatingInvoice "-5") (Except.ok ())
          (Except.ok ([], []))).effects
        = [.preventDefault,
           .showError "Erreur de validation" "Le montant total doit être supérieur à 0."] := by
  refine ⟨by decide!, by decide!, by decide!, by decide!, by decide!⟩


/-- A text that is not blank stays truthy once trimmed. -/
theorem truthyStr_trim_of_not_blank (s : String) (h : isBlank s = false) :
    truthyStr (trim s) = true := by
  cases ht : truthyStr (trim s) with
  | true => rfl
  | false =>
    rw [(truthyStr_trim_eq_false_iff s).mp ht] at h
    cases h

/-- Interventions: once the required fields are filled, only the date check remains. -/
theorem InterventionsPage_validate_filled (js : Platform) (now : Int) (editing : Bool)
    (f : InterventionForm) (h1 : isBlank f.title = false) (h2 : isBlank f.description = false)
    (h3 : truthyStr f.contractId = true) (h4 : truthyStr f.scheduledTime = true) :
    InterventionsPage.validate js now editing f
      = if InterventionsPage.notAfter js f.scheduledTime now && !editing then
          some (.showError "Date invalide" "La date et l'heure doivent être dans le futur.")
        else none := by
  unfold InterventionsPage.validate
  simp [truthyStr_trim_of_not_blank _ h1, truthyStr_trim_of_not_blank _ h2, h3, h4]

/-- A submit handler that went past validation has its save call among its effects. -/
theorem mem_of_filter_isApi_eq (effects : List Effect) (call : ApiCall) (rest : List Effect)
    (h : effects.filter Effect.isApi = .api call :: rest) : Effect.api call ∈ effects := by
  have : Effect.api call ∈ effects.filter Effect.isApi := by rw [h]; simp
  exact (List.mem_filter.mp this).1

/-- C16: for an Interventions form whose required fields are filled: in Create mode, when
the scheduled time reads as the instant `t`, `handleSubmit` rejects the form (one error
notification, no call) exactly when `t ≤ now`, and issues the save call when `now < t`
(as it does when the text is not a date); in Edit mode it always issues the save call. -/
theorem intervention_schedule_check {α : Type} (js : Platform) (now : Int)
    (st : InterventionsState) (saved : Except JsError α)
    (reloaded : Except JsError (List Intervention × List Contract))
    (h1 : isBlank st.formData.title = false) (h2 : isBlank st.formData.description = false)
    (h3 : truthyStr st.formData.contractId = true)
    (h4 : truthyStr st.formData.scheduledTime = true) :
    (st.editingIntervention = none →
      (∀ t, js.dateValue st.formData.scheduledTime = some t →
        ((InterventionsPage.handleSubmit js now st saved reloaded).rejected st ↔ t ≤ now)
        ∧ (t ≤ now → ¬ (InterventionsPage.handleSubmit js now st saved reloaded).callsApi)
        ∧ (now < t → Effect.api (InterventionsPage.saveCall js st)
            ∈ (InterventionsPage.handleSubmit js now st saved reloaded).effects))
      ∧ (js.dateValue st.formData.scheduledTime = none →
          Effect.api (InterventionsPage.saveCall js st)
            ∈ (InterventionsPage.handleSubmit js now st saved reloaded).effects))
    ∧ (∀ r, st.editingIntervention = some r →
        Effect.api (InterventionsPage.saveCall js st)
          ∈ (InterventionsPage.handleSubmit js now st saved reloaded).effects
        ∧ ¬ (InterventionsPage.handleSubmit js now st saved reloaded).rejected st) := by
  have hval := InterventionsPage_validate_filled js now st.editingIntervention.isSome
    st.formData h1 h2 h3 h4
  have proceeds : InterventionsPage.validate js now st.editingIntervention.isSome st.formData
      = none → Effect.api (InterventionsPage.saveCall js st)
        ∈ (InterventionsPage.handleSubmit js now st saved reloaded).effects := by
    intro hv
    exact mem_of_filter_isApi_eq _ _ _
      (InterventionsPage_handleSubmit_apiCalls js now st saved reloaded hv)
  have notRejected : Effect.api (InterventionsPage.saveCall js st)
        ∈ (InterventionsPage.handleSubmit js now st saved reloaded).effects →
      ¬ (InterventionsPage.handleSubmit js now st saved reloaded).rejected st := by
    intro hmem hrej
    exact not_callsApi_of_rejected _ st hrej ⟨_, hmem⟩
  refine ⟨?_, ?_⟩
  · intro hed
    rw [hed] at hval
    refine ⟨?_, ?_⟩
    · intro t ht
      have hna : InterventionsPage.notAfter js st.formData.scheduledTime now = decide (t ≤ now) := by
        simp [InterventionsPage.notAfter, ht]
      by_cases hle : t ≤ now
      · have hv : InterventionsPage.validate js now st.editingIntervention.isSome st.formData
            = some (.showError "Date invalide"
                "La date et l'heure doivent être dans le futur.") := by
          rw [hed, hval, hna]; simp [hle]
        have hrej : (InterventionsPage.handleSubmit js now st saved reloaded).rejected st := by
          rw [InterventionsPage_handleSubmit_invalid js now st saved reloaded _ hv]
          exact ⟨rfl, _, _, rfl⟩
        exact ⟨⟨fun _ => hle, fun _ => hrej⟩,
          fun _ => not_callsApi_of_rejected _ st hrej, fun hlt => absurd hle (by omega)⟩
      · have hv : InterventionsPage.validate js now st.editingIntervention.isSome st.formData
            = none := by
          rw [hed, hval, hna]; simp [hle]
        have hmem := proceeds hv
        exact ⟨⟨fun hrej => absurd hrej (notRejected hmem), fun h => absurd h hle⟩,
          fun h => absurd h hle, fun _ => hmem⟩
    · intro hnone
      have hv : InterventionsPage.validate js now st.editingIntervention.isSome st.formData
          = none := by
        rw [hed, hval]; simp [InterventionsPage.notAfter, hnone]
      exact proceeds hv
  · intro r hed
    have hv : InterventionsPage.validate js now st.editingIntervention.isSome st.formData
        = none := by
      rw [hval, hed]; simp
    exact ⟨proceeds hv, notRejected (proceeds hv)⟩

/-- Witness of C16: on the sample host, a visit scheduled for the very instant of `now`
is rejected in Create mode and saved in Edit mode. -/
theorem intervention_schedule_check_witness :
    isBlank (schedulingVisit "2030-01-01T10:00" none).formData.title = false
    ∧ sampleHost.dateValue "2030-01-01T10:00" = some 203001011000
    ∧ (InterventionsPage.handleSubmit sampleHost 203001011000
          (schedulingVisit "2030-01-01T10:00" none) (Except.ok ())
          (Except.ok ([], []))).rejected (schedulingVisit "2030-01-01T10:00" none)
    ∧ Effect.api (InterventionsPage.saveCall sampleHost
          (schedulingVisit "2030-01-01T10:00" (some visitRecord)))
        ∈ (InterventionsPage.handleSubmit sampleHost 203001011000
            (schedulingVisit "2030-01-01T10:00" (some visitRecord)) (Except.ok ())
            (Except.ok ([], []))).effects :=
  ⟨by decide, by decide,
   (((intervention_schedule_check sampleHost 203001011000
      (schedulingVisit "2030-01-01T10:00" none) (Except.ok ()) (Except.ok ([], []))
      (by decide) (by decide) (by decide) (by decide)).1 rfl).1 203001011000
      (by decide)).1.mpr (le_refl _),
   ((intervention_schedule_check sampleHost 203001011000
      (schedulingVisit "2030-01-01T10:00" (some visitRecord)) (Except.ok ())
      (Except.ok ([], [])) (by decide) (by decide) (by decide) (by decide)).2
      visitRecord rfl).1⟩


/-- The matcher accepts an input exactly when a prefix of it is denoted by the items. -/
theorem matchesAt_iff (input : List Char) :
    ∀ items, matchesAt items input = true
      ↔ ∃ m rest, input = m ++ rest ∧ Denotes items m := by
  induction input with
  | nil =>
    intro items
    cases items with
    | nil => simp [matchesAt, Denotes]
    | cons it rest =>
      cases it with
      | one a => simp [matchesAt, Denotes]
      | plus a =>
        simp only [matchesAt, Denotes, Bool.false_eq_true, false_iff]
        rintro ⟨m, r, hin, u, v, hm, hu, _, _⟩
        have hm0 : m = [] := (List.append_eq_nil.mp hin.symm).1
        rw [hm0] at hm
        exact hu (List.append_eq_nil.mp hm.symm).1
  | cons c cs ih =>
    intro items
    cases items with
    | nil =>
      simp only [matchesAt, Denotes, true_iff]
      exact ⟨[], c :: cs, rfl, rfl⟩
    | cons it rest =>
      cases it with
      | one a =>
        simp only [matchesAt, Bool.and_eq_true, ih rest, Denotes]
        constructor
        · rintro ⟨hc, m, r, hcs, hd⟩
          exact ⟨c :: m, r, by simp [hcs], c, m, rfl, hc, hd⟩
        · rintro ⟨m, r, hin, c', v, hm, hc, hd⟩
          subst hm
          simp only [List.cons_append, List.cons.injEq] at hin
          obtain ⟨rfl, hcs⟩ := hin
          exact ⟨hc, v, r, hcs, hd⟩
      | plus a =>
        simp only [matchesAt, Bool.and_eq_true, Bool.or_eq_true, ih rest,
          ih (.plus a :: rest), Denotes]
        constructor
        · rintro ⟨hc, ⟨m, r, hcs, hd⟩ | ⟨m, r, hcs, u, v, hm, hu, hall, hd⟩⟩
          · exact ⟨c :: m, r, by simp [hcs], [c], m, rfl, by simp, by simpa using hc, hd⟩
          · refine ⟨c :: m, r, by simp [hcs], c :: u, v, by simp [hm], by simp, ?_, hd⟩
            intro x hx
            rcases List.mem_cons.mp hx with rfl | hx
            · exact hc
            · exact hall x hx
        · rintro ⟨m, r, hin, u, v, hm, hu, hall, hd⟩
          cases u with
          | nil => exact absurd rfl hu
          | cons c' u' =>
            subst hm
            simp only [List.cons_append, List.cons.injEq] at hin
            obtain ⟨rfl, hcs⟩ := hin
            refine ⟨hall c (by simp), ?_⟩
            cases u' with
            | nil => exact Or.inl ⟨v, r, by simpa using hcs, hd⟩
            | cons c2 u2 =>
              exact Or.inr ⟨(c2 :: u2) ++ v, r, hcs, c2 :: u2, v, rfl, by simp,
                fun x hx => hall x (List.mem_cons_of_mem _ hx), hd⟩

/-- The unanchored search succeeds exactly when some block of the input is denoted by
the pattern. -/
theorem searchFrom_iff (pattern : List RegexItem) (input : List Char) :
    searchFrom pattern input = true
      ↔ ∃ before m rest, input = before ++ (m ++ rest) ∧ Denotes pattern m := by
  induction input with
  | nil =>
    simp only [searchFrom, matchesAt_iff]
    constructor
    · rintro ⟨m, r, hin, hd⟩
      exact ⟨[], m, r, hin, hd⟩
    · rintro ⟨b, m, r, hin, hd⟩
      have hb : b = [] := (List.append_eq_nil.mp hin.symm).1
      subst hb
      exact ⟨m, r, hin, hd⟩
  | cons c cs ih =>
    simp only [searchFrom, Bool.or_eq_true, matchesAt_iff, ih]
    constructor
    · rintro (⟨m, r, hin, hd⟩ | ⟨b, m, r, hin, hd⟩)
      · exact ⟨[], m, r, hin, hd⟩
      · exact ⟨c :: b, m, r, by simp [hin], hd⟩
    · rintro ⟨b, m, r, hin, hd⟩
      cases b with
      | nil => exact Or.inl ⟨m, r, hin, hd⟩
      | cons c' b' =>
        simp only [List.cons_append, List.cons.injEq] at hin
        exact Or.inr ⟨b', m, r, hin.2, hd⟩

/-- What the email pattern denotes. -/
theorem denotes_emailPattern (m : List Char) :
    Denotes emailPattern m
      ↔ ∃ a b c, m = a ++ '@' :: (b ++ '.' :: c) ∧ a ≠ [] ∧ b ≠ [] ∧ c ≠ []
          ∧ (∀ x ∈ a, isJsWhiteSpace x = false) ∧ (∀ x ∈ b, isJsWhiteSpace x = false)
          ∧ (∀ x ∈ c, isJsWhiteSpace x = false) := by
  simp only [emailPattern, Denotes, RegexAtom.accepts, Bool.not_eq_true', beq_iff_eq]
  constructor
  · rintro ⟨a, v1, h1, ha, hwa, c1, v2, h2, hc1, b, v3, h3, hb, hwb, c2, v4, h4, hc2,
      c, v5, h5, hc, hwc, h6⟩
    subst h6 h5 hc2 h4 h3 hc1 h2 h1
    exact ⟨a, b, c, by simp, ha, hb, hc, hwa, hwb, hwc⟩
  · rintro ⟨a, b, c, hm, ha, hb, hc, hwa, hwb, hwc⟩
    exact ⟨a, _, hm, ha, hwa, '@', _, rfl, rfl, b, _, rfl, hb, hwb, '.', _, rfl, rfl,
      c, [], by simp, hc, hwc, rfl⟩

/-- The email test of the screens succeeds exactly on the texts of the stated shape. -/
theorem regexTest_email_iff (s : String) :
    regexTest emailPattern s = true ↔ hasEmailShape s := by
  unfold regexTest hasEmailShape
  rw [searchFrom_iff]
  constructor
  · rintro ⟨before, m, rest, hin, hd⟩
    obtain ⟨a, b, c, hm, h⟩ := (denotes_emailPattern m).mp hd
    exact ⟨before, a, b, c, rest, by rw [hin, hm], h⟩
  · rintro ⟨before, a, b, c, after, hin, h⟩
    exact ⟨before, _, after, hin, (denotes_emailPattern _).mpr ⟨a, b, c, rfl, h⟩⟩

/-- A text of the email shape is not blank. -/
theorem not_blank_of_hasEmailShape (s : String) (h : hasEmailShape s) : isBlank s = false := by
  obtain ⟨before, a, b, c, after, hin, _⟩ := h
  unfold isBlank
  rw [hin]
  have hat : isJsWhiteSpace '@' = false := by decide
  simp [hat]


/-- C17 (as stated, fails): with the other required fields filled and an empty email,
which has not the email shape, the Clients screen shows "L'email est requis." and the
Technicians screen "Tous les champs obligatoires doivent être remplis.", not the
"email is not valid" notification. -/
theorem empty_email_gets_required_notification :
    regexTest emailPattern "" = false
    ∧ (ClientsPage.handleSubmit sampleHost (creatingClient { johnDoeForm with email := "" })
          (Except.ok ()) (Except.ok [])).effects
        = [.preventDefault, .showError "Erreur de validation" "L'email est requis."]
    ∧ (TechniciansPage.handleSubmit sampleHost
          { formData := { firstName := "Sara", lastName := "Alami", email := "",
                          phoneNumber := "0612345678", employeeId := "TECH003" } }
          (Except.ok ()) (Except.ok [])).effects
        = [.preventDefault,
           .showError "Erreur de validation"
             "Tous les champs obligatoires doivent être remplis."] := by
  refine ⟨by decide, by decide, by decide⟩

/-- Clients: with both names filled, only the email checks remain. -/
theorem ClientsPage_validate_named (f : ClientForm) (h1 : isBlank f.firstName = false)
    (h2 : isBlank f.lastName = false) :
    ClientsPage.validate f
      = if isBlank f.email then
          some (.showError "Erreur de validation" "L'email est requis.")
        else if !regexTest emailPattern f.email then
          some (.showError "Erreur de validation" "L'email n'est pas valide.")
        else none := by
  unfold ClientsPage.validate
  cases hb : isBlank f.email with
  | true =>
    simp [truthyStr_trim_of_not_blank _ h1, truthyStr_trim_of_not_blank _ h2,
      (truthyStr_trim_eq_false_iff _).mpr hb]
  | false =>
    simp [truthyStr_trim_of_not_blank _ h1, truthyStr_trim_of_not_blank _ h2,
      truthyStr_trim_of_not_blank _ hb]

/-- Technicians: with the names and the employee id filled, only the email checks
remain. -/
theorem TechniciansPage_validate_named (f : TechnicianForm) (h1 : isBlank f.firstName = false)
    (h2 : isBlank f.lastName = false) (h3 : isBlank f.employeeId = false) :
    TechniciansPage.validate f
      = if isBlank f.email then
          some (.showError "Erreur de validation"
            "Tous les champs obligatoires doivent être remplis.")
        else if !regexTest emailPattern f.email then
          some (.showError "Erreur de validation" "L'email n'est pas valide.")
        else none := by
  unfold TechniciansPage.validate
  cases hb : isBlank f.email with
  | true =>
    simp [truthyStr_trim_of_not_blank _ h1, truthyStr_trim_of_not_blank _ h2,
      truthyStr_trim_of_not_blank _ h3, (truthyStr_trim_eq_false_iff _).mpr hb]
  | false =>
    simp [truthyStr_trim_of_not_blank _ h1, truthyStr_trim_of_not_blank _ h2,
      truthyStr_trim_of_not_blank _ h3, truthyStr_trim_of_not_blank _ hb]

/-- C17 (amended): on the Clients and Technicians screens, with the other checked fields
filled, `handleSubmit` issues the save call if and only if the email contains a block of
the shape `<non-space>+@<non-space>+.<non-space>+`; otherwise it makes no call and shows
one validation notification: "L'email n'est pas valide." when the email is not blank, the
screen's required-field notification when it is blank. -/
theorem email_shape_gates_submit {α : Type} (js : Platform) (saved : Except JsError α) :
    (∀ (st : ClientsState) reloaded,
      isBlank st.formData.firstName = false → isBlank st.formData.lastName = false →
      (Effect.api (ClientsPage.saveCall js st)
          ∈ (ClientsPage.handleSubmit js st saved reloaded).effects
        ↔ hasEmailShape st.formData.email)
      ∧ (¬ hasEmailShape st.formData.email → isBlank st.formData.email = false →
          (ClientsPage.handleSubmit js st saved reloaded).effects
            = [.preventDefault,
               .showError "Erreur de validation" "L'email n'est pas valide."])
      ∧ (isBlank st.formData.email = true →
          (ClientsPage.handleSubmit js st saved reloaded).effects
            = [.preventDefault, .showError "Erreur de validation" "L'email est requis."]))
    ∧ (∀ (st : TechniciansState) reloaded,
      isBlank st.formData.firstName = false → isBlank st.formData.lastName = false →
      isBlank st.formData.employeeId = false →
      (Effect.api (TechniciansPage.saveCall js st)
          ∈ (TechniciansPage.handleSubmit js st saved reloaded).effects
        ↔ hasEmailShape st.formData.email)
      ∧ (¬ hasEmailShape st.formData.email → isBlank st.formData.email = false →
          (TechniciansPage.handleSubmit js st saved reloaded).effects
            = [.preventDefault,
               .showError "Erreur de validation" "L'email n'est pas valide."])
      ∧ (isBlank st.formData.email = true →
          (TechniciansPage.handleSubmit js st saved reloaded).effects
            = [.preventDefault,
               .showError "Erreur de validation"
                 "Tous les champs obligatoires doivent être remplis."])) := by
  constructor
  · intro st reloaded h1 h2
    have hval := ClientsPage_validate_named st.formData h1 h2
    have hinvalid : ¬ hasEmailShape st.formData.email → isBlank st.formData.email = false →
        (ClientsPage.handleSubmit js st saved reloaded).effects
          = [.preventDefault,
             .showError "Erreur de validation" "L'email n'est pas valide."] := by
      intro hns hnb
      have hre : regexTest emailPattern st.formData.email = false := by
        cases h : regexTest emailPattern st.formData.email with
        | false => rfl
        | true => exact absurd ((regexTest_email_iff _).mp h) hns
      rw [ClientsPage_handleSubmit_invalid js st saved reloaded
        (.showError "Erreur de validation" "L'email n'est pas valide.")
        (by rw [hval]; simp [hnb, hre])]
    have hblank : isBlank st.formData.email = true →
        (ClientsPage.handleSubmit js st saved reloaded).effects
          = [.preventDefault, .showError "Erreur de validation" "L'email est requis."] := by
      intro hb
      rw [ClientsPage_handleSubmit_invalid js st saved reloaded
        (.showError "Erreur de validation" "L'email est requis.") (by rw [hval]; simp [hb])]
    refine ⟨⟨?_, ?_⟩, hinvalid, hblank⟩
    · intro hmem
      by_contra hns
      cases hb : isBlank st.formData.email with
      | true => rw [hblank hb] at hmem; simp at hmem
      | false => rw [hinvalid hns hb] at hmem; simp at hmem
    · intro hshape
      have hnb := not_blank_of_hasEmailShape _ hshape
      have hre := (regexTest_email_iff _).mpr hshape
      exact mem_of_filter_isApi_eq _ _ _
        (ClientsPage_handleSubmit_apiCalls js st saved reloaded
          (by rw [hval]; simp [hnb, hre]))
  · intro st reloaded h1 h2 h3
    have hval := TechniciansPage_validate_named st.formData h1 h2 h3
    have hinvalid : ¬ hasEmailShape st.formData.email → isBlank st.formData.email = false →
        (TechniciansPage.handleSubmit js st saved reloaded).effects
          = [.preventDefault,
             .showError "Erreur de validation" "L'email n'est pas valide."] := by
      intro hns hnb
      have hre : regexTest emailPattern st.formData.email = false := by
        cases h : regexTest emailPattern st.formData.email with
        | false => rfl
        | true => exact absurd ((regexTest_email_iff _).mp h) hns
      rw [TechniciansPage_handleSubmit_invalid js st saved reloaded
        (.showError "Erreur de validation" "L'email n'est pas valide.")
        (by rw [hval]; simp [hnb, hre])]
    have hblank : isBlank st.formData.email = true →
        (TechniciansPage.handleSubmit js st saved reloaded).effects
          = [.preventDefault,
             .showError "Erreur de validation"
               "Tous les champs obligatoires doivent être remplis."] := by
      intro hb
      rw [TechniciansPage_handleSubmit_invalid js st saved reloaded
        (.showError "Erreur de validation"
          "Tous les champs obligatoires doivent être remplis.")
        (by rw [hval]; simp [hb])]
    refine ⟨⟨?_, ?_⟩, hinvalid, hblank⟩
    · intro hmem
      by_contra hns
      cases hb : isBlank st.formData.email with
      | true => rw [hblank hb] at hmem; simp at hmem
      | false => rw [hinvalid hns hb] at hmem; simp at hmem
    · intro hshape
      have hnb := not_blank_of_hasEmailShape _ hshape
      have hre := (regexTest_email_iff _).mpr hshape
      exact mem_of_filter_isApi_eq _ _ _
        (TechniciansPage_handleSubmit_apiCalls js st saved reloaded
          (by rw [hval]; simp [hnb, hre]))

/-- Witness of C17 (amended): `john@doe` has no dot after the `@`, so creating John Doe
with it is refused as not valid. -/
theorem email_shape_gates_submit_witness :
    isBlank johnDoeForm.firstName = false
    ∧ isBlank johnDoeForm.lastName = false
    ∧ ¬ hasEmailShape "john@doe"
    ∧ isBlank "john@doe" = false
    ∧ (ClientsPage.handleSubmit sampleHost
          (creatingClient { johnDoeForm with email := "john@doe" })
          (Except.ok ()) (Except.ok [])).effects
        = [.preventDefault, .showError "Erreur de validation" "L'email n'est pas valide."] :=
  ⟨by decide, by decide,
   fun h => absurd ((regexTest_email_iff _).mpr h) (by decide),
   by decide,
   ((email_shape_gates_submit sampleHost (Except.ok () : Except JsError Unit)).1
      (creatingClient { johnDoeForm with email := "john@doe" }) (Except.ok [])
      (by decide) (by decide)).2.1
      (fun h => absurd ((regexTest_email_iff _).mpr h) (by decide)) (by decide)⟩


set_option maxRecDepth 8000 in
/-- C18 (as stated, fails): after a successful create on the Invoices screen the success
text is the fixed sentence "La nouvelle facture a été créée avec succès.", which contains
neither the invoice number nor the description of the form; on the Contracts screen,
when the chosen client is not in the loaded list, the text names "le client
sélectionné". -/
theorem success_text_may_name_nothing :
    ((FacturesPage.handleSubmit sampleHost (creatingInvoice "700.00") (Except.ok ())
          (Except.ok ([], []))).effects.getLast?
        = some (.showSuccess "Facture créée !"
            "La nouvelle facture a été créée avec succès.")
      ∧ includes "La nouvelle facture a été créée avec succès." "INV-2024-001" = false
      ∧ includes "La nouvelle facture a été créée avec succès." "Entretien annuel" = false)
    ∧ ((ContractsPage.handleSubmit sampleHost { formData := { clientId := .str "12" } }
          (Except.ok ()) (Except.ok ([], []))).effects.getLast?
        = some (.showSuccess "Contrat créé !"
            "Un nouveau contrat a été créé pour le client sélectionné.")) := by
  refine ⟨⟨by decide!, by decide, by decide⟩, by decide!⟩

/-- C18 (amended): after an accepted save, the last notification is a success whose
text contains, on the Clients and Technicians screens, `firstName + ' ' + lastName` of
the form; on the Interventions screen the title; on the Equipment screen the name; on the
Contracts screen the full name of the chosen client when it is in the loaded list. -/
theorem success_text_names_record {α : Type} (js : Platform) (now : Int) (v : α) :
    (∀ (st : ClientsState) reloaded, ClientsPage.validate st.formData = none →
      ∃ title text,
        (ClientsPage.handleSubmit js st (Except.ok v) reloaded).effects.getLast?
          = some (.showSuccess title text)
        ∧ includes text (st.formData.firstName ++ " " ++ st.formData.lastName) = true)
    ∧ (∀ (st : TechniciansState) reloaded, TechniciansPage.validate st.formData = none →
      ∃ title text,
        (TechniciansPage.handleSubmit js st (Except.ok v) reloaded).effects.getLast?
          = some (.showSuccess title text)
        ∧ includes text (st.formData.firstName ++ " " ++ st.formData.lastName) = true)
    ∧ (∀ (st : InterventionsState) reloaded,
      InterventionsPage.validate js now st.editingIntervention.isSome st.formData = none →
      ∃ title text,
        (InterventionsPage.handleSubmit js now st (Except.ok v) reloaded).effects.getLast?
          = some (.showSuccess title text)
        ∧ includes text st.formData.title = true)
    ∧ (∀ (st : EquipmentState) reloaded, EquipmentPage.validate st.formData = none →
      ∃ title text,
        (EquipmentPage.handleSubmit js st (Except.ok v) reloaded).effects.getLast?
          = some (.showSuccess title text)
        ∧ includes text st.formData.name = true)
    ∧ (∀ (st : ContractsState) reloaded (client : Client),
      ContractsPage.validate st.formData = none →
      st.clients.find? (fun c => idEquals c.clientId (st.formData.clientId.parseInt js))
        = some client →
      ∃ title text,
        (ContractsPage.handleSubmit js st (Except.ok v) reloaded).effects.getLast?
          = some (.showSuccess title text)
        ∧ includes text (client.firstName.template ++ " " ++ client.lastName.template)
            = true) := by
  refine ⟨?_, ?_, ?_, ?_, ?_⟩
  · intro st reloaded h
    simp only [ClientsPage.handleSubmit, h]
    refine ⟨_, _, List.getLast?_concat _, ?_⟩
    cases st.editingClient.isSome
    · simpa [String.append_assoc] using includes_append ""
        (st.formData.firstName ++ " " ++ st.formData.lastName) " a été ajouté avec succès."
    · simpa [String.append_assoc] using includes_append "Les informations de "
        (st.formData.firstName ++ " " ++ st.formData.lastName) " ont été mises à jour."
  · intro st reloaded h
    simp only [TechniciansPage.handleSubmit, h]
    refine ⟨_, _, List.getLast?_concat _, ?_⟩
    cases st.editingTechnician.isSome
    · simpa [String.append_assoc] using includes_append ""
        (st.formData.firstName ++ " " ++ st.formData.lastName) " a été ajouté avec succès."
    · simpa [String.append_assoc] using includes_append "Les informations de "
        (st.formData.firstName ++ " " ++ st.formData.lastName) " ont été mises à jour."
  · intro st reloaded h
    simp only [InterventionsPage.handleSubmit, h]
    refine ⟨_, _, List.getLast?_concat _, ?_⟩
    cases st.editingIntervention.isSome
    · simpa [String.append_assoc] using includes_append "L'intervention \""
        st.formData.title ("\" a été planifiée pour "
          ++ InterventionsPage.getClientNameForContract st
              (js.parseInt st.formData.contractId) ++ ".")
    · simpa [String.append_assoc] using includes_append "L'intervention \""
        st.formData.title "\" a été mise à jour."
  · intro st reloaded h
    simp only [EquipmentPage.handleSubmit, h]
    refine ⟨_, _, List.getLast?_concat _, ?_⟩
    cases st.editingEquipment.isSome
    · simpa [String.append_assoc] using includes_append "L'équipement \""
        st.formData.name ("\" a été ajouté pour "
          ++ EquipmentPage.clientDisplayName js st ++ ".")
    · simpa [String.append_assoc] using includes_append "L'équipement \""
        st.formData.name "\" a été mis à jour."
  · intro st reloaded client h hfind
    simp only [ContractsPage.handleSubmit, h]
    refine ⟨_, _, List.getLast?_concat _, ?_⟩
    have hname : ContractsPage.clientDisplayName js st
        = client.firstName.template ++ " " ++ client.lastName.template := by
      simp [ContractsPage.clientDisplayName, hfind]
    rw [hname]
    cases st.editingContract.isSome
    · simpa [String.append_assoc] using includes_append "Un nouveau contrat a été créé pour "
        (client.firstName.template ++ " " ++ client.lastName.template) "."
    · simpa [String.append_assoc] using includes_append "Le contrat a été mis à jour pour "
        (client.firstName.template ++ " " ++ client.lastName.template) "."

/-- Witness of C18 (amended): creating John Doe ends with a success that names him. -/
theorem success_text_names_record_witness :
    ClientsPage.validate (creatingClient johnDoeForm).formData = none
    ∧ ∃ title text,
        (ClientsPage.handleSubmit sampleHost (creatingClient johnDoeForm) (Except.ok ())
            (Except.ok [])).effects.getLast?
          = some (.showSuccess title text)
        ∧ includes text ("John" ++ " " ++ "Doe") = true :=
  ⟨by decide,
   (success_text_names_record sampleHost 0 ()).1 (creatingClient johnDoeForm)
     (Except.ok []) (by decide)⟩


/-- C19: on the Clients, Technicians, Contracts, Interventions and Equipment screens a
failed list load sets the error banner, clears the loading flag and shows exactly one
notification, the network-error one when the message contains 'fetch' and the screen's
load-failure one otherwise. On the Invoices screen `loadData` has no 'fetch' branch:
a load failing with "Failed to fetch" sets the banner and clears the flag as well, but
shows the load-failure notification, not the network-error one that `loadClients` shows
for the same error. -/
theorem invoices_load_failure_never_network :
    (∀ (st : ClientsState) (err : JsError),
        let run := ClientsPage.loadClients st (Except.error err)
        run.state.error.isSome = true ∧ run.state.loading = false
        ∧ run.effects.filter Effect.isNotice
          = [if includes err.message "fetch" then showNetworkError
             else .showError "Erreur de chargement"
               "Impossible de charger la liste des clients."])
    ∧ (∀ (st : TechniciansState) (err : JsError),
        let run := TechniciansPage.loadTechnicians st (Except.error err)
        run.state.error.isSome = true ∧ run.state.loading = false
        ∧ run.effects.filter Effect.isNotice
          = [if includes err.message "fetch" then showNetworkError
             else .showError "Erreur de chargement"
               "Impossible de charger la liste des techniciens."])
    ∧ (∀ (st : ContractsState) (err : JsError),
        let run := ContractsPage.loadData st (Except.error err)
        run.state.error.isSome = true ∧ run.state.loading = false
        ∧ run.effects.filter Effect.isNotice
          = [if includes err.message "fetch" then showNetworkError
             else .showError "Erreur de chargement"
               "Impossible de charger la liste des contrats."])
    ∧ (∀ (st : InterventionsState) (err : JsError),
        let run := InterventionsPage.loadData st (Except.error err)
        run.state.error.isSome = true ∧ run.state.loading = false
        ∧ run.effects.filter Effect.isNotice
          = [if includes err.message "fetch" then showNetworkError
             else .showError "Erreur de chargement"
               "Impossible de charger la liste des interventions."])
    ∧ (∀ (st : EquipmentState) (err : JsError),
        let run := EquipmentPage.loadData st (Except.error err)
        run.state.error.isSome = true ∧ run.state.loading = false
        ∧ run.effects.filter Effect.isNotice
          = [if includes err.message "fetch" then showNetworkError
             else .showError "Erreur de chargement"
               "Impossible de charger la liste des équipements."])
    ∧ (includes "Failed to fetch" "fetch" = true
        ∧ (FacturesPage.loadData {} (Except.error ⟨"Failed to fetch"⟩)).state.error
            = some "Erreur lors du chargement des factures"
        ∧ (FacturesPage.loadData {} (Except.error ⟨"Failed to fetch"⟩)).state.loading = false
        ∧ (FacturesPage.loadData {} (Except.error ⟨"Failed to fetch"⟩)).effects.filter
              Effect.isNotice
            = [.showError "Erreur de chargement"
                "Impossible de charger la liste des factures."]
        ∧ (FacturesPage.loadData {} (Except.error ⟨"Failed to fetch"⟩)).effects.filter
              Effect.isNotice ≠ [showNetworkError]
        ∧ (ClientsPage.loadClients {} (Except.error ⟨"Failed to fetch"⟩)).effects.filter
              Effect.isNotice = [showNetworkError]) := by
  refine ⟨?_, ?_, ?_, ?_, ?_, ?_⟩
  · intro st err
    show _ ∧ _ ∧ _
    refine ⟨rfl, rfl, ?_⟩
    by_cases h : includes err.message "fetch" = true <;>
      simp [h, ClientsPage.loadClients, TechniciansPage.loadTechnicians, ContractsPage.loadData,
        InterventionsPage.loadData, EquipmentPage.loadData, List.filter, Effect.isNotice,
        showNetworkError]
  · intro st err
    show _ ∧ _ ∧ _
    refine ⟨rfl, rfl, ?_⟩
    by_cases h : includes err.message "fetch" = true <;>
      simp [h, ClientsPage.loadClients, TechniciansPage.loadTechnicians, ContractsPage.loadData,
        InterventionsPage.loadData, EquipmentPage.loadData, List.filter, Effect.isNotice,
        showNetworkError]
  · intro st err
    show _ ∧ _ ∧ _
    refine ⟨rfl, rfl, ?_⟩
    by_cases h : includes err.message "fetch" = true <;>
      simp [h, ClientsPage.loadClients, TechniciansPage.loadTechnicians, ContractsPage.loadData,
        InterventionsPage.loadData, EquipmentPage.loadData, List.filter, Effect.isNotice,
        showNetworkError]
  · intro st err
    show _ ∧ _ ∧ _
    refine ⟨rfl, rfl, ?_⟩
    by_cases h : includes err.message "fetch" = true <;>
      simp [h, ClientsPage.loadClients, TechniciansPage.loadTechnicians, ContractsPage.loadData,
        InterventionsPage.loadData, EquipmentPage.loadData, List.filter, Effect.isNotice,
        showNetworkError]
  · intro st err
    show _ ∧ _ ∧ _
    refine ⟨rfl, rfl, ?_⟩
    by_cases h : includes err.message "fetch" = true <;>
      simp [h, ClientsPage.loadClients, TechniciansPage.loadTechnicians, ContractsPage.loadData,
        InterventionsPage.loadData, EquipmentPage.loadData, List.filter, Effect.isNotice,
        showNetworkError]
  · exact ⟨by decide, by decide, by decide, by decide, by decide, by decide⟩


/-- The expression `x || d` is the default `d` exactly when the property is missing,
null or the empty text. -/
theorem orDefault_eq (d : String) (f : Field String) :
    f.orDefault d = if f.orEmpty = "" then d else f.orEmpty := by
  cases f with
  | undefined => rfl
  | null => rfl
  | val s =>
    show (if truthyStr s = true then s else d) = if s = "" then d else s
    have h : truthyStr s = true ↔ ¬ s = "" := by
      rcases s with ⟨l⟩
      cases l <;> simp [truthyStr, String.ext_iff]
    by_cases hs : s = ""
    · rw [if_neg (fun ht => (h.1 ht) hs), if_pos hs]
    · rw [if_pos (h.2 hs), if_neg hs]

/-- The expression `x ? x.split('T')[0] : ''` is the text before the first `T` of the
property, the empty text when the property is missing. -/
theorem datePart_eq (f : Field String) : f.datePart = beforeT f.orEmpty := by
  cases f with
  | undefined => rfl
  | null => rfl
  | val s =>
    show (if truthyStr s = true then beforeT s else "") = beforeT s
    split_ifs with ht
    · rfl
    · rcases s with ⟨l⟩
      cases l with
      | nil => rfl
      | cons c cs => simp [truthyStr] at ht

/-- The expression `x ? x.slice(0, 16) : ''` is the first sixteen characters of the
property, the empty text when the property is missing. -/
theorem scheduledTime_eq (f : Field String) :
    (match f with
      | .val s => if truthyStr s then sliceTo16 s else ""
      | _ => "") = sliceTo16 f.orEmpty := by
  cases f with
  | undefined => rfl
  | null => rfl
  | val s =>
    show (if truthyStr s = true then sliceTo16 s else "") = sliceTo16 s
    split_ifs with ht
    · rfl
    · rcases s with ⟨l⟩
      cases l with
      | nil => rfl
      | cons c cs => simp [truthyStr] at ht

/-- C20 (as stated, fails): a technician without specialization is opened with the form
field `specialization` set to 'GENERAL', not to the empty string; an invoice whose
`laborCost` is 0 is opened with the form field `laborCost` set to the empty string, not
to 0; an intervention scheduled at '2030-01-01T10:00:00' is opened with the form field
`scheduledTime` set to '2030-01-01T10:00'. -/
theorem edit_form_departs_from_record :
    (({ id := 4, firstName := .val "Sara" } : Technician).specialization = .undefined
      ∧ (TechniciansPage.handleEdit {} { id := 4, firstName := .val "Sara" }).formData.specialization
          = "GENERAL")
    ∧ (partsInvoiceRecord.laborCost = .val (.fin 0)
      ∧ (FacturesPage.handleEdit {} partsInvoiceRecord).formData.laborCost = .str "")
    ∧ (visitRecord.scheduledTime = .val "2030-01-01T10:00:00"
      ∧ (InterventionsPage.handleEdit {} visitRecord).formData.scheduledTime
          = "2030-01-01T10:00") := by
  refine ⟨⟨rfl, by decide⟩, ⟨rfl, by decide!⟩, ⟨rfl, by decide⟩⟩


/-- C20 (amended): on every resource screen `handleEdit(r)` sets the editing record to
`r`, opens the modal, leaves the rest of the state as it was, and fills the form from
`r`: a plain text field gets the value of `r`, the empty string when `r` lacks it;
`specialization` and `status` get the default option ('GENERAL', 'DRAFT',
'OPERATIONAL') when `r` lacks them; a date field gets the part of the value before
'T', `scheduledTime` its first sixteen characters; a cost field gets `x || ''` (the
empty string for 0 as well), `totalAmount` falling back to `price`; a foreign-key field
is read from the nested record (on the Equipment screen after `r.clientId`). -/
theorem edit_fills_form :
    (∀ (st : ClientsState) (r : Client),
      ClientsPage.handleEdit st r
        = { st with
            editingClient := some r
            isModalOpen := true
            formData :=
              { firstName := r.firstName.orEmpty
                lastName := r.lastName.orEmpty
                email := r.email.orEmpty
                phoneNumber := r.phoneNumber.orEmpty
                address := r.address.orEmpty } })
    ∧ (∀ (st : TechniciansState) (r : Technician),
      TechniciansPage.handleEdit st r
        = { st with
            editingTechnician := some r
            isModalOpen := true
            formData :=
              { firstName := r.firstName.orEmpty
                lastName := r.lastName.orEmpty
                email := r.email.orEmpty
                phoneNumber := r.phoneNumber.orEmpty
                employeeId := r.employeeId.orEmpty
                specialization :=
                  if r.specialization.orEmpty = "" then "GENERAL"
                  else r.specialization.orEmpty } })
    ∧ (∀ (st : ContractsState) (r : Contract),
      ContractsPage.handleEdit st r
        = { st with
            editingContract := some r
            isModalOpen := true
            formData :=
              { clientId :=
                  match r.client with
                  | .val client => .num client.clientId
                  | _ => .str "" } })
    ∧ (∀ (st : InterventionsState) (r : Intervention),
      InterventionsPage.handleEdit st r
        = { st with
            editingIntervention := some r
            isModalOpen := true
            formData :=
              { title := r.title.orEmpty
                description := r.description.orEmpty
                scheduledTime := sliceTo16 r.scheduledTime.orEmpty
                contractId :=
                  match r.contract with
                  | .val contract => Nat.repr contract.id
                  | _ => "" } })
    ∧ (∀ (st : FacturesState) (r : Facture),
      FacturesPage.handleEdit st r
        = { st with
            editingFacture := some r
            isModalOpen := true
            formData :=
              { invoiceNumber := r.invoiceNumber.orEmpty
                description := r.description.orEmpty
                laborCost := r.laborCost.amountOrEmpty
                materialCost := r.materialCost.amountOrEmpty
                totalAmount :=
                  match r.totalAmount.amountOrEmpty with
                  | .num n => .num n
                  | .str _ => r.price.amountOrEmpty
                status := if r.status.orEmpty = "" then "DRAFT" else r.status.orEmpty
                dueDate := beforeT r.dueDate.orEmpty
                paidDate := beforeT r.paidDate.orEmpty
                paymentMethod := r.paymentMethod.orEmpty
                notes := r.notes.orEmpty
                interventionId := r.interventionId.idOrEmpty } })
    ∧ (∀ (st : EquipmentState) (r : EquipmentItem),
      EquipmentPage.handleEdit st r
        = { st with
            editingEquipment := some r
            isModalOpen := true
            formData :=
              { equipmentCode := r.equipmentCode.orEmpty
                name := r.name.orEmpty
                model := r.model.orEmpty
                manufacturer := r.manufacturer.orEmpty
                serialNumber := r.serialNumber.orEmpty
                installationDate := beforeT r.installationDate.orEmpty
                warrantyExpiryDate := beforeT r.warrantyExpiryDate.orEmpty
                status :=
                  if r.status.orEmpty = "" then "OPERATIONAL" else r.status.orEmpty
                type := r.type.orEmpty
                location := r.location.orEmpty
                description := r.description.orEmpty
                specifications := r.specifications.orEmpty
                clientId :=
                  match r.clientId.idOrEmpty with
                  | .num n => .num n
                  | .str _ =>
                    match r.client with
                    | .val client => .num client.clientId
                    | _ => .str "" } }) := by
  refine ⟨fun _ _ => rfl, ?_, fun _ _ => rfl, ?_, ?_, ?_⟩
  · intro st r
    simp only [TechniciansPage.handleEdit, orDefault_eq, TECHNICIAN_SPECIALIZATIONS_GENERAL]
  · intro st r
    simp only [InterventionsPage.handleEdit, scheduledTime_eq]
  · intro st r
    simp only [FacturesPage.handleEdit, orDefault_eq, datePart_eq, INVOICE_STATUS_DRAFT]
  · intro st r
    simp only [EquipmentPage.handleEdit, orDefault_eq, datePart_eq,
      EQUIPMENT_STATUS_OPERATIONAL]


/-- When one of the six reads is rejected, `Promise.all` is rejected. -/
theorem promiseAll_rejected (c : Except JsError (List Client))
    (k : Except JsError (List Contract)) (f : Except JsError (List Facture))
    (i : Except JsError (List Intervention)) (v : Except JsError JsNumber)
    (u : Except JsError (List Intervention))
    (h : (rejectedRead c || rejectedRead k || rejectedRead f || rejectedRead i
      || rejectedRead v || rejectedRead u) = true) :
    ∃ e, DashboardPage.promiseAll c k f i v u = .error e := by
  rcases c with ec | c
  · exact ⟨ec, rfl⟩
  rcases k with ek | k
  · exact ⟨ek, rfl⟩
  rcases f with ef | f
  · exact ⟨ef, rfl⟩
  rcases i with ei | i
  · exact ⟨ei, rfl⟩
  rcases v with ev | v
  · exact ⟨ev, rfl⟩
  rcases u with eu | u
  · exact ⟨eu, rfl⟩
  simp [rejectedRead] at h

/-- C21: when the six dashboard reads succeed with lists `C`, `K`, `F`, `I`, revenue `v`
and upcoming list `U`, `loadDashboardData` sets the four counts to the lengths of `C`,
`K`, `F`, `I`, `totalRevenue` to `v`, and `upcomingInterventions` to the first
`min 5 |U|` elements of `U` in their order; the error banner is cleared and loading
ends. -/
theorem dashboard_load_aggregates (st : DashboardState) (C : List Client) (K : List Contract)
    (F : List Facture) (I : List Intervention) (v : JsNumber) (U : List Intervention) :
    let run := DashboardPage.loadDashboardData st
      (DashboardPage.promiseAll (.ok C) (.ok K) (.ok F) (.ok I) (.ok v) (.ok U))
    run.state.stats.clientsCount = C.length
    ∧ run.state.stats.contractsCount = K.length
    ∧ run.state.stats.facturesCount = F.length
    ∧ run.state.stats.interventionsCount = I.length
    ∧ run.state.stats.totalRevenue = v
    ∧ run.state.stats.upcomingInterventions.length = min 5 U.length
    ∧ (∃ rest, U = run.state.stats.upcomingInterventions ++ rest)
    ∧ run.state.error = none
    ∧ run.state.loading = false
    ∧ run.effects = [.api getClients, .api getContracts, .api getFactures,
        .api getInterventions, .api getChiffreAffaires, .api getUpcomingInterventions] := by
  show _ ∧ _ ∧ _ ∧ _ ∧ _ ∧ _ ∧ _ ∧ _ ∧ _ ∧ _
  refine ⟨rfl, rfl, rfl, rfl, rfl, ?_, ⟨U.drop 5, ?_⟩, rfl, rfl, rfl⟩
  · show (U.take 5).length = min 5 U.length
    exact List.length_take 5 U
  · show U = U.take 5 ++ U.drop 5
    exact (List.take_append_drop 5 U).symm

/-- C22: when at least one of the six dashboard reads is rejected, whatever the other
reads returned, `loadDashboardData` leaves `stats` as it was, sets the generic error
banner and ends loading; on the load of the mount, `stats` keeps its defaults: the four
counts 0, `totalRevenue` 0 and no upcoming intervention. -/
theorem dashboard_failure_keeps_defaults (c : Except JsError (List Client))
    (k : Except JsError (List Contract)) (f : Except JsError (List Facture))
    (i : Except JsError (List Intervention)) (v : Except JsError JsNumber)
    (u : Except JsError (List Intervention))
    (h : (rejectedRead c || rejectedRead k || rejectedRead f || rejectedRead i
      || rejectedRead v || rejectedRead u) = true) :
    (∀ st : DashboardState,
      let run := DashboardPage.loadDashboardData st (DashboardPage.promiseAll c k f i v u)
      run.state.stats = st.stats
      ∧ run.state.error = some "Erreur lors du chargement des données du tableau de bord"
      ∧ run.state.loading = false
      ∧ run.effects.filter Effect.isNotice = [])
    ∧ (let run := DashboardPage.loadDashboardData {} (DashboardPage.promiseAll c k f i v u)
      run.state.stats.clientsCount = 0
      ∧ run.state.stats.contractsCount = 0
      ∧ run.state.stats.facturesCount = 0
      ∧ run.state.stats.interventionsCount = 0
      ∧ run.state.stats.totalRevenue = .fin 0
      ∧ run.state.stats.upcomingInterventions = []) := by
  obtain ⟨e, he⟩ := promiseAll_rejected c k f i v u h
  rw [he]
  refine ⟨fun st => ⟨rfl, rfl, rfl, rfl⟩, rfl, rfl, rfl, rfl, rfl, rfl⟩

/-- Witness of C22: the revenue read alone fails, the five others return data. -/
theorem dashboard_failure_keeps_defaults_witness :
    (let run := DashboardPage.loadDashboardData {}
        (DashboardPage.promiseAll (.ok [johnDoeRecord]) (.ok [{ id := 3 }])
          (.ok [partsInvoiceRecord]) (.ok [visitRecord]) (.error ⟨"HTTP error! status: 500"⟩)
          (.ok [visitRecord]));
      run.state.stats.clientsCount = 0
      ∧ run.state.stats.contractsCount = 0
      ∧ run.state.stats.facturesCount = 0
      ∧ run.state.stats.interventionsCount = 0
      ∧ run.state.stats.totalRevenue = .fin 0
      ∧ run.state.stats.upcomingInterventions = []) :=
  (dashboard_failure_keeps_defaults (.ok [johnDoeRecord]) (.ok [{ id := 3 }])
    (.ok [partsInvoiceRecord]) (.ok [visitRecord]) (.error ⟨"HTTP error! status: 500"⟩)
    (.ok [visitRecord]) (by rfl)).2


/-- Every event of the assistant keeps the transcript it found and only appends to it. -/
theorem AssistantIA_step_appends (js : Platform) (env : Option String)
    (w : AssistantIA.Widget) (e : AssistantIA.Event) :
    ∃ added, (AssistantIA.step js env w e).ui.history = w.ui.history ++ added := by
  have hsend : ∃ added,
      (AssistantIA.invokeSend js env w).ui.history = w.ui.history ++ added := by
    unfold AssistantIA.invokeSend
    by_cases hg : (!truthyStr (trim w.ui.input) || w.ui.loading) = true
    · exact ⟨[], by simp [hg]⟩
    · exact ⟨[{ role := "user", text := .str (trim w.ui.input) }], by
        simp [hg, AssistantIA.sendStart]⟩
  cases e with
  | change value => exact ⟨[], by simp [AssistantIA.step]⟩
  | quickPrompt q => exact ⟨[], by simp [AssistantIA.step]⟩
  | click =>
    by_cases hd : AssistantIA.sendDisabled w.ui = true
    · exact ⟨[], by simp [AssistantIA.step, hd]⟩
    · simpa [AssistantIA.step, hd] using hsend
  | keyDown key shiftKey =>
    by_cases hk : (key = "Enter" && !shiftKey) = true
    · simpa [AssistantIA.step, hk] using hsend
    · exact ⟨[], by simp [AssistantIA.step, hk]⟩
  | settle fetched =>
    cases hp : w.inFlight with
    | nil => exact ⟨[], by simp [AssistantIA.step, hp]⟩
    | cons r pending =>
      exact ⟨[AssistantIA.replyEntry fetched], by
        simp [AssistantIA.step, hp, AssistantIA.sendSettle]⟩

/-- Every event of the assistant keeps the number of pending chat requests equal to 1
while `loading` is true and to 0 while it is false. -/
theorem AssistantIA_step_inFlight (js : Platform) (env : Option String)
    (w : AssistantIA.Widget) (e : AssistantIA.Event)
    (h : w.inFlight.length = if w.ui.loading = true then 1 else 0) :
    (AssistantIA.step js env w e).inFlight.length
      = if (AssistantIA.step js env w e).ui.loading = true then 1 else 0 := by
  have hsend : (AssistantIA.invokeSend js env w).inFlight.length
      = if (AssistantIA.invokeSend js env w).ui.loading = true then 1 else 0 := by
    unfold AssistantIA.invokeSend
    by_cases hg : (!truthyStr (trim w.ui.input) || w.ui.loading) = true
    · simpa [hg] using h
    · have hl : w.ui.loading = false := by
        cases hl : w.ui.loading
        · rfl
        · simp [hl] at hg
      simp [hl] at h
      simp [hg, AssistantIA.sendStart, h]
  cases e with
  | change value => simpa [AssistantIA.step] using h
  | quickPrompt q => simpa [AssistantIA.step] using h
  | click =>
    by_cases hd : AssistantIA.sendDisabled w.ui = true
    · simpa [AssistantIA.step, hd] using h
    · simpa [AssistantIA.step, hd] using hsend
  | keyDown key shiftKey =>
    by_cases hk : (key = "Enter" && !shiftKey) = true
    · simpa [AssistantIA.step, hk] using hsend
    · simpa [AssistantIA.step, hk] using h
  | settle fetched =>
    cases hp : w.inFlight with
    | nil => simpa [AssistantIA.step, hp] using h
    | cons r pending =>
      rw [hp] at h
      by_cases hl : w.ui.loading = true
      · simp [hl] at h
        simp [AssistantIA.step, hp, AssistantIA.sendSettle, h]
      · simp [hl] at h

/-- After any sequence of events the transcript of the assistant starts with the
greeting, and a chat request is pending exactly while `loading` is true, one at most. -/
theorem AssistantIA_runEvents_invariant (js : Platform) (env : Option String)
    (events : List AssistantIA.Event) :
    (∃ rest, (AssistantIA.runEvents js env events).ui.history = AssistantIA.greeting :: rest)
    ∧ (AssistantIA.runEvents js env events).inFlight.length
        = if (AssistantIA.runEvents js env events).ui.loading = true then 1 else 0 := by
  have key : ∀ (events : List AssistantIA.Event) (w : AssistantIA.Widget),
      (∃ rest, w.ui.history = AssistantIA.greeting :: rest) →
      (w.inFlight.length = if w.ui.loading = true then 1 else 0) →
      (∃ rest, (events.foldl (AssistantIA.step js env) w).ui.history
          = AssistantIA.greeting :: rest)
      ∧ (events.foldl (AssistantIA.step js env) w).inFlight.length
          = if (events.foldl (AssistantIA.step js env) w).ui.loading = true then 1 else 0 := by
    intro events
    induction events with
    | nil => intro w h1 h2; exact ⟨h1, h2⟩
    | cons e es ih =>
      intro w h1 h2
      rw [List.foldl_cons]
      apply ih
      · obtain ⟨rest, hrest⟩ := h1
        obtain ⟨added, hadded⟩ := AssistantIA_step_appends js env w e
        exact ⟨rest ++ added, by rw [hadded, hrest, List.cons_append]⟩
      · exact AssistantIA_step_inFlight js env w e h2
  exact key events ⟨AssistantIA.initial, []⟩ ⟨[], rfl⟩ rfl


/-- C23: with a non-empty trimmed input `t`, no send pending and a response whose decoded
body carries a non-empty text `reply`, `send` issues exactly one request, a POST to the
chat endpoint whose body is the serialisation of `{ message: t, history: h }` with `h` the
transcript before the send, and leaves the transcript `h` followed by the user entry
for `t` and the model entry for the reply, the input empty and `loading` false; the
first entry of the transcript stays what it was, and after any sequence of events the
transcript still starts with the greeting, each event only appending to it. -/
theorem assistant_send_round_trip (js : Platform) (env : Option String) (st : AssistantState)
    (res : Response Json) (data : Json) (r : String)
    (ht : truthyStr (trim st.input) = true) (hl : st.loading = false)
    (hjson : res.json = .ok data) (hreply : data.prop "reply" = some (.str r))
    (hr : r ≠ "") :
    (AssistantIA.send js env st (.ok res)).requests
        = [{ url := AssistantIA.API_BASE env ++ "/api/ai/chat"
             method := "POST"
             headers := [("Content-Type", "application/json")]
             body := js.stringify
               (.obj [("message", .str (trim st.input)),
                      ("history", .arr (st.history.map ChatEntry.toJson))]) }]
    ∧ (AssistantIA.send js env st (.ok res)).state.history
        = st.history ++ [{ role := "user", text := .str (trim st.input) },
                         { role := "model", text := .str r }]
    ∧ (AssistantIA.send js env st (.ok res)).state.input = ""
    ∧ (AssistantIA.send js env st (.ok res)).state.loading = false
    ∧ (∀ first rest, st.history = first :: rest →
        ∃ rest2, (AssistantIA.send js env st (.ok res)).state.history = first :: rest2)
    ∧ (∀ events, ∃ rest,
        (AssistantIA.runEvents js env events).ui.history = AssistantIA.greeting :: rest)
    ∧ (∀ w e, ∃ added,
        (AssistantIA.step js env w e).ui.history = w.ui.history ++ added) := by
  have htr : truthyStr r = true := by
    rcases r with ⟨l⟩
    cases l with
    | nil => exact absurd rfl hr
    | cons c cs => rfl
  have hentry : AssistantIA.replyEntry (.ok res) = { role := "model", text := .str r } := by
    simp [AssistantIA.replyEntry, hjson, hreply, Json.truthy, htr]
  have hrun : AssistantIA.send js env st (.ok res)
      = ⟨AssistantIA.sendSettle (AssistantIA.sendStart st (trim st.input)) (.ok res),
          [AssistantIA.chatRequest js env (trim st.input) st.history]⟩ := by
    simp [AssistantIA.send, ht, hl]
  have hhist : (AssistantIA.send js env st (.ok res)).state.history
      = st.history ++ [{ role := "user", text := .str (trim st.input) },
                       { role := "model", text := .str r }] := by
    rw [hrun]
    simp [AssistantIA.sendSettle, AssistantIA.sendStart, hentry]
  refine ⟨by rw [hrun]; rfl, hhist, by rw [hrun]; rfl, by rw [hrun]; rfl, ?_, ?_, ?_⟩
  · intro first rest hfirst
    exact ⟨rest ++ [{ role := "user", text := .str (trim st.input) },
                    { role := "model", text := .str r }], by rw [hhist, hfirst]; rfl⟩
  · intro events
    exact (AssistantIA_runEvents_invariant js env events).1
  · intro w e
    exact AssistantIA_step_appends js env w e

/-- Witness of C23: the question ' Bonjour ' typed on the mounted widget, answered by
'Salut'. -/
theorem assistant_send_round_trip_witness :
    (AssistantIA.send sampleHost none
        { history := [AssistantIA.greeting], input := " Bonjour ", loading := false }
        (.ok ⟨true, 200, some "application/json",
          .ok (.obj [("reply", .str "Salut")])⟩)).state.history
      = [AssistantIA.greeting] ++ [{ role := "user", text := .str (trim " Bonjour ") },
                                   { role := "model", text := .str "Salut" }] :=
  (assistant_send_round_trip sampleHost none
    { history := [AssistantIA.greeting], input := " Bonjour ", loading := false }
    ⟨true, 200, some "application/json", .ok (.obj [("reply", .str "Salut")])⟩
    (.obj [("reply", .str "Salut")]) "Salut" (by decide) rfl rfl
    (by simp [Json.prop, getProp]) (by decide)).2.1


/-- C24 (as stated, fails): the text of the fallback entry depends on the failure. When
the request is rejected the entry reads 'Erreur de communication avec le service IA.';
when the decoded body has no `reply` it reads 'Désolé, je n’ai pas pu répondre.'. -/
theorem assistant_fallback_depends_on_failure :
    (AssistantIA.send sampleHost none
        { history := [AssistantIA.greeting], input := "Bonjour", loading := false }
        (.error ⟨"Failed to fetch"⟩)).state.history
      = [AssistantIA.greeting, { role := "user", text := .str "Bonjour" },
          { role := "model", text := .str "Erreur de communication avec le service IA." }]
    ∧ (AssistantIA.send sampleHost none
        { history := [AssistantIA.greeting], input := "Bonjour", loading := false }
        (.ok ⟨true, 200, some "application/json", .ok (.obj [])⟩)).state.history
      = [AssistantIA.greeting, { role := "user", text := .str "Bonjour" },
          { role := "model", text := .str "Désolé, je n’ai pas pu répondre." }]
    ∧ "Erreur de communication avec le service IA." ≠ "Désolé, je n’ai pas pu répondre." := by
  have ht : trim "Bonjour" = "Bonjour" := by decide
  refine ⟨?_, ?_, by decide⟩
  · simp [AssistantIA.send, AssistantIA.sendSettle, AssistantIA.sendStart,
      AssistantIA.replyEntry, ht, truthyStr]
  · simp [AssistantIA.send, AssistantIA.sendSettle, AssistantIA.sendStart,
      AssistantIA.replyEntry, ht, truthyStr, Json.prop, getProp]

/-- C24 (amended): for every accepted send whose round trip fails, exactly one request
is issued, exactly one model entry is appended after the user message, and `loading`
returns to false. The text of the entry is 'Erreur de communication avec le service
IA.' when the request is rejected or the body cannot be decoded, whatever the error, and
'Désolé, je n’ai pas pu répondre.' when the decoded body has no `reply` or a falsy
one. -/
theorem assistant_failure_appends_fallback (js : Platform) (env : Option String)
    (st : AssistantState) (ht : truthyStr (trim st.input) = true) (hl : st.loading = false) :
    (∀ e : JsError,
      (AssistantIA.send js env st (.error e)).state.history
          = st.history ++ [{ role := "user", text := .str (trim st.input) },
              { role := "model", text := .str "Erreur de communication avec le service IA." }]
      ∧ (AssistantIA.send js env st (.error e)).state.loading = false
      ∧ (AssistantIA.send js env st (.error e)).requests.length = 1)
    ∧ (∀ (res : Response Json) (e : JsError), res.json = .error e →
      (AssistantIA.send js env st (.ok res)).state.history
          = st.history ++ [{ role := "user", text := .str (trim st.input) },
              { role := "model", text := .str "Erreur de communication avec le service IA." }]
      ∧ (AssistantIA.send js env st (.ok res)).state.loading = false
      ∧ (AssistantIA.send js env st (.ok res)).requests.length = 1)
    ∧ (∀ (res : Response Json) (data : Json), res.json = .ok data →
      (data.prop "reply" = none ∨ ∃ v, data.prop "reply" = some v ∧ v.truthy = false) →
      (AssistantIA.send js env st (.ok res)).state.history
          = st.history ++ [{ role := "user", text := .str (trim st.input) },
              { role := "model", text := .str "Désolé, je n’ai pas pu répondre." }]
      ∧ (AssistantIA.send js env st (.ok res)).state.loading = false
      ∧ (AssistantIA.send js env st (.ok res)).requests.length = 1) := by
  have hrun : ∀ fetched, AssistantIA.send js env st fetched
      = ⟨AssistantIA.sendSettle (AssistantIA.sendStart st (trim st.input)) fetched,
          [AssistantIA.chatRequest js env (trim st.input) st.history]⟩ := by
    intro fetched
    simp [AssistantIA.send, ht, hl]
  refine ⟨?_, ?_, ?_⟩
  · intro e
    rw [hrun]
    refine ⟨?_, rfl, rfl⟩
    simp [AssistantIA.sendSettle, AssistantIA.sendStart, AssistantIA.replyEntry]
  · intro res e he
    rw [hrun]
    refine ⟨?_, rfl, rfl⟩
    simp [AssistantIA.sendSettle, AssistantIA.sendStart, AssistantIA.replyEntry, he]
  · intro res data hd hreply
    rw [hrun]
    refine ⟨?_, rfl, rfl⟩
    rcases hreply with hnone | ⟨v, hv, hfalsy⟩
    · simp [AssistantIA.sendSettle, AssistantIA.sendStart, AssistantIA.replyEntry, hd, hnone]
    · simp [AssistantIA.sendSettle, AssistantIA.sendStart, AssistantIA.replyEntry, hd, hv,
        hfalsy]

/-- Witness of C24 (amended): 'Bonjour' sent from the mounted widget, the request
rejected. -/
theorem assistant_failure_appends_fallback_witness :
    (AssistantIA.send sampleHost none
        { history := [AssistantIA.greeting], input := "Bonjour", loading := false }
        (.error ⟨"Failed to fetch"⟩)).state.loading = false
    ∧ (AssistantIA.send sampleHost none
        { history := [AssistantIA.greeting], input := "Bonjour", loading := false }
        (.error ⟨"Failed to fetch"⟩)).requests.length = 1 :=
  ((assistant_failure_appends_fallback sampleHost none
    { history := [AssistantIA.greeting], input := "Bonjour", loading := false }
    (by decide) rfl).1 ⟨"Failed to fetch"⟩).2

/-- C25: while a send is pending (`loading` true), `send` issues no request and leaves
the transcript, the input and `loading` as they are, whether it is invoked by the
button or by the Enter key; the send button is disabled exactly while `loading` is
true; and after any sequence of events at most one chat request is pending, one exactly
while `loading` is true. -/
theorem assistant_single_flight (js : Platform) (env : Option String) :
    (∀ (st : AssistantState) fetched, st.loading = true →
      (AssistantIA.send js env st fetched).requests = []
      ∧ (AssistantIA.send js env st fetched).state.history = st.history
      ∧ (AssistantIA.send js env st fetched).state.input = st.input
      ∧ (AssistantIA.send js env st fetched).state.loading = true)
    ∧ (∀ (w : AssistantIA.Widget), w.ui.loading = true →
      (AssistantIA.step js env w .click).inFlight = w.inFlight
      ∧ (AssistantIA.step js env w .click).ui.history = w.ui.history
      ∧ (AssistantIA.step js env w .click).ui.input = w.ui.input
      ∧ (AssistantIA.step js env w .click).ui.loading = true
      ∧ (AssistantIA.step js env w (.keyDown "Enter" false)).inFlight = w.inFlight
      ∧ (AssistantIA.step js env w (.keyDown "Enter" false)).ui.history = w.ui.history
      ∧ (AssistantIA.step js env w (.keyDown "Enter" false)).ui.input = w.ui.input
      ∧ (AssistantIA.step js env w (.keyDown "Enter" false)).ui.loading = true)
    ∧ (∀ st : AssistantState, AssistantIA.sendDisabled st = true ↔ st.loading = true)
    ∧ (∀ events,
      (AssistantIA.runEvents js env events).inFlight.length ≤ 1
      ∧ ((AssistantIA.runEvents js env events).inFlight.length = 1
          ↔ (AssistantIA.runEvents js env events).ui.loading = true)) := by
  refine ⟨?_, ?_, fun st => Iff.rfl, ?_⟩
  · intro st fetched hl
    have hrun : AssistantIA.send js env st fetched = ⟨st, []⟩ := by
      simp [AssistantIA.send, hl]
    rw [hrun]
    exact ⟨rfl, rfl, rfl, hl⟩
  · intro w hl
    have hclick : AssistantIA.step js env w .click = w := by
      simp [AssistantIA.step, AssistantIA.sendDisabled, hl]
    have hkey : AssistantIA.step js env w (.keyDown "Enter" false) = w := by
      simp [AssistantIA.step, AssistantIA.invokeSend, hl]
    rw [hclick, hkey]
    exact ⟨rfl, rfl, rfl, hl, rfl, rfl, rfl, hl⟩
  · intro events
    have h := (AssistantIA_runEvents_invariant js env events).2
    by_cases hl : (AssistantIA.runEvents js env events).ui.loading = true
    · rw [if_pos hl] at h
      exact ⟨by rw [h], by rw [h]; simp [hl]⟩
    · rw [if_neg hl] at h
      exact ⟨by rw [h]; exact Nat.zero_le 1, by rw [h]; simp [hl]⟩

/-- Witness of C25: a send invoked on a typed question while a first send is pending
issues no request. -/
theorem assistant_single_flight_witness :
    ({ history := [AssistantIA.greeting], input := "Encore", loading := true }
        : AssistantState).loading = true
    ∧ (AssistantIA.send sampleHost none
        { history := [AssistantIA.greeting], input := "Encore", loading := true }
        (.error ⟨"Failed to fetch"⟩)).requests = [] :=
  ⟨rfl, ((assistant_single_flight sampleHost none).1
    { history := [AssistantIA.greeting], input := "Encore", loading := true }
    (.error ⟨"Failed to fetch"⟩) rfl).1⟩


/-- C26 (as stated, fails): an equipment record without nested client whose `clientId` is
0 gets 'Client inconnu' although the loaded list holds the client with that id, since
`if (equipment.clientId)` skips the search; and for an invoice to which no intervention
is linked `getInterventionInfo` returns `null`, not a placeholder. -/
theorem equipment_zero_client_id_not_searched :
    ({ clientId := 0, firstName := .val "John", lastName := .val "Doe" } : Client)
        ∈ ({ clients := [{ clientId := 0, firstName := .val "John", lastName := .val "Doe" }] }
            : EquipmentState).clients
    ∧ EquipmentPage.getClientName
        { clients := [{ clientId := 0, firstName := .val "John", lastName := .val "Doe" }] }
        { id := 1, clientId := .val 0 } = "Client inconnu"
    ∧ EquipmentPage.getClientName
        { clients := [{ clientId := 7, firstName := .val "John", lastName := .val "Doe" }] }
        { id := 1, clientId := .val 7 } = "John Doe"
    ∧ FacturesPage.getInterventionInfo {} partsInvoiceRecord = none := by
  refine ⟨by simp, by decide, by decide, by decide⟩

/-- C26 (amended): the display-name helpers are total and return 'Client inconnu' when
the related client is absent from the joined data, `firstName + ' ' + lastName` when
it is present: the nested client for `ContractsPage.getClientName` and
`getClientDetails`, the client nested in the contract for `InterventionsPage.getClientName`
and `getContractInfo`, the nested client or else, when `clientId` is not 0, the entry of
the loaded list with that id for `EquipmentPage.getClientName`. When
`FacturesPage.getInterventionInfo` returns an object, its `client` follows the same rule
for an intervention of the loaded list. -/
theorem display_names_of_related_client :
    (∀ contract : Contract, (∀ c, contract.client ≠ .val c) →
      ContractsPage.getClientName contract = "Client inconnu"
      ∧ (ContractsPage.getClientDetails contract).name = "Client inconnu")
    ∧ (∀ (contract : Contract) (c : Client), contract.client = .val c →
      ContractsPage.getClientName contract = fullName c
      ∧ (ContractsPage.getClientDetails contract).name = fullName c)
    ∧ (∀ i : Intervention, (∀ k c, i.contract = .val k → k.client ≠ .val c) →
      InterventionsPage.getClientName i = "Client inconnu"
      ∧ (InterventionsPage.getContractInfo i).client = "Client inconnu")
    ∧ (∀ (i : Intervention) (k : Contract) (c : Client),
      i.contract = .val k → k.client = .val c →
      InterventionsPage.getClientName i = fullName c
      ∧ (InterventionsPage.getContractInfo i).client = fullName c)
    ∧ (∀ (st : EquipmentState) (e : EquipmentItem), (∀ c, e.client ≠ .val c) →
      (∀ id, e.clientId = .val id → ∀ c ∈ st.clients, c.clientId ≠ id) →
      EquipmentPage.getClientName st e = "Client inconnu")
    ∧ (∀ (st : EquipmentState) (e : EquipmentItem) (c : Client), e.client = .val c →
      EquipmentPage.getClientName st e = fullName c)
    ∧ (∀ (st : EquipmentState) (e : EquipmentItem) (id : Nat) (c : Client),
      (∀ c, e.client ≠ .val c) → e.clientId = .val id → id ≠ 0 →
      st.clients.find? (fun c => c.clientId == id) = some c →
      EquipmentPage.getClientName st e = fullName c)
    ∧ (∀ (st : FacturesState) (f : Facture) (info : InterventionInfo),
      FacturesPage.getInterventionInfo st f = some info →
      ∃ i ∈ st.interventions, info.client = InterventionsPage.getClientName i) := by
  refine ⟨?_, ?_, ?_, ?_, ?_, ?_, ?_, ?_⟩
  · intro contract h
    cases hc : contract.client with
    | undefined => simp [ContractsPage.getClientName, ContractsPage.getClientDetails, hc]
    | null => simp [ContractsPage.getClientName, ContractsPage.getClientDetails, hc]
    | val c => exact absurd hc (h c)
  · intro contract c hc
    simp [ContractsPage.getClientName, ContractsPage.getClientDetails, hc, fullName]
  · intro i h
    cases hk : i.contract with
    | undefined => simp [InterventionsPage.getClientName, InterventionsPage.getContractInfo, hk]
    | null => simp [InterventionsPage.getClientName, InterventionsPage.getContractInfo, hk]
    | val k =>
      cases hc : k.client with
      | undefined =>
        simp [InterventionsPage.getClientName, InterventionsPage.getContractInfo, hk, hc]
      | null =>
        simp [InterventionsPage.getClientName, InterventionsPage.getContractInfo, hk, hc]
      | val c => exact absurd hc (h k c hk)
  · intro i k c hk hc
    simp [InterventionsPage.getClientName, InterventionsPage.getContractInfo, hk, hc, fullName]
  · intro st e h hlist
    have hsearch : ∀ id, e.clientId = .val id →
        st.clients.find? (fun c => c.clientId == id) = none := by
      intro id hid
      rw [List.find?_eq_none]
      intro c hc
      simpa using hlist id hid c hc
    cases hc : e.client with
    | val c => exact absurd hc (h c)
    | undefined =>
      cases hid : e.clientId with
      | undefined => simp [EquipmentPage.getClientName, hc, hid]
      | null => simp [EquipmentPage.getClientName, hc, hid]
      | val id => simp [EquipmentPage.getClientName, hc, hid, hsearch id hid]
    | null =>
      cases hid : e.clientId with
      | undefined => simp [EquipmentPage.getClientName, hc, hid]
      | null => simp [EquipmentPage.getClientName, hc, hid]
      | val id => simp [EquipmentPage.getClientName, hc, hid, hsearch id hid]
  · intro st e c hc
    simp [EquipmentPage.getClientName, hc, fullName]
  · intro st e id c h hid hne hfind
    cases hc : e.client with
    | val c2 => exact absurd hc (h c2)
    | undefined => simp [EquipmentPage.getClientName, hc, hid, hne, hfind, fullName]
    | null => simp [EquipmentPage.getClientName, hc, hid, hne, hfind, fullName]
  · intro st f info hinfo
    have hsame : ∀ i : Intervention,
        (FacturesPage.interventionInfo i).client = InterventionsPage.getClientName i := by
      intro i
      rfl
    unfold FacturesPage.getInterventionInfo at hinfo
    cases h1 : st.interventions.find? (fun i =>
        match i.facture with
        | .val f2 => f2.id == f.id
        | _ => false) with
    | some i =>
      rw [h1] at hinfo
      simp only [Option.some.injEq] at hinfo
      exact ⟨i, List.mem_of_find?_eq_some h1, by rw [← hinfo, hsame]⟩
    | none =>
      rw [h1] at hinfo
      cases hid : f.interventionId with
      | undefined => simp [hid] at hinfo
      | null => simp [hid] at hinfo
      | val id =>
        simp only [hid] at hinfo
        by_cases hne : id ≠ 0
        · rw [if_pos hne] at hinfo
          cases h2 : st.interventions.find? (fun i => i.id == id) with
          | some i =>
            rw [h2] at hinfo
            simp only [Option.some.injEq] at hinfo
            exact ⟨i, List.mem_of_find?_eq_some h2, by rw [← hinfo, hsame]⟩
          | none => rw [h2] at hinfo; exact absurd hinfo (by simp)
        · rw [if_neg hne] at hinfo
          exact absurd hinfo (by simp)

/-- Witness of C26 (amended): a contract of John Doe, and a contract without client. -/
theorem display_names_of_related_client_witness :
    ContractsPage.getClientName { id := 3, client := .val johnDoeRecord } = "John Doe"
    ∧ ContractsPage.getClientName { id := 3 } = "Client inconnu" :=
  ⟨(display_names_of_related_client.2.1 { id := 3, client := .val johnDoeRecord }
      johnDoeRecord rfl).1,
   (display_names_of_related_client.1 { id := 3 } (fun c h => by cases h)).1⟩


/-- C27 (as stated, fails): client status, contract type, contract status, intervention
status, intervention priority and intervention type have no label lookup in the
sources. -/
theorem six_enumerations_without_lookup :
    ¬ Enumeration.clientStatus.HasLabels
    ∧ ¬ Enumeration.contractType.HasLabels
    ∧ ¬ Enumeration.contractStatus.HasLabels
    ∧ ¬ Enumeration.interventionStatus.HasLabels
    ∧ ¬ Enumeration.interventionPriority.HasLabels
    ∧ ¬ Enumeration.interventionType.HasLabels := by
  refine ⟨?_, ?_, ?_, ?_, ?_, ?_⟩ <;>
    · rintro ⟨lookup, h, _⟩
      simp [Enumeration.labelLookup] at h

/-- C27 (amended): client type, invoice status, technician specialization, equipment
status, equipment type and payment method are the enumerations with a label lookup,
and it gives each of their codes a label different from the code; the five lookups of
`constants.js` return every string that is not a code of their enumeration
unchanged. -/
theorem label_lookups_cover_codes :
    (∀ e : Enumeration, e.HasLabels ↔
      e ∈ [Enumeration.clientType, .invoiceStatus, .technicianSpecialization,
        .equipmentStatus, .equipmentType, .paymentMethod])
    ∧ (∀ s, s ∉ CLIENT_TYPES → getClientTypeLabel s = s)
    ∧ (∀ s, s ∉ INVOICE_STATUS → getInvoiceStatusLabel s = s)
    ∧ (∀ s, s ∉ TECHNICIAN_SPECIALIZATIONS → getTechnicianSpecializationLabel s = s)
    ∧ (∀ s, s ∉ EQUIPMENT_STATUS → getEquipmentStatusLabel s = s)
    ∧ (∀ s, s ∉ EQUIPMENT_TYPES → getEquipmentTypeLabel s = s) := by
  refine ⟨?_, ?_, ?_, ?_, ?_, ?_⟩
  · intro e
    constructor
    · rintro ⟨lookup, h, _⟩
      cases e <;> simp [Enumeration.labelLookup] at h ⊢
    · intro he
      cases e <;> simp at he
      · refine ⟨_, rfl, ?_⟩
        intro code hc
        simp only [Enumeration.codes, CLIENT_TYPES, List.mem_cons, List.mem_singleton,
          List.not_mem_nil, or_false] at hc
        rcases hc with rfl | rfl | rfl | rfl <;> exact ⟨_, rfl, by decide⟩
      · refine ⟨_, rfl, ?_⟩
        intro code hc
        simp only [Enumeration.codes, INVOICE_STATUS, List.mem_cons, List.mem_singleton,
          List.not_mem_nil, or_false] at hc
        rcases hc with rfl | rfl | rfl | rfl | rfl <;> exact ⟨_, rfl, by decide⟩
      · refine ⟨_, rfl, ?_⟩
        intro code hc
        simp only [Enumeration.codes, PAYMENT_METHODS, List.mem_cons, List.mem_singleton,
          List.not_mem_nil, or_false] at hc
        rcases hc with rfl | rfl | rfl | rfl <;> exact ⟨_, rfl, by decide⟩
      · refine ⟨_, rfl, ?_⟩
        intro code hc
        simp only [Enumeration.codes, EQUIPMENT_STATUS, List.mem_cons, List.mem_singleton,
          List.not_mem_nil, or_false] at hc
        rcases hc with rfl | rfl | rfl | rfl <;> exact ⟨_, rfl, by decide⟩
      · refine ⟨_, rfl, ?_⟩
        intro code hc
        simp only [Enumeration.codes, EQUIPMENT_TYPES, List.mem_cons, List.mem_singleton,
          List.not_mem_nil, or_false] at hc
        rcases hc with rfl | rfl | rfl | rfl | rfl | rfl <;> exact ⟨_, rfl, by decide⟩
      · refine ⟨_, rfl, ?_⟩
        intro code hc
        simp only [Enumeration.codes, TECHNICIAN_SPECIALIZATIONS, List.mem_cons,
          List.mem_singleton, List.not_mem_nil, or_false] at hc
        rcases hc with rfl | rfl | rfl | rfl | rfl | rfl <;> exact ⟨_, rfl, by decide⟩
  · intro s hs
    simp only [CLIENT_TYPES, List.mem_cons, List.mem_singleton, List.not_mem_nil, or_false,
      not_or] at hs
    simp [getClientTypeLabel, hs]
  · intro s hs
    simp only [INVOICE_STATUS, List.mem_cons, List.mem_singleton, List.not_mem_nil, or_false,
      not_or] at hs
    simp [getInvoiceStatusLabel, hs]
  · intro s hs
    simp only [TECHNICIAN_SPECIALIZATIONS, List.mem_cons, List.mem_singleton,
      List.not_mem_nil, or_false, not_or] at hs
    simp [getTechnicianSpecializationLabel, hs]
  · intro s hs
    simp only [EQUIPMENT_STATUS, List.mem_cons, List.mem_singleton, List.not_mem_nil,
      or_false, not_or] at hs
    simp [getEquipmentStatusLabel, hs]
  · intro s hs
    simp only [EQUIPMENT_TYPES, List.mem_cons, List.mem_singleton, List.not_mem_nil, or_false,
      not_or] at hs
    simp [getEquipmentTypeLabel, hs]

/-- Witness of C27 (amended): 'ARCHIVED' is no invoice status and is returned as it is;
'PAID' is labelled 'Payée'. -/
theorem label_lookups_cover_codes_witness :
    "ARCHIVED" ∉ INVOICE_STATUS
    ∧ getInvoiceStatusLabel "ARCHIVED" = "ARCHIVED"
    ∧ getInvoiceStatusLabel "PAID" = "Payée" :=
  ⟨by decide, label_lookups_cover_codes.2.2.1 "ARCHIVED" (by decide), by decide⟩


/-- A text that contains `needle` contains every character of `needle`. -/
theorem mem_of_includesFrom (needle : List Char) :
    ∀ hay : List Char, includesFrom needle hay = true → ∀ c ∈ needle, c ∈ hay := by
  intro hay
  induction hay with
  | nil =>
    intro h c hc
    cases needle with
    | nil => cases hc
    | cons a l => simp [includesFrom] at h
  | cons x xs ih =>
    intro h c hc
    simp only [includesFrom, Bool.or_eq_true] at h
    rcases h with h | h
    · exact (List.isPrefixOf_iff_prefix.1 h).subset hc
    · exact List.mem_cons_of_mem x (ih h c hc)

/-- A keyword with a character that is neither a digit nor a character of
'HTTP error! status: ' does not occur in the message of an HTTP error. -/
theorem httpErrorMessage_lacks (status : Nat) (keyword : String) (x : Char)
    (hx : x ∈ keyword.data) (hd : x.isDigit = false)
    (hp : x ∉ "HTTP error! status: ".data) :
    includes (httpErrorMessage status) keyword = false := by
  cases h : includes (httpErrorMessage status) keyword with
  | false => rfl
  | true =>
    exfalso
    have hmem := mem_of_includesFrom keyword.data (httpErrorMessage status).data h x hx
    have hdata : (httpErrorMessage status).data
        = "HTTP error! status: ".data ++ (Nat.repr status).data := rfl
    rw [hdata, List.mem_append] at hmem
    rcases hmem with hmem | hmem
    · exact hp hmem
    · have hdigits := (repr_isDecimalDigits status).1
      simp only [isDecimalDigits, Bool.and_eq_true, List.all_eq_true] at hdigits
      have := hdigits.2 x hmem
      rw [hd] at this
      cases this


/-- C28: for every HTTP status `s`, the message 'HTTP error! status: s' that `request`
rejects with on a non-success status contains none of the keywords the screens look
for, so the `catch` block of every Submit and Delete handler takes its last branch and
shows its generic failure notification. -/
theorem http_error_selects_generic_failure (s : Nat) :
    (∀ keyword ∈ ["duplicate", "unique", "validation", "fetch", "constraint", "foreign key",
        "conflict", "schedule"], includes (httpErrorMessage s) keyword = false)
    ∧ (∀ (endpoint : String) (options : RequestOptions) (response : Response Json),
        response.ok = false → response.status = s →
        (request endpoint options (.ok response)).result = .error ⟨httpErrorMessage s⟩)
    ∧ (∀ editing, ClientsPage.submitFailure editing (httpErrorMessage s)
        = (.generic, .showError (if editing then "Erreur de modification" else "Erreur de création")
            "Une erreur est survenue lors de la sauvegarde. Veuillez réessayer."))
    ∧ (∀ editing, TechniciansPage.submitFailure editing (httpErrorMessage s)
        = (.generic, .showError (if editing then "Erreur de modification" else "Erreur de création")
            "Une erreur est survenue lors de la sauvegarde. Veuillez réessayer."))
    ∧ (∀ editing, ContractsPage.submitFailure editing (httpErrorMessage s)
        = (.generic, .showError (if editing then "Erreur de modification" else "Erreur de création")
            "Une erreur est survenue lors de la sauvegarde. Veuillez réessayer."))
    ∧ (∀ editing, FacturesPage.submitFailure editing (httpErrorMessage s)
        = (.generic, .showError (if editing then "Erreur de modification" else "Erreur de création")
            "Une erreur est survenue lors de la sauvegarde. Veuillez réessayer."))
    ∧ (∀ editing, InterventionsPage.submitFailure editing (httpErrorMessage s)
        = (.generic,
            .showError (if editing then "Erreur de modification" else "Erreur de planification")
              "Une erreur est survenue lors de la sauvegarde. Veuillez réessayer."))
    ∧ (∀ editing, EquipmentPage.submitFailure editing (httpErrorMessage s)
        = (.generic, .showError (if editing then "Erreur de modification" else "Erreur de création")
            "Une erreur est survenue lors de la sauvegarde. Veuillez réessayer."))
    ∧ ClientsPage.deleteFailure (httpErrorMessage s)
        = (.generic, .showError "Erreur de suppression"
            "Une erreur est survenue lors de la suppression du client. Veuillez réessayer.")
    ∧ TechniciansPage.deleteFailure (httpErrorMessage s)
        = (.generic, .showError "Erreur de suppression"
            "Une erreur est survenue lors de la suppression du technicien. Veuillez réessayer.")
    ∧ ContractsPage.deleteFailure (httpErrorMessage s)
        = (.generic, .showError "Erreur de suppression"
            "Une erreur est survenue lors de la suppression du contrat. Veuillez réessayer.")
    ∧ FacturesPage.deleteFailure (httpErrorMessage s)
        = (.generic, .showError "Erreur de suppression"
            "Une erreur est survenue lors de la suppression de la facture. Veuillez réessayer.")
    ∧ InterventionsPage.deleteFailure (httpErrorMessage s)
        = (.generic, .showError "Erreur d'annulation"
            "Une erreur est survenue lors de l'annulation de l'intervention. Veuillez réessayer.")
    ∧ EquipmentPage.deleteFailure (httpErrorMessage s)
        = (.generic, .showError "Erreur de suppression"
            "Une erreur est survenue lors de la suppression de l'équipement. Veuillez réessayer.") := by
  have h1 : includes (httpErrorMessage s) "duplicate" = false :=
    httpErrorMessage_lacks s "duplicate" 'd' (by decide) (by decide) (by decide)
  have h2 : includes (httpErrorMessage s) "unique" = false :=
    httpErrorMessage_lacks s "unique" 'q' (by decide) (by decide) (by decide)
  have h3 : includes (httpErrorMessage s) "validation" = false :=
    httpErrorMessage_lacks s "validation" 'v' (by decide) (by decide) (by decide)
  have h4 : includes (httpErrorMessage s) "fetch" = false :=
    httpErrorMessage_lacks s "fetch" 'f' (by decide) (by decide) (by decide)
  have h5 : includes (httpErrorMessage s) "constraint" = false :=
    httpErrorMessage_lacks s "constraint" 'c' (by decide) (by decide) (by decide)
  have h6 : includes (httpErrorMessage s) "foreign key" = false :=
    httpErrorMessage_lacks s "foreign key" 'f' (by decide) (by decide) (by decide)
  have h7 : includes (httpErrorMessage s) "conflict" = false :=
    httpErrorMessage_lacks s "conflict" 'c' (by decide) (by decide) (by decide)
  have h8 : includes (httpErrorMessage s) "schedule" = false :=
    httpErrorMessage_lacks s "schedule" 'c' (by decide) (by decide) (by decide)
  refine ⟨?_, ?_, ?_, ?_, ?_, ?_, ?_, ?_, ?_, ?_, ?_, ?_, ?_, ?_⟩
  · intro keyword hk
    simp only [List.mem_cons, List.mem_singleton, List.not_mem_nil, or_false] at hk
    rcases hk with rfl | rfl | rfl | rfl | rfl | rfl | rfl | rfl <;> assumption
  · intro endpoint options response hok hs
    subst hs
    simp [request, requestTry, hok, httpErrorMessage]
  · intro editing; simp [ClientsPage.submitFailure, h1, h2, h3, h4]
  · intro editing; simp [TechniciansPage.submitFailure, h1, h2, h3, h4]
  · intro editing; simp [ContractsPage.submitFailure, h1, h2, h3, h4]
  · intro editing; simp [FacturesPage.submitFailure, h1, h2, h4]
  · intro editing; simp [InterventionsPage.submitFailure, h7, h8, h3, h4]
  · intro editing; simp [EquipmentPage.submitFailure, h1, h2, h3, h4]
  · simp [ClientsPage.deleteFailure, h5, h6, h4]
  · simp [TechniciansPage.deleteFailure, h5, h6, h4]
  · simp [ContractsPage.deleteFailure, h5, h6, h4]
  · simp [FacturesPage.deleteFailure, h5, h6, h4]
  · simp [InterventionsPage.deleteFailure, h5, h6, h4]
  · simp [EquipmentPage.deleteFailure, h5, h6, h4]

/-- Witness of C28: a create rejected with status 409. -/
theorem http_error_selects_generic_failure_witness :
    (request "/clients" { method := some "POST" }
        (.ok (⟨false, 409, none, .ok .null⟩ : Response Json))).result
      = .error ⟨"HTTP error! status: 409"⟩ :=
  (http_error_selects_generic_failure 409).2.1 "/clients" { method := some "POST" }
    ⟨false, 409, none, .ok .null⟩ rfl rfl


/-- Every event of the shell keeps `activeTab` among the identifiers of the sidebar. -/
theorem Dashboard_step_activeTab (st : ShellState) (e : ShellEvent)
    (h : st.activeTab ∈ sidebarIds) : (Dashboard.step st e).activeTab ∈ sidebarIds := by
  cases e with
  | itemClick item =>
    show (Sidebar.navItems.get item).id ∈ sidebarIds
    have hid : (Sidebar.navItems.get item).id ∈ Sidebar.navItems.map NavItem.id :=
      List.mem_map_of_mem NavItem.id (List.get_mem _ _ _)
    exact hid
  | headerMenu => exact h
  | overlay => exact h
  | closeButton => exact h

/-- After any sequence of events `activeTab` is an identifier of the sidebar. -/
theorem Dashboard_run_activeTab (events : List ShellEvent) :
    (Dashboard.run events).activeTab ∈ sidebarIds := by
  have key : ∀ (events : List ShellEvent) (st : ShellState), st.activeTab ∈ sidebarIds →
      (events.foldl Dashboard.step st).activeTab ∈ sidebarIds := by
    intro events
    induction events with
    | nil => intro st h; exact h
    | cons e es ih =>
      intro st h
      rw [List.foldl_cons]
      exact ih _ (Dashboard_step_activeTab st e h)
  exact key events {} (by decide)

/-- C29: starting from `activeTab = 'dashboard'` and changing it only through
`handleItemClick` on an entry of `navItems`, `activeTab` is always one of the seven
sidebar identifiers; each of them selects its own screen in `renderContent`, every
value outside the nine cases selects the dashboard, the 'contact' and 'assistant-ia'
screens are never mounted, and every item click closes the sidebar. -/
theorem shell_shows_sidebar_screens :
    Sidebar.navItems.map NavItem.id
        = ["dashboard", "clients", "contrats", "interventions", "equipment", "factures",
            "techniciens"]
    ∧ (∀ events, (Dashboard.run events).activeTab
        ∈ ["dashboard", "clients", "contrats", "interventions", "equipment", "factures",
            "techniciens"])
    ∧ (MainContent.renderContent "dashboard" = .DashboardPage
      ∧ MainContent.renderContent "clients" = .ClientsPage
      ∧ MainContent.renderContent "contrats" = .ContractsPage
      ∧ MainContent.renderContent "interventions" = .InterventionsPage
      ∧ MainContent.renderContent "equipment" = .EquipmentPage
      ∧ MainContent.renderContent "factures" = .FacturesPage
      ∧ MainContent.renderContent "techniciens" = .TechniciansPage)
    ∧ (∀ tab, tab ∉ ["dashboard", "clients", "contrats", "factures", "interventions",
          "equipment", "techniciens", "contact", "assistant-ia"] →
        MainContent.renderContent tab = .DashboardPage)
    ∧ (∀ events, MainContent.renderContent (Dashboard.run events).activeTab ≠ .ContactPage
        ∧ MainContent.renderContent (Dashboard.run events).activeTab ≠ .AssistantIA)
    ∧ (∀ st item, (Dashboard.step st (.itemClick item)).sidebarOpen = false
        ∧ (Dashboard.step st (.itemClick item)).activeTab = (Sidebar.navItems.get item).id) := by
  refine ⟨rfl, Dashboard_run_activeTab, by decide, ?_, ?_, fun st item => ⟨rfl, rfl⟩⟩
  · intro tab h
    simp only [List.mem_cons, List.mem_singleton, List.not_mem_nil, or_false, not_or] at h
    simp [MainContent.renderContent, h]
  · intro events
    have h := Dashboard_run_activeTab events
    simp only [sidebarIds, List.mem_cons, List.mem_singleton, List.not_mem_nil, or_false] at h
    rcases h with h | h | h | h | h | h | h <;> rw [h] <;> decide

/-- Witness of C29: 'settings' is no case of the `switch` and shows the dashboard. -/
theorem shell_shows_sidebar_screens_witness :
    MainContent.renderContent "settings" = .DashboardPage :=
  shell_shows_sidebar_screens.2.2.2.1 "settings" (by decide)


/-- A number that is not `NaN` is what `x || 0` yields for it (`0 || 0` is 0). -/
theorem orZero_of_ne_nan (a : JsNumber) (h : a ≠ .nan) : a.orZero = a := by
  cases a with
  | nan => exact absurd rfl h
  | posInf => rfl
  | negInf => rfl
  | fin q => exact orZero_fin q

/-- An invoice form whose total is the text '0.00' fails the checks of `handleSubmit`. -/
theorem FacturesPage_validate_zero_total (js : Platform) (f : FactureForm)
    (hread : js.parseFloat "0.00" = .fin 0) (h : f.totalAmount = .str "0.00") :
    ∃ title text, FacturesPage.validate js f = some (.showError title text) := by
  unfold FacturesPage.validate
  split_ifs with h1 h2 h3
  · exact ⟨_, _, rfl⟩
  · exact ⟨_, _, rfl⟩
  · exact ⟨_, _, rfl⟩
  · exfalso
    apply h3
    simp [h, AmountInput.parseFloat, hread, JsNumber.leZero]

/-- C30: in the Invoices form, on a host where adding 0 leaves a number as it is, where
`(0).toFixed(2)` is '0.00' and where `parseFloat('0.00')` is 0: at a change of
`laborCost` or `materialCost`, a sub-field that `parseFloat` reads as `NaN` counts as 0.
With one sub-field read as a number `a` and the other as `NaN`, `totalAmount` becomes
`a.toFixed(2)`; with both read as `NaN` it becomes '0.00', a form `handleSubmit` then
rejects with a validation notification and no API call. A change of any other field,
`totalAmount` included, sets that field only and leaves the total to what was typed or
stored. -/
theorem invoice_total_counts_unparsable_as_zero (js : Platform) (st : FacturesState)
    (value : String)
    (hadd : ∀ x, js.add x (.fin 0) = x ∧ js.add (.fin 0) x = x)
    (hzero : js.toFixed2 (.fin 0) = "0.00") (hread : js.parseFloat "0.00" = .fin 0) :
    (js.parseFloat value ≠ .nan → st.formData.materialCost.parseFloat js = .nan →
      (FacturesPage.handleInputChange js st .laborCost value).formData.totalAmount
        = .str (js.toFixed2 (js.parseFloat value)))
    ∧ (js.parseFloat value ≠ .nan → st.formData.laborCost.parseFloat js = .nan →
      (FacturesPage.handleInputChange js st .materialCost value).formData.totalAmount
        = .str (js.toFixed2 (js.parseFloat value)))
    ∧ (js.parseFloat value = .nan → st.formData.materialCost.parseFloat js ≠ .nan →
      (FacturesPage.handleInputChange js st .laborCost value).formData.totalAmount
        = .str (js.toFixed2 (st.formData.materialCost.parseFloat js)))
    ∧ (js.parseFloat value = .nan → st.formData.laborCost.parseFloat js ≠ .nan →
      (FacturesPage.handleInputChange js st .materialCost value).formData.totalAmount
        = .str (js.toFixed2 (st.formData.laborCost.parseFloat js)))
    ∧ (js.parseFloat value = .nan → st.formData.materialCost.parseFloat js = .nan →
      (FacturesPage.handleInputChange js st .laborCost value).formData.totalAmount
          = .str "0.00"
      ∧ ∀ (saved : Except JsError Unit) reloaded,
          (FacturesPage.handleSubmit js (FacturesPage.handleInputChange js st .laborCost value)
            saved reloaded).rejected (FacturesPage.handleInputChange js st .laborCost value))
    ∧ (js.parseFloat value = .nan → st.formData.laborCost.parseFloat js = .nan →
      (FacturesPage.handleInputChange js st .materialCost value).formData.totalAmount
          = .str "0.00"
      ∧ ∀ (saved : Except JsError Unit) reloaded,
          (FacturesPage.handleSubmit js
            (FacturesPage.handleInputChange js st .materialCost value)
            saved reloaded).rejected
              (FacturesPage.handleInputChange js st .materialCost value))
    ∧ (∀ name, name ≠ .laborCost → name ≠ .materialCost →
      FacturesPage.handleInputChange js st name value
          = { st with formData := st.formData.set name value }
      ∧ (FacturesPage.handleInputChange js st name value).formData.totalAmount
          = if name = .totalAmount then .str value else st.formData.totalAmount) := by
  have hrej : ∀ (st2 : FacturesState), st2.formData.totalAmount = .str "0.00" →
      ∀ (saved : Except JsError Unit) reloaded,
        (FacturesPage.handleSubmit js st2 saved reloaded).rejected st2 := by
    intro st2 h saved reloaded
    obtain ⟨title, text, hv⟩ := FacturesPage_validate_zero_total js st2.formData hread h
    rw [FacturesPage_handleSubmit_invalid js st2 saved reloaded (.showError title text) hv]
    exact ⟨rfl, title, text, rfl⟩
  have hnan : JsNumber.nan.orZero = .fin 0 := rfl
  refine ⟨?_, ?_, ?_, ?_, ?_, ?_, ?_⟩
  · intro ha ho
    simp [FacturesPage.handleInputChange, FacturesPage.changeForm, FactureForm.set, ho,
      orZero_of_ne_nan _ ha, hnan, (hadd _).1]
  · intro ha ho
    simp [FacturesPage.handleInputChange, FacturesPage.changeForm, FactureForm.set, ho,
      orZero_of_ne_nan _ ha, hnan, (hadd _).2]
  · intro ha ho
    simp [FacturesPage.handleInputChange, FacturesPage.changeForm, FactureForm.set, ha,
      orZero_of_ne_nan _ ho, hnan, (hadd _).2]
  · intro ha ho
    simp [FacturesPage.handleInputChange, FacturesPage.changeForm, FactureForm.set, ha,
      orZero_of_ne_nan _ ho, hnan, (hadd _).1]
  · intro ha ho
    have ht : (FacturesPage.handleInputChange js st .laborCost value).formData.totalAmount
        = .str "0.00" := by
      simp [FacturesPage.handleInputChange, FacturesPage.changeForm, FactureForm.set, ha, ho,
        hnan, (hadd _).1, hzero]
    exact ⟨ht, hrej _ ht⟩
  · intro ha ho
    have ht : (FacturesPage.handleInputChange js st .materialCost value).formData.totalAmount
        = .str "0.00" := by
      simp [FacturesPage.handleInputChange, FacturesPage.changeForm, FactureForm.set, ha, ho,
        hnan, (hadd _).1, hzero]
    exact ⟨ht, hrej _ ht⟩
  · intro name h1 h2
    cases name <;>
      simp [FacturesPage.handleInputChange, FacturesPage.changeForm, FactureForm.set] at h1 h2 ⊢


/-- On the sample host adding 0 leaves a number as it is. -/
theorem sampleHost_add_zero (x : JsNumber) :
    sampleHost.add x (.fin 0) = x ∧ sampleHost.add (.fin 0) x = x := by
  cases x <;> simp [sampleHost, sampleAdd]

/-- Witness of C30: on the sample host, 'abc' typed as labour cost in the empty form gives
the total '0.00', and '500.00' gives '500.00'. -/
theorem invoice_total_counts_unparsable_as_zero_witness :
    sampleHost.parseFloat "abc" = .nan
    ∧ sampleHost.parseFloat "" = .nan
    ∧ (FacturesPage.handleInputChange sampleHost {} .laborCost "abc").formData.totalAmount
        = .str "0.00"
    ∧ (FacturesPage.handleInputChange sampleHost {} .laborCost "500.00").formData.totalAmount
        = .str (sampleHost.toFixed2 (sampleHost.parseFloat "500.00"))
    ∧ sampleHost.toFixed2 (sampleHost.parseFloat "500.00") = "500.00" :=
  ⟨by decide!, by decide!,
   ((invoice_total_counts_unparsable_as_zero sampleHost {} "abc"
      sampleHost_add_zero (by decide!) (by decide!)).2.2.2.2.1
      (by decide!) (by decide!)).1,
   (invoice_total_counts_unparsable_as_zero sampleHost {} "500.00"
      sampleHost_add_zero (by decide!) (by decide!)).1
      (by decide!) (by decide!),
   by decide!⟩


/-- C15 (amended): `handleSubmit` of the Invoices screen rejects the form, with a
validation notification, no API call and the state unchanged, whenever `totalAmount` is
empty (or the number 0) or `parseFloat` reads it as a number at or below 0; with the
invoice number and the description filled, the notification is "Le montant total doit
être supérieur à 0.", and a total that is not empty and that `parseFloat` does not read
as a number at or below 0, `NaN` included, passes the checks. -/
theorem invoice_submit_rejects_nonpositive_total {α : Type} (js : Platform)
    (st : FacturesState) (saved : Except JsError α)
    (reloaded : Except JsError (List Facture × List Intervention)) :
    ((st.formData.totalAmount.truthy = false
        ∨ (st.formData.totalAmount.parseFloat js).leZero = true) →
      (FacturesPage.handleSubmit js st saved reloaded).rejected st
      ∧ ¬ (FacturesPage.handleSubmit js st saved reloaded).callsApi)
    ∧ (isBlank st.formData.invoiceNumber = false → isBlank st.formData.description = false →
      (st.formData.totalAmount.truthy = false
        ∨ (st.formData.totalAmount.parseFloat js).leZero = true) →
      (FacturesPage.handleSubmit js st saved reloaded).effects
        = [.preventDefault,
           .showError "Erreur de validation" "Le montant total doit être supérieur à 0."])
    ∧ (isBlank st.formData.invoiceNumber = false → isBlank st.formData.description = false →
      st.formData.totalAmount.truthy = true →
      (st.formData.totalAmount.parseFloat js).leZero = false →
      FacturesPage.validate js st.formData = none) := by
  refine ⟨?_, ?_, ?_⟩
  · intro h
    have hv : ∃ title text,
        FacturesPage.validate js st.formData = some (.showError title text) := by
      unfold FacturesPage.validate
      split_ifs with h1 h2 h3
      · exact ⟨_, _, rfl⟩
      · exact ⟨_, _, rfl⟩
      · exact ⟨_, _, rfl⟩
      · exfalso
        apply h3
        rcases h with h | h
        · simp [h]
        · simp [h]
    obtain ⟨title, text, hv⟩ := hv
    have hrej : (FacturesPage.handleSubmit js st saved reloaded).rejected st := by
      rw [FacturesPage_handleSubmit_invalid js st saved reloaded (.showError title text) hv]
      exact ⟨rfl, title, text, rfl⟩
    exact ⟨hrej, not_callsApi_of_rejected _ st hrej⟩
  · intro hn hd h
    have hv : FacturesPage.validate js st.formData
        = some (.showError "Erreur de validation"
            "Le montant total doit être supérieur à 0.") := by
      unfold FacturesPage.validate
      rw [truthyStr_trim_of_not_blank _ hn, truthyStr_trim_of_not_blank _ hd]
      rcases h with h | h
      · simp [h]
      · simp [h]
    rw [FacturesPage_handleSubmit_invalid js st saved reloaded _ hv]
  · intro hn hd ht hl
    unfold FacturesPage.validate
    rw [truthyStr_trim_of_not_blank _ hn, truthyStr_trim_of_not_blank _ hd]
    simp [ht, hl]

/-- Witness of C15 (amended): on the sample host the total '0' is rejected. -/
theorem invoice_submit_rejects_nonpositive_total_witness :
    ((creatingInvoice "0").formData.totalAmount.parseFloat sampleHost).leZero = true
    ∧ (FacturesPage.handleSubmit sampleHost (creatingInvoice "0")
        (Except.ok () : Except JsError Unit) (Except.ok ([], []))).rejected
          (creatingInvoice "0") :=
  ⟨by decide!,
   ((invoice_submit_rejects_nonpositive_total sampleHost (creatingInvoice "0")
      (Except.ok () : Except JsError Unit) (Except.ok ([], []))).1
      (Or.inr (by decide!))).1⟩


/-- The runs of the email shape may hold an `@`: the text `a@@b.c` has the shape and
passes the test of the regular expression. -/
theorem email_shape_allows_at_sign :
    regexTest emailPattern "a@@b.c" = true ∧ hasEmailShape "a@@b.c" :=
  ⟨by decide, (regexTest_email_iff "a@@b.c").mp (by decide)⟩

end Maintenance
